import Mathlib

/-!
# Sweep2sleep gesture driver (`drivers/input/touchscreen/sweep2sleep.c`)

A shallow embedding of the driver's global state and of the functions that
read and write it, followed by theorems about them.

* C `int` values are integers; the only arithmetic the driver performs on
  them (the dynamic target window) is wrapped to 32 bits by `to_int`.
* The driver's globals are the fields of `State`; every C function becomes a
  function `State → State`.
* Calls that leave the file (`boeffla_press_powerkey`, the work queue, the
  delayed work of the status bar timer) are recorded in three extra fields of
  `State`, so that "the power key was pressed" is a statement about the state.
* `debug` only selects whether `pr_info` lines are printed and is left out.
-/

namespace Sweep2Sleep

/-! ## Constants -/

abbrev STATIC_BANKS : Nat := 4
abbrev DYNAMIC_BANKS : Nat := 1
abbrev BANKS_MAX : Nat := 4

def S2S_Y_BUTTONLIMIT : Int := 1900

def STATUSBAR_Y_MIN : Int := 0
def STATUSBAR_Y_MAX : Int := 80
def STATUSBAR_DT_TIME_MS : Nat := 800

def BIT_STATIC_GESTURE_1 : Int := 0x0001
def BIT_STATIC_GESTURE_2 : Int := 0x0002
def BIT_STATIC_GESTURE_3 : Int := 0x0004
def BIT_STATIC_GESTURE_4 : Int := 0x0008
def BIT_DYNAMIC_GESTURE_1 : Int := 0x0010
def BIT_DYNAMIC_GESTURE_2 : Int := 0x0020
def BIT_DYNAMIC_GESTURE_3 : Int := 0x0040
def BIT_DYNAMIC_GESTURE_4 : Int := 0x0080
def BIT_STATUSBAR_DTSLEEP : Int := 0x0100

/-- The macro `IMPLEMENTED_FUNCTIONS`: the bitwise or of three feature bits. -/
def IMPLEMENTED_FUNCTIONS : Int :=
  Int.lor (Int.lor BIT_DYNAMIC_GESTURE_1 BIT_STATIC_GESTURE_3) BIT_STATIC_GESTURE_4

/-- The errno value returned (negated) on malformed input. -/
def EINVAL : Int := 22

/-- Modelled from the spec: the slot-change marker of the input layer. The
constant comes from the input header, which is not part of the driver file;
the value is the one of the Linux multi-touch protocol. -/
def ABS_MT_SLOT : Nat := 0x2f

/-- Modelled from the spec: the event code carrying an X coordinate update
(input header, not part of the driver file). -/
def ABS_MT_POSITION_X : Nat := 0x35

/-- Modelled from the spec: the event code carrying a Y coordinate update
(input header, not part of the driver file). -/
def ABS_MT_POSITION_Y : Nat := 0x36

/-- Modelled from the spec: the event code whose value -1 is the lift-off
marker (input header, not part of the driver file). -/
def ABS_MT_TRACKING_ID : Nat := 0x39

/-- Modelled from the spec: the power notifier's "screen is on" event (the
notifier header is not part of the driver file). -/
def LCD_EVENT_ON_END : Nat := 2

/-- Modelled from the spec: the power notifier's "screen is off" event (the
notifier header is not part of the driver file). -/
def LCD_EVENT_OFF_END : Nat := 4

/-! ## Gesture tables -/

def STATIC_Y_MIN1 : Fin STATIC_BANKS → Int := ![1900, 1900, 1700, 1700]
def STATIC_Y_MAX1 : Fin STATIC_BANKS → Int := ![2400, 2400, 1920, 1920]
def STATIC_X_MAX1 : Fin STATIC_BANKS → Int := ![1280, 300, 1280, 300]
def STATIC_X_MIN1 : Fin STATIC_BANKS → Int := ![700, 0, 700, 0]

def STATIC_Y_MIN2 : Fin STATIC_BANKS → Int := ![1900, 1900, 1700, 1700]
def STATIC_Y_MAX2 : Fin STATIC_BANKS → Int := ![2400, 2400, 1920, 1920]
def STATIC_X_MAX2 : Fin STATIC_BANKS → Int := ![650, 650, 650, 650]
def STATIC_X_MIN2 : Fin STATIC_BANKS → Int := ![350, 350, 350, 350]

def STATIC_Y_MIN3 : Fin STATIC_BANKS → Int := ![1900, 1900, 1700, 1700]
def STATIC_Y_MAX3 : Fin STATIC_BANKS → Int := ![2400, 2400, 1920, 1920]
def STATIC_X_MAX3 : Fin STATIC_BANKS → Int := ![300, 1280, 300, 1280]
def STATIC_X_MIN3 : Fin STATIC_BANKS → Int := ![0, 700, 0, 700]

def DYNAMIC_Y_MIN1 : Fin DYNAMIC_BANKS → Int := ![800]
def DYNAMIC_Y_MAX1 : Fin DYNAMIC_BANKS → Int := ![1600]
def DYNAMIC_X_MAX1 : Fin DYNAMIC_BANKS → Int := ![1280]
def DYNAMIC_X_MIN1 : Fin DYNAMIC_BANKS → Int := ![800]

def DYNAMIC_Y_OFFSET2 : Fin DYNAMIC_BANKS → Int := ![100]
def DYNAMIC_Y_SIZE2 : Fin DYNAMIC_BANKS → Int := ![200]
def DYNAMIC_X_OFFSET2 : Fin DYNAMIC_BANKS → Int := ![-300]
def DYNAMIC_X_SIZE2 : Fin DYNAMIC_BANKS → Int := ![200]

def DYNAMIC_Y_OFFSET3 : Fin DYNAMIC_BANKS → Int := ![100]
def DYNAMIC_Y_SIZE3 : Fin DYNAMIC_BANKS → Int := ![200]
def DYNAMIC_X_OFFSET3 : Fin DYNAMIC_BANKS → Int := ![-300]
def DYNAMIC_X_SIZE3 : Fin DYNAMIC_BANKS → Int := ![200]

/-! ## Machine integers -/

/-- The value a C `int` holds after an arithmetic result `v`: the 32-bit
two's complement representative of `v`. -/
def to_int (v : Int) : Int := (v + 2147483648) % 4294967296 - 2147483648

/-! ## State -/

/-- The place a call of `boeffla_press_powerkey` was made from. -/
inductive PressSite where
  | static_gesture (i : Fin STATIC_BANKS)
  | dynamic_gesture (i : Fin DYNAMIC_BANKS)
  | status_bar
deriving DecidableEq

/-- The driver's global variables, and three fields that record what the
driver asked of the rest of the kernel. -/
structure State where
  s2s : Int
  touch_x : Int
  touch_y : Int
  statusBarWithinTime : Int
  touch_x_called : Bool
  touch_y_called : Bool
  scr_suspended : Bool
  exec_count : Bool
  scr_on_touch : Bool
  static_bank_active : Fin BANKS_MAX → Bool
  static_barrier1 : Fin STATIC_BANKS → Bool
  static_barrier2 : Fin STATIC_BANKS → Bool
  dynamic_bank_active : Fin BANKS_MAX → Bool
  dynamic_barrier1 : Fin DYNAMIC_BANKS → Bool
  dynamic_barrier2 : Fin DYNAMIC_BANKS → Bool
  dynamic_next_x_min : Int
  dynamic_next_x_max : Int
  dynamic_next_y_min : Int
  dynamic_next_y_max : Int
  /-- Every call of `boeffla_press_powerkey` so far, oldest first. -/
  powerkey_log : List PressSite
  /-- Whether `s2s_input_work` is queued and has not started yet. -/
  s2s_input_work_pending : Bool
  /-- Whether the delayed work `statusBarTimer` is scheduled. -/
  statusBarTimer_pending : Bool

/-- The values the globals are initialised with. -/
def init : State where
  s2s := 0
  touch_x := 0
  touch_y := 0
  statusBarWithinTime := 0
  touch_x_called := false
  touch_y_called := false
  scr_suspended := false
  exec_count := true
  scr_on_touch := false
  static_bank_active := fun _ => false
  static_barrier1 := fun _ => false
  static_barrier2 := fun _ => false
  dynamic_bank_active := fun _ => false
  dynamic_barrier1 := fun _ => false
  dynamic_barrier2 := fun _ => false
  dynamic_next_x_min := 0
  dynamic_next_x_max := 0
  dynamic_next_y_min := 0
  dynamic_next_y_max := 0
  powerkey_log := []
  s2s_input_work_pending := false
  statusBarTimer_pending := false

/-- The dynamic bank `i` seen as an index of `dynamic_bank_active`, which has
`BANKS_MAX` entries. -/
def dynamic_bank_index (i : Fin DYNAMIC_BANKS) : Fin BANKS_MAX :=
  Fin.castLE (by decide) i

/-! ## Calls that leave the file -/

/-- Modelled from the spec: the trigger action, "an opaque power key press
effect" whose helper is not part of the driver file. The call is appended to
`powerkey_log` together with the place it was made from. -/
def boeffla_press_powerkey (site : PressSite) (s : State) : State :=
  { s with powerkey_log := s.powerkey_log ++ [site] }

/-- Modelled from the spec: handing `s2s_input_work` to the deferred worker,
a queue of depth one (the work queue is not part of the driver file). -/
def queue_work_on (s : State) : State :=
  { s with s2s_input_work_pending := true }

/-- Modelled from the spec: cancelling the pending expiry of the double-tap
window (the delayed-work API is not part of the driver file). -/
def cancel_delayed_work_sync (s : State) : State :=
  { s with statusBarTimer_pending := false }

/-- Modelled from the spec: scheduling the expiry of the double-tap window
(the delayed-work API is not part of the driver file). -/
def schedule_delayed_work (s : State) : State :=
  { s with statusBarTimer_pending := true }

/-! ## Internal functions -/

/-- `statusBarTimer_work`: reset the timer active flag. -/
def statusBarTimer_work (s : State) : State :=
  { s with statusBarWithinTime := 0 }

/-- `sweep2sleep_reset`. -/
def sweep2sleep_reset (s : State) : State :=
  let s := { s with exec_count := true, scr_on_touch := false }
  let s := (List.finRange STATIC_BANKS).foldl
    (fun s i => { s with
      static_barrier1 := Function.update s.static_barrier1 i false,
      static_barrier2 := Function.update s.static_barrier2 i false }) s
  (List.finRange DYNAMIC_BANKS).foldl
    (fun s i => { s with
      dynamic_barrier1 := Function.update s.dynamic_barrier1 i false,
      dynamic_barrier2 := Function.update s.dynamic_barrier2 i false }) s

/-- `doubleTapStatusBar`. -/
def doubleTapStatusBar (_x y : Int) (s : State) : State :=
  if y < STATUSBAR_Y_MIN ∨ y > STATUSBAR_Y_MAX ∨ s.scr_suspended = true then
    s
  else if s.statusBarWithinTime ≠ 0 then
    { boeffla_press_powerkey PressSite.status_bar s with statusBarWithinTime := 0 }
  else
    { schedule_delayed_work (cancel_delayed_work_sync s) with statusBarWithinTime := 1 }

/-- The body of the static loop of `detect_sweep2sleep` for bank `i`. -/
def static_bank_step (x y : Int) (s : State) (i : Fin STATIC_BANKS) : State :=
  if s.static_bank_active i = true then
    if s.static_barrier1 i = true ∨
        (x < STATIC_X_MAX1 i ∧ x > STATIC_X_MIN1 i ∧
         y < STATIC_Y_MAX1 i ∧ y > STATIC_Y_MIN1 i) then
      let s1 := { s with static_barrier1 := Function.update s.static_barrier1 i true }
      if s1.static_barrier2 i = true ∨
          (x < STATIC_X_MAX2 i ∧ x > STATIC_X_MIN2 i ∧
           y < STATIC_Y_MAX2 i ∧ y > STATIC_Y_MIN2 i) then
        let s2 := { s1 with static_barrier2 := Function.update s1.static_barrier2 i true }
        if x < STATIC_X_MAX3 i ∧ x > STATIC_X_MIN3 i ∧
            y < STATIC_Y_MAX3 i ∧ y > STATIC_Y_MIN3 i then
          if s2.exec_count = true then
            sweep2sleep_reset
              { boeffla_press_powerkey (PressSite.static_gesture i) s2 with
                exec_count := false }
          else s2
        else s2
      else s1
    else s
  else s

/-- The body of the dynamic loop of `detect_sweep2sleep` for bank `i`. -/
def dynamic_bank_step (x y : Int) (s : State) (i : Fin DYNAMIC_BANKS) : State :=
  if s.dynamic_bank_active (dynamic_bank_index i) = true then
    if s.dynamic_barrier1 i = true ∨
        (x < DYNAMIC_X_MAX1 i ∧ x > DYNAMIC_X_MIN1 i ∧
         y < DYNAMIC_Y_MAX1 i ∧ y > DYNAMIC_Y_MIN1 i) then
      let s1 :=
        if s.dynamic_barrier1 i = false then
          { s with
            dynamic_barrier1 := Function.update s.dynamic_barrier1 i true,
            dynamic_next_x_min := to_int (x + DYNAMIC_X_OFFSET2 i),
            dynamic_next_x_max :=
              to_int (to_int (x + DYNAMIC_X_OFFSET2 i) + DYNAMIC_X_SIZE2 i),
            dynamic_next_y_min := to_int (y + DYNAMIC_Y_OFFSET2 i),
            dynamic_next_y_max :=
              to_int (to_int (y + DYNAMIC_Y_OFFSET2 i) + DYNAMIC_Y_SIZE2 i) }
        else s
      if s1.dynamic_barrier2 i = true ∨
          (x < s1.dynamic_next_x_max ∧ x > s1.dynamic_next_x_min ∧
           y < s1.dynamic_next_y_max ∧ y > s1.dynamic_next_y_min) then
        let s2 :=
          if s1.dynamic_barrier2 i = false then
            { s1 with
              dynamic_barrier2 := Function.update s1.dynamic_barrier2 i true,
              dynamic_next_x_min := to_int (x + DYNAMIC_X_OFFSET3 i),
              dynamic_next_x_max :=
                to_int (to_int (x + DYNAMIC_X_OFFSET3 i) + DYNAMIC_X_SIZE3 i),
              dynamic_next_y_min := to_int (y + DYNAMIC_Y_OFFSET3 i),
              dynamic_next_y_max :=
                to_int (to_int (y + DYNAMIC_Y_OFFSET3 i) + DYNAMIC_Y_SIZE3 i) }
          else s1
        if x < s2.dynamic_next_x_max ∧ x > s2.dynamic_next_x_min ∧
            y < s2.dynamic_next_y_max ∧ y > s2.dynamic_next_y_min then
          if s2.exec_count = true then
            sweep2sleep_reset
              { boeffla_press_powerkey (PressSite.dynamic_gesture i) s2 with
                exec_count := false }
          else s2
        else s2
      else s1
    else s
  else s

/-- `detect_sweep2sleep`, the main function. -/
def detect_sweep2sleep (x y : Int) (s : State) : State :=
  if s.scr_suspended = false ∧ s.s2s ≠ 0 then
    let s := { s with scr_on_touch := true }
    let s := (List.finRange STATIC_BANKS).foldl (static_bank_step x y) s
    (List.finRange DYNAMIC_BANKS).foldl (dynamic_bank_step x y) s
  else s

/-- `s2s_input_callback`, the function the queued work runs. -/
def s2s_input_callback (s : State) : State :=
  if s.s2s ≠ 0 then detect_sweep2sleep s.touch_x s.touch_y s else s

/-- `s2s_input_event`, the input event dispatcher (the event type is not
looked at). -/
def s2s_input_event (code : Nat) (value : Int) (s : State) : State :=
  if s.s2s = 0 then s
  else if code = ABS_MT_SLOT then sweep2sleep_reset s
  else if code = ABS_MT_TRACKING_ID ∧ value = -1 then
    let s :=
      if Int.land s.s2s BIT_STATUSBAR_DTSLEEP ≠ 0 then
        doubleTapStatusBar s.touch_x s.touch_y s
      else s
    if s.touch_y < S2S_Y_BUTTONLIMIT then sweep2sleep_reset s else s
  else
    let s :=
      if code = ABS_MT_POSITION_X then
        { s with touch_x := value, touch_x_called := true }
      else s
    let s :=
      if code = ABS_MT_POSITION_Y then
        { s with touch_y := value, touch_y_called := true }
      else s
    if s.touch_x_called = true ∧ s.touch_y_called = true then
      queue_work_on { s with touch_x_called := false, touch_y_called := false }
    else s

/-- `lcd_notifier_callback`. -/
def lcd_notifier_callback (event : Nat) (s : State) : State :=
  if event = LCD_EVENT_ON_END then { s with scr_suspended := false }
  else if event = LCD_EVENT_OFF_END then { s with scr_suspended := true }
  else s

/-- `sweep2sleep_store`. The buffer is given by what `sscanf(buf, "%d", &val)`
makes of it: `none` when no integer is read, `some val` otherwise. The result
is the returned `ssize_t` and the new state. -/
def sweep2sleep_store (buf : Option Int) (count : Nat) (s : State) : Int × State :=
  match buf with
  | none => (-EINVAL, s)
  | some v =>
    let val := Int.land v IMPLEMENTED_FUNCTIONS
    if val ≥ 0x00 ∧ val ≤ 0xFFFF then
      let s := { s with s2s := val }
      let s := (List.finRange STATIC_BANKS).foldl
        (fun s i => { s with
          static_bank_active := Function.update s.static_bank_active i
            (decide (Int.land (s.s2s >>> i.val) 0x01 ≠ 0)) }) s
      let s := (List.finRange DYNAMIC_BANKS).foldl
        (fun s i => { s with
          dynamic_bank_active := Function.update s.dynamic_bank_active
            (dynamic_bank_index i)
            (decide (Int.land (s.s2s >>> (i.val + 4)) 0x01 ≠ 0)) }) s
      (count, s)
    else (count, s)

/-! ## Runs of the driver -/

/-- What can happen to the driver: a write to the `sweep2sleep` attribute, a
notification of the display, an input event, the queued work starting, the
status bar timer expiring. -/
inductive Event where
  | store (buf : Option Int) (count : Nat)
  | lcd (event : Nat)
  | input (code : Nat) (value : Int)
  | work
  | timer

/-- One event handled. The queued work and the timer only run when they are
pending, and are no longer pending once they start. -/
def step (s : State) : Event → State
  | Event.store buf count => (sweep2sleep_store buf count s).2
  | Event.lcd event => lcd_notifier_callback event s
  | Event.input code value => s2s_input_event code value s
  | Event.work =>
    if s.s2s_input_work_pending = true then
      s2s_input_callback { s with s2s_input_work_pending := false }
    else s
  | Event.timer =>
    if s.statusBarTimer_pending = true then
      statusBarTimer_work { s with statusBarTimer_pending := false }
    else s

/-- A sequence of events handled in order. -/
def run (s : State) (evs : List Event) : State := evs.foldl step s

/-- The states the driver can be in: those a sequence of events leads to from
the initial state. -/
def Reachable (s : State) : Prop := ∃ evs : List Event, run init evs = s

/-- A sequence of coordinate samples handed to `detect_sweep2sleep` one after
the other, with nothing in between. -/
def detect_all (s : State) (samples : List (Int × Int)) : State :=
  samples.foldl (fun s p => detect_sweep2sleep p.1 p.2 s) s

/-- The input events that deliver the sample `(x, y)` and the run of the
queued work that follows. -/
def sample_events (x y : Int) : List Event :=
  [Event.input ABS_MT_POSITION_X x, Event.input ABS_MT_POSITION_Y y, Event.work]

/-! ## Gesture geometry, as the specification words it

A rectangle is open: a point is inside when it is strictly between the bounds
on both axes. -/

/-- The sample is strictly inside stage 1 of static bank `i`. -/
def static_stage1 (i : Fin STATIC_BANKS) (x y : Int) : Prop :=
  x < STATIC_X_MAX1 i ∧ x > STATIC_X_MIN1 i ∧ y < STATIC_Y_MAX1 i ∧ y > STATIC_Y_MIN1 i

/-- The sample is strictly inside stage 2 of static bank `i`. -/
def static_stage2 (i : Fin STATIC_BANKS) (x y : Int) : Prop :=
  x < STATIC_X_MAX2 i ∧ x > STATIC_X_MIN2 i ∧ y < STATIC_Y_MAX2 i ∧ y > STATIC_Y_MIN2 i

/-- The sample is strictly inside stage 3 of static bank `i`. -/
def static_stage3 (i : Fin STATIC_BANKS) (x y : Int) : Prop :=
  x < STATIC_X_MAX3 i ∧ x > STATIC_X_MIN3 i ∧ y < STATIC_Y_MAX3 i ∧ y > STATIC_Y_MIN3 i

/-- The sample is strictly inside the anchor rectangle of dynamic bank `i`. -/
def dynamic_anchor (i : Fin DYNAMIC_BANKS) (x y : Int) : Prop :=
  x < DYNAMIC_X_MAX1 i ∧ x > DYNAMIC_X_MIN1 i ∧ y < DYNAMIC_Y_MAX1 i ∧ y > DYNAMIC_Y_MIN1 i

/-- The sample is strictly inside the stored target window. -/
def in_window (s : State) (x y : Int) : Prop :=
  x < s.dynamic_next_x_max ∧ x > s.dynamic_next_x_min ∧
  y < s.dynamic_next_y_max ∧ y > s.dynamic_next_y_min

instance (i : Fin STATIC_BANKS) (x y : Int) : Decidable (static_stage1 i x y) := by
  unfold static_stage1; infer_instance

instance (i : Fin STATIC_BANKS) (x y : Int) : Decidable (static_stage2 i x y) := by
  unfold static_stage2; infer_instance

instance (i : Fin STATIC_BANKS) (x y : Int) : Decidable (static_stage3 i x y) := by
  unfold static_stage3; infer_instance

instance (i : Fin DYNAMIC_BANKS) (x y : Int) : Decidable (dynamic_anchor i x y) := by
  unfold dynamic_anchor; infer_instance

instance (s : State) (x y : Int) : Decidable (in_window s x y) := by
  unfold in_window; infer_instance

/-- The state right after a full match: the press is logged and
`sweep2sleep_reset` has run. -/
def after_match (site : PressSite) (s : State) : State :=
  { s with
    exec_count := true, scr_on_touch := false,
    static_barrier1 := fun _ => false, static_barrier2 := fun _ => false,
    dynamic_barrier1 := fun _ => false, dynamic_barrier2 := fun _ => false,
    powerkey_log := s.powerkey_log ++ [site] }

/-- A lift-off is a qualifying tap for the double-tap detector: the feature
bit is set, the screen is not suspended, and the last known Y lies in the
status bar band, bounds included. -/
def qualifying_tap (s : State) : Prop :=
  Int.land s.s2s BIT_STATUSBAR_DTSLEEP ≠ 0 ∧ s.scr_suspended = false ∧
  STATUSBAR_Y_MIN ≤ s.touch_y ∧ s.touch_y ≤ STATUSBAR_Y_MAX

instance (s : State) : Decidable (qualifying_tap s) := by
  unfold qualifying_tap; infer_instance

/-- The lift-off marker handled by the input event dispatcher. -/
def lift_off (s : State) : State := s2s_input_event ABS_MT_TRACKING_ID (-1) s

/-- The slot-change marker handled by the input event dispatcher. -/
def slot_change (value : Int) (s : State) : State := s2s_input_event ABS_MT_SLOT value s

/-! ## Sessions and sample sequences, as the specification words them -/

/-- The fresh state of a session: every latch false and the session guard
armed. -/
def fresh_session (s : State) : Prop :=
  (∀ j, s.static_barrier1 j = false) ∧ (∀ j, s.static_barrier2 j = false) ∧
  (∀ j, s.dynamic_barrier1 j = false) ∧ (∀ j, s.dynamic_barrier2 j = false) ∧
  s.exec_count = true

/-- The engine is enabled with the screen on, and static bank `i` is the only
active bank. -/
def only_static_bank (i : Fin STATIC_BANKS) (s : State) : Prop :=
  s.scr_suspended = false ∧ s.s2s ≠ 0 ∧ s.static_bank_active i = true ∧
  (∀ j, j ≠ i → s.static_bank_active j = false) ∧
  (∀ j, s.dynamic_bank_active j = false)

/-- The power key was pressed at least once between the state `s` and the
later state `t`. -/
def pressed_between (s t : State) : Prop :=
  s.powerkey_log.length < t.powerkey_log.length

/-- Some sample of the sequence satisfies `R`. -/
def occurs1 (R : Int × Int → Prop) (l : List (Int × Int)) : Prop :=
  ∃ (c : Nat) (pc : Int × Int), l[c]? = some pc ∧ R pc

/-- There are indices `b < c` with sample `b` satisfying `Q` and sample `c`
satisfying `R`. -/
def occurs2 (Q R : Int × Int → Prop) (l : List (Int × Int)) : Prop :=
  ∃ (b c : Nat) (pb pc : Int × Int), b < c ∧ l[b]? = some pb ∧ l[c]? = some pc ∧ Q pb ∧ R pc

/-- There are indices `a < b < c` with sample `a` satisfying `P`, sample `b`
satisfying `Q` and sample `c` satisfying `R`. -/
def occurs3 (P Q R : Int × Int → Prop) (l : List (Int × Int)) : Prop :=
  ∃ (a b c : Nat) (pa pb pc : Int × Int), a < b ∧ b < c ∧
    l[a]? = some pa ∧ l[b]? = some pb ∧ l[c]? = some pc ∧ P pa ∧ Q pb ∧ R pc

/-- There are indices `a < b < c` such that sample `a` is strictly inside
stage 1 of static bank `i`, sample `b` strictly inside stage 2 and sample `c`
strictly inside stage 3. -/
def ordered_match (i : Fin STATIC_BANKS) (l : List (Int × Int)) : Prop :=
  occurs3 (fun p => static_stage1 i p.1 p.2) (fun p => static_stage2 i p.1 p.2)
    (fun p => static_stage3 i p.1 p.2) l

/-- The initial state with the engine enabled for static bank `i` alone. -/
def static_bank_alone (i : Fin STATIC_BANKS) : State :=
  { init with
    s2s := ![BIT_STATIC_GESTURE_1, BIT_STATIC_GESTURE_2, BIT_STATIC_GESTURE_3,
      BIT_STATIC_GESTURE_4] i,
    static_bank_active := fun j => decide (j = i) }

/-- The state `t` agrees with `u` on everything the dynamic loop reads or the
press log records: only static latches and `scr_on_touch` may differ. -/
def same_dynamic (u t : State) : Prop :=
  t.exec_count = u.exec_count ∧
  t.dynamic_bank_active = u.dynamic_bank_active ∧
  t.dynamic_barrier1 = u.dynamic_barrier1 ∧
  t.dynamic_barrier2 = u.dynamic_barrier2 ∧
  t.dynamic_next_x_min = u.dynamic_next_x_min ∧
  t.dynamic_next_x_max = u.dynamic_next_x_max ∧
  t.dynamic_next_y_min = u.dynamic_next_y_min ∧
  t.dynamic_next_y_max = u.dynamic_next_y_max ∧
  t.powerkey_log = u.powerkey_log

/-! ## Rectangle edges -/

/-- The sample lies on an edge line of stage 1 of static bank `i`: one of its
coordinates equals a bound of the rectangle. -/
def static_edge1 (i : Fin STATIC_BANKS) (x y : Int) : Prop :=
  x = STATIC_X_MIN1 i ∨ x = STATIC_X_MAX1 i ∨ y = STATIC_Y_MIN1 i ∨ y = STATIC_Y_MAX1 i

/-- The sample lies on an edge line of stage 2 of static bank `i`. -/
def static_edge2 (i : Fin STATIC_BANKS) (x y : Int) : Prop :=
  x = STATIC_X_MIN2 i ∨ x = STATIC_X_MAX2 i ∨ y = STATIC_Y_MIN2 i ∨ y = STATIC_Y_MAX2 i

/-- The sample lies on an edge line of stage 3 of static bank `i`. -/
def static_edge3 (i : Fin STATIC_BANKS) (x y : Int) : Prop :=
  x = STATIC_X_MIN3 i ∨ x = STATIC_X_MAX3 i ∨ y = STATIC_Y_MIN3 i ∨ y = STATIC_Y_MAX3 i

/-- The sample lies on an edge line of the anchor of dynamic bank `i`. -/
def dynamic_anchor_edge (i : Fin DYNAMIC_BANKS) (x y : Int) : Prop :=
  x = DYNAMIC_X_MIN1 i ∨ x = DYNAMIC_X_MAX1 i ∨ y = DYNAMIC_Y_MIN1 i ∨ y = DYNAMIC_Y_MAX1 i

/-- The sample lies on an edge line of the stored target window. -/
def window_edge (s : State) (x y : Int) : Prop :=
  x = s.dynamic_next_x_min ∨ x = s.dynamic_next_x_max ∨
  y = s.dynamic_next_y_min ∨ y = s.dynamic_next_y_max

/-- The call on `(x, y)` from `s` logs no press made for the site `site`. -/
def no_press_for (site : PressSite) (s t : State) : Prop :=
  ∃ l, t.powerkey_log = s.powerkey_log ++ l ∧ site ∉ l

/-! ## The stored window while stage 2 of the dynamic bank is awaited -/

/-- While stage 1 of the dynamic bank is latched and stage 2 is not, the
stored window is the one computed from a point of the anchor. -/
def window_from_anchor (s : State) : Prop :=
  s.dynamic_barrier1 0 = true → s.dynamic_barrier2 0 = false →
    ∃ x0 y0 : Int, dynamic_anchor 0 x0 y0 ∧
      s.dynamic_next_x_min = x0 - 300 ∧ s.dynamic_next_x_max = x0 - 100 ∧
      s.dynamic_next_y_min = y0 + 100 ∧ s.dynamic_next_y_max = y0 + 300

/-- The stored target window `(x_min, x_max, y_min, y_max)`. -/
def stored_window (s : State) : Int × Int × Int × Int :=
  (s.dynamic_next_x_min, s.dynamic_next_x_max, s.dynamic_next_y_min, s.dynamic_next_y_max)

/-- The window the driver computes from the sample `(x, y)`: offsets -300 and
+100, sizes 200 and 200, in 32-bit arithmetic. -/
def computed_window (x y : Int) : Int × Int × Int × Int :=
  (to_int (x + -300), to_int (to_int (x + -300) + 200),
   to_int (y + 100), to_int (to_int (y + 100) + 200))

/-- The four things a call on `(x, y)` from `s` can do to the latches of the
dynamic bank and to the stored window, `r` being the state it returns: leave
them; clear the latches after a match; latch stage 1 on a sample of the
anchor and compute the window from it; latch stage 2 on a sample of the
stored window and compute the window from it. -/
def dynamic_call_outcome (x y : Int) (s r : State) : Prop :=
  (r.dynamic_barrier1 0 = s.dynamic_barrier1 0 ∧
    r.dynamic_barrier2 0 = s.dynamic_barrier2 0 ∧
    stored_window r = stored_window s ∧ r.powerkey_log = s.powerkey_log) ∨
  (r.dynamic_barrier1 0 = false ∧ r.dynamic_barrier2 0 = false ∧
    stored_window r = stored_window s ∧
    s.powerkey_log.length < r.powerkey_log.length) ∨
  (dynamic_anchor 0 x y ∧
    (s.dynamic_barrier1 0 = false ∨ s.powerkey_log.length < r.powerkey_log.length) ∧
    r.dynamic_barrier1 0 = true ∧
    (r.dynamic_barrier2 0 = true → s.dynamic_barrier2 0 = true) ∧
    stored_window r = computed_window x y) ∨
  (s.dynamic_barrier1 0 = true ∧ s.dynamic_barrier2 0 = false ∧ in_window s x y ∧
    r.dynamic_barrier1 0 = true ∧ r.dynamic_barrier2 0 = true ∧
    stored_window r = computed_window x y ∧ r.powerkey_log = s.powerkey_log)

/-! ## Session resets, as the specification words them -/

/-- The state `t` has the latches of every bank and the session guard exactly
as `s` has them. -/
def same_latches (s t : State) : Prop :=
  t.static_barrier1 = s.static_barrier1 ∧ t.static_barrier2 = s.static_barrier2 ∧
  t.dynamic_barrier1 = s.dynamic_barrier1 ∧ t.dynamic_barrier2 = s.dynamic_barrier2 ∧
  t.exec_count = s.exec_count

/-- Bit `k` of the C `int` `v`, the way the driver reads it: `(v >> k) & 0x01`
turned into a `bool`. -/
def bit_of (v : Int) (k : Nat) : Bool := decide (Int.land (v >>> k) 0x01 ≠ 0)

/-- The double-tap feature bit is clear in `s2s` and static banks 1 and 2 (the
soft key gestures, indices 0 and 1) are inactive. -/
def mask_invariant (s : State) : Prop :=
  Int.land s.s2s BIT_STATUSBAR_DTSLEEP = 0 ∧
  s.static_bank_active 0 = false ∧ s.static_bank_active 1 = false

/-- Every latch that is true in `s` is true in `t`. -/
def latches_kept (s t : State) : Prop :=
  (∀ k, s.static_barrier1 k = true → t.static_barrier1 k = true) ∧
  (∀ k, s.static_barrier2 k = true → t.static_barrier2 k = true) ∧
  (∀ k, s.dynamic_barrier1 k = true → t.dynamic_barrier1 k = true) ∧
  (∀ k, s.dynamic_barrier2 k = true → t.dynamic_barrier2 k = true)

/-! ## The loops, unrolled -/

theorem finRange_STATIC_BANKS : List.finRange STATIC_BANKS = [0, 1, 2, 3] := by
  decide

theorem finRange_DYNAMIC_BANKS : List.finRange DYNAMIC_BANKS = [0] := by
  decide

theorem static_bank_cases (j : Fin STATIC_BANKS) : j = 0 ∨ j = 1 ∨ j = 2 ∨ j = 3 := by
  revert j; decide

theorem dynamic_bank_eq_zero (j : Fin DYNAMIC_BANKS) : j = 0 := by
  revert j; decide

theorem sweep2sleep_reset_eq (s : State) :
    sweep2sleep_reset s =
      { s with
        exec_count := true, scr_on_touch := false,
        static_barrier1 := fun _ => false, static_barrier2 := fun _ => false,
        dynamic_barrier1 := fun _ => false, dynamic_barrier2 := fun _ => false } := by
  have h4 : ∀ f : Fin STATIC_BANKS → Bool,
      Function.update (Function.update (Function.update (Function.update f 0 false)
        1 false) 2 false) 3 false = fun _ => false := by
    intro f; funext j
    rcases static_bank_cases j with rfl | rfl | rfl | rfl <;> simp [Function.update]
  have h1 : ∀ f : Fin DYNAMIC_BANKS → Bool,
      Function.update f 0 false = fun _ => false := by
    intro f; funext j
    rw [dynamic_bank_eq_zero j]; simp [Function.update]
  simp [sweep2sleep_reset, finRange_STATIC_BANKS, finRange_DYNAMIC_BANKS, h4, h1]

theorem detect_sweep2sleep_eq (x y : Int) (s : State) :
    detect_sweep2sleep x y s =
      if s.scr_suspended = false ∧ s.s2s ≠ 0 then
        dynamic_bank_step x y
          (static_bank_step x y (static_bank_step x y (static_bank_step x y
            (static_bank_step x y { s with scr_on_touch := true } 0) 1) 2) 3) 0
      else s := by
  simp [detect_sweep2sleep, finRange_STATIC_BANKS, finRange_DYNAMIC_BANKS]

/-! ## What one pass of a loop body does -/

/-- A sample never lies strictly inside the window computed from itself. -/
theorem not_in_own_window (x : Int) :
    ¬ (x < to_int (to_int (x + -300) + 200) ∧ x > to_int (x + -300)) := by
  unfold to_int; omega

/-- The window computed from a sample that needs no wrapping. -/
theorem to_int_of_range (v : Int) (h1 : -2147483648 ≤ v) (h2 : v < 2147483648) :
    to_int v = v := by
  unfold to_int; omega

/-- The three stages of a static bank have no point in common, pairwise. -/
theorem static_stage12_disjoint (i : Fin STATIC_BANKS) (x : Int) :
    ¬ ((x < STATIC_X_MAX1 i ∧ x > STATIC_X_MIN1 i) ∧
       (x < STATIC_X_MAX2 i ∧ x > STATIC_X_MIN2 i)) := by
  rcases static_bank_cases i with rfl | rfl | rfl | rfl <;>
    simp [STATIC_X_MAX1, STATIC_X_MIN1, STATIC_X_MAX2, STATIC_X_MIN2] <;> omega

theorem static_stage23_disjoint (i : Fin STATIC_BANKS) (x : Int) :
    ¬ ((x < STATIC_X_MAX2 i ∧ x > STATIC_X_MIN2 i) ∧
       (x < STATIC_X_MAX3 i ∧ x > STATIC_X_MIN3 i)) := by
  rcases static_bank_cases i with rfl | rfl | rfl | rfl <;>
    simp [STATIC_X_MAX2, STATIC_X_MIN2, STATIC_X_MAX3, STATIC_X_MIN3] <;> omega

theorem static_stage13_disjoint (i : Fin STATIC_BANKS) (x : Int) :
    ¬ ((x < STATIC_X_MAX1 i ∧ x > STATIC_X_MIN1 i) ∧
       (x < STATIC_X_MAX3 i ∧ x > STATIC_X_MIN3 i)) := by
  rcases static_bank_cases i with rfl | rfl | rfl | rfl <;>
    simp [STATIC_X_MAX1, STATIC_X_MIN1, STATIC_X_MAX3, STATIC_X_MIN3] <;> omega

theorem static_bank_step_idle (x y : Int) (s : State) (i : Fin STATIC_BANKS)
    (h : ¬ (s.static_bank_active i = true ∧
      (s.static_barrier1 i = true ∨ static_stage1 i x y))) :
    static_bank_step x y s i = s := by
  unfold static_stage1 at h
  unfold static_bank_step
  by_cases ha : s.static_bank_active i = true
  · rw [if_pos ha, if_neg (fun hc => h ⟨ha, hc⟩)]
  · rw [if_neg ha]

theorem static_bank_step_latch1 (x y : Int) (s : State) (i : Fin STATIC_BANKS)
    (ha : s.static_bank_active i = true)
    (h1 : s.static_barrier1 i = true ∨ static_stage1 i x y)
    (h2 : ¬ (s.static_barrier2 i = true ∨ static_stage2 i x y)) :
    static_bank_step x y s i =
      { s with static_barrier1 := Function.update s.static_barrier1 i true } := by
  unfold static_stage1 at h1
  unfold static_stage2 at h2
  unfold static_bank_step
  rw [if_pos ha, if_pos h1]
  simp only []
  rw [if_neg h2]

theorem static_bank_step_latch2 (x y : Int) (s : State) (i : Fin STATIC_BANKS)
    (ha : s.static_bank_active i = true)
    (h1 : s.static_barrier1 i = true ∨ static_stage1 i x y)
    (h2 : s.static_barrier2 i = true ∨ static_stage2 i x y)
    (h3 : ¬ (static_stage3 i x y ∧ s.exec_count = true)) :
    static_bank_step x y s i =
      { s with
        static_barrier1 := Function.update s.static_barrier1 i true,
        static_barrier2 := Function.update s.static_barrier2 i true } := by
  unfold static_stage1 at h1
  unfold static_stage2 at h2
  unfold static_stage3 at h3
  unfold static_bank_step
  rw [if_pos ha, if_pos h1]
  simp only []
  rw [if_pos h2]
  by_cases h : x < STATIC_X_MAX3 i ∧ x > STATIC_X_MIN3 i ∧
      y < STATIC_Y_MAX3 i ∧ y > STATIC_Y_MIN3 i
  · rw [if_pos h, if_neg (fun hc => h3 ⟨h, hc⟩)]
  · rw [if_neg h]

theorem static_bank_step_match (x y : Int) (s : State) (i : Fin STATIC_BANKS)
    (ha : s.static_bank_active i = true)
    (h1 : s.static_barrier1 i = true ∨ static_stage1 i x y)
    (h2 : s.static_barrier2 i = true ∨ static_stage2 i x y)
    (h3 : static_stage3 i x y) (he : s.exec_count = true) :
    static_bank_step x y s i = after_match (PressSite.static_gesture i) s := by
  unfold static_stage1 at h1
  unfold static_stage2 at h2
  unfold static_stage3 at h3
  unfold static_bank_step
  rw [if_pos ha, if_pos h1]
  simp only []
  rw [if_pos h2, if_pos h3, if_pos he, sweep2sleep_reset_eq]
  rfl

theorem dynamic_tables (i : Fin DYNAMIC_BANKS) :
    DYNAMIC_X_MIN1 i = 800 ∧ DYNAMIC_X_MAX1 i = 1280 ∧
    DYNAMIC_Y_MIN1 i = 800 ∧ DYNAMIC_Y_MAX1 i = 1600 ∧
    DYNAMIC_X_OFFSET2 i = -300 ∧ DYNAMIC_X_SIZE2 i = 200 ∧
    DYNAMIC_Y_OFFSET2 i = 100 ∧ DYNAMIC_Y_SIZE2 i = 200 ∧
    DYNAMIC_X_OFFSET3 i = -300 ∧ DYNAMIC_X_SIZE3 i = 200 ∧
    DYNAMIC_Y_OFFSET3 i = 100 ∧ DYNAMIC_Y_SIZE3 i = 200 := by
  rw [dynamic_bank_eq_zero i]
  simp [DYNAMIC_X_MIN1, DYNAMIC_X_MAX1, DYNAMIC_Y_MIN1, DYNAMIC_Y_MAX1,
    DYNAMIC_X_OFFSET2, DYNAMIC_X_SIZE2, DYNAMIC_Y_OFFSET2, DYNAMIC_Y_SIZE2,
    DYNAMIC_X_OFFSET3, DYNAMIC_X_SIZE3, DYNAMIC_Y_OFFSET3, DYNAMIC_Y_SIZE3]

theorem dynamic_bank_step_idle (x y : Int) (s : State) (i : Fin DYNAMIC_BANKS)
    (h : ¬ (s.dynamic_bank_active (dynamic_bank_index i) = true ∧
      (s.dynamic_barrier1 i = true ∨ dynamic_anchor i x y))) :
    dynamic_bank_step x y s i = s := by
  unfold dynamic_anchor at h
  unfold dynamic_bank_step
  by_cases ha : s.dynamic_bank_active (dynamic_bank_index i) = true
  · rw [if_pos ha, if_neg (fun hc => h ⟨ha, hc⟩)]
  · rw [if_neg ha]

theorem dynamic_bank_step_latch1 (x y : Int) (s : State) (i : Fin DYNAMIC_BANKS)
    (ha : s.dynamic_bank_active (dynamic_bank_index i) = true)
    (h1 : s.dynamic_barrier1 i = false) (hin : dynamic_anchor i x y) :
    dynamic_bank_step x y s i =
      { s with
        dynamic_barrier1 := Function.update s.dynamic_barrier1 i true,
        dynamic_next_x_min := to_int (x + -300),
        dynamic_next_x_max := to_int (to_int (x + -300) + 200),
        dynamic_next_y_min := to_int (y + 100),
        dynamic_next_y_max := to_int (to_int (y + 100) + 200) } := by
  obtain ⟨-, -, -, -, e1, e2, e3, e4, -, -, -, -⟩ := dynamic_tables i
  unfold dynamic_anchor at hin
  have hn : ¬ (x < to_int (to_int (x + -300) + 200) ∧ x > to_int (x + -300) ∧
      y < to_int (to_int (y + 100) + 200) ∧ y > to_int (y + 100)) :=
    fun hc => not_in_own_window x ⟨hc.1, hc.2.1⟩
  unfold dynamic_bank_step
  rw [if_pos ha, if_pos (Or.inr hin), if_pos h1, e1, e2, e3, e4]
  simp only []
  by_cases h2 : s.dynamic_barrier2 i = true
  · have n2 : ¬ (s.dynamic_barrier2 i = false) := by simp [h2]
    rw [if_pos (Or.inl h2), if_neg n2, if_neg hn]
  · rw [if_neg (fun hc => hc.elim h2 hn)]

theorem dynamic_bank_step_wait2 (x y : Int) (s : State) (i : Fin DYNAMIC_BANKS)
    (h1 : s.dynamic_barrier1 i = true) (h2 : s.dynamic_barrier2 i = false)
    (hw : ¬ in_window s x y) :
    dynamic_bank_step x y s i = s := by
  unfold in_window at hw
  have n1 : ¬ (s.dynamic_barrier1 i = false) := by simp [h1]
  have n2 : ¬ (s.dynamic_barrier2 i = true) := by simp [h2]
  unfold dynamic_bank_step
  by_cases ha : s.dynamic_bank_active (dynamic_bank_index i) = true
  · rw [if_pos ha, if_pos (Or.inl h1), if_neg n1]
    simp only []
    rw [if_neg (fun hc => hc.elim n2 hw)]
  · rw [if_neg ha]

theorem dynamic_bank_step_latch2 (x y : Int) (s : State) (i : Fin DYNAMIC_BANKS)
    (ha : s.dynamic_bank_active (dynamic_bank_index i) = true)
    (h1 : s.dynamic_barrier1 i = true) (h2 : s.dynamic_barrier2 i = false)
    (hw : in_window s x y) :
    dynamic_bank_step x y s i =
      { s with
        dynamic_barrier2 := Function.update s.dynamic_barrier2 i true,
        dynamic_next_x_min := to_int (x + -300),
        dynamic_next_x_max := to_int (to_int (x + -300) + 200),
        dynamic_next_y_min := to_int (y + 100),
        dynamic_next_y_max := to_int (to_int (y + 100) + 200) } := by
  obtain ⟨-, -, -, -, -, -, -, -, e1, e2, e3, e4⟩ := dynamic_tables i
  unfold in_window at hw
  have n1 : ¬ (s.dynamic_barrier1 i = false) := by simp [h1]
  have hn : ¬ (x < to_int (to_int (x + -300) + 200) ∧ x > to_int (x + -300) ∧
      y < to_int (to_int (y + 100) + 200) ∧ y > to_int (y + 100)) :=
    fun hc => not_in_own_window x ⟨hc.1, hc.2.1⟩
  unfold dynamic_bank_step
  rw [if_pos ha, if_pos (Or.inl h1), if_neg n1]
  simp only []
  rw [if_pos (Or.inr hw), if_pos h2, e1, e2, e3, e4]
  simp only []
  rw [if_neg hn]

theorem dynamic_bank_step_wait3 (x y : Int) (s : State) (i : Fin DYNAMIC_BANKS)
    (h1 : s.dynamic_barrier1 i = true) (h2 : s.dynamic_barrier2 i = true)
    (hw : ¬ (in_window s x y ∧ s.exec_count = true)) :
    dynamic_bank_step x y s i = s := by
  unfold in_window at hw
  have n1 : ¬ (s.dynamic_barrier1 i = false) := by simp [h1]
  have n2 : ¬ (s.dynamic_barrier2 i = false) := by simp [h2]
  unfold dynamic_bank_step
  by_cases ha : s.dynamic_bank_active (dynamic_bank_index i) = true
  · rw [if_pos ha, if_pos (Or.inl h1), if_neg n1]
    simp only []
    rw [if_pos (Or.inl h2), if_neg n2]
    by_cases h : x < s.dynamic_next_x_max ∧ x > s.dynamic_next_x_min ∧
        y < s.dynamic_next_y_max ∧ y > s.dynamic_next_y_min
    · rw [if_pos h, if_neg (fun hc => hw ⟨h, hc⟩)]
    · rw [if_neg h]
  · rw [if_neg ha]

theorem dynamic_bank_step_match (x y : Int) (s : State) (i : Fin DYNAMIC_BANKS)
    (ha : s.dynamic_bank_active (dynamic_bank_index i) = true)
    (h1 : s.dynamic_barrier1 i = true) (h2 : s.dynamic_barrier2 i = true)
    (hw : in_window s x y) (he : s.exec_count = true) :
    dynamic_bank_step x y s i = after_match (PressSite.dynamic_gesture i) s := by
  unfold in_window at hw
  have n1 : ¬ (s.dynamic_barrier1 i = false) := by simp [h1]
  have n2 : ¬ (s.dynamic_barrier2 i = false) := by simp [h2]
  unfold dynamic_bank_step
  rw [if_pos ha, if_pos (Or.inl h1), if_neg n1]
  simp only []
  rw [if_pos (Or.inl h2), if_neg n2, if_pos hw, if_pos he, sweep2sleep_reset_eq]
  rfl

/-- The four things one pass of the static loop body can do. -/
theorem static_bank_step_cases (x y : Int) (s : State) (i : Fin STATIC_BANKS) :
    static_bank_step x y s i = s ∨
    (s.static_bank_active i = true ∧
      (s.static_barrier1 i = true ∨ static_stage1 i x y) ∧
      ¬ (s.static_barrier2 i = true ∨ static_stage2 i x y) ∧
      static_bank_step x y s i =
        { s with static_barrier1 := Function.update s.static_barrier1 i true }) ∨
    (s.static_bank_active i = true ∧
      (s.static_barrier1 i = true ∨ static_stage1 i x y) ∧
      (s.static_barrier2 i = true ∨ static_stage2 i x y) ∧
      ¬ (static_stage3 i x y ∧ s.exec_count = true) ∧
      static_bank_step x y s i =
        { s with
          static_barrier1 := Function.update s.static_barrier1 i true,
          static_barrier2 := Function.update s.static_barrier2 i true }) ∨
    (s.static_bank_active i = true ∧
      (s.static_barrier1 i = true ∨ static_stage1 i x y) ∧
      (s.static_barrier2 i = true ∨ static_stage2 i x y) ∧
      static_stage3 i x y ∧ s.exec_count = true ∧
      static_bank_step x y s i = after_match (PressSite.static_gesture i) s) := by
  by_cases h : s.static_bank_active i = true ∧
      (s.static_barrier1 i = true ∨ static_stage1 i x y)
  · obtain ⟨ha, h1⟩ := h
    by_cases h2 : s.static_barrier2 i = true ∨ static_stage2 i x y
    · by_cases h3 : static_stage3 i x y ∧ s.exec_count = true
      · exact Or.inr (Or.inr (Or.inr ⟨ha, h1, h2, h3.1, h3.2,
          static_bank_step_match x y s i ha h1 h2 h3.1 h3.2⟩))
      · exact Or.inr (Or.inr (Or.inl ⟨ha, h1, h2, h3,
          static_bank_step_latch2 x y s i ha h1 h2 h3⟩))
    · exact Or.inr (Or.inl ⟨ha, h1, h2, static_bank_step_latch1 x y s i ha h1 h2⟩)
  · exact Or.inl (static_bank_step_idle x y s i h)

/-- The four things one pass of the dynamic loop body can do. -/
theorem dynamic_bank_step_cases (x y : Int) (s : State) (i : Fin DYNAMIC_BANKS) :
    dynamic_bank_step x y s i = s ∨
    (s.dynamic_bank_active (dynamic_bank_index i) = true ∧
      s.dynamic_barrier1 i = false ∧ dynamic_anchor i x y ∧
      dynamic_bank_step x y s i =
        { s with
          dynamic_barrier1 := Function.update s.dynamic_barrier1 i true,
          dynamic_next_x_min := to_int (x + -300),
          dynamic_next_x_max := to_int (to_int (x + -300) + 200),
          dynamic_next_y_min := to_int (y + 100),
          dynamic_next_y_max := to_int (to_int (y + 100) + 200) }) ∨
    (s.dynamic_bank_active (dynamic_bank_index i) = true ∧
      s.dynamic_barrier1 i = true ∧ s.dynamic_barrier2 i = false ∧ in_window s x y ∧
      dynamic_bank_step x y s i =
        { s with
          dynamic_barrier2 := Function.update s.dynamic_barrier2 i true,
          dynamic_next_x_min := to_int (x + -300),
          dynamic_next_x_max := to_int (to_int (x + -300) + 200),
          dynamic_next_y_min := to_int (y + 100),
          dynamic_next_y_max := to_int (to_int (y + 100) + 200) }) ∨
    (s.dynamic_bank_active (dynamic_bank_index i) = true ∧
      s.dynamic_barrier1 i = true ∧ s.dynamic_barrier2 i = true ∧ in_window s x y ∧
      s.exec_count = true ∧
      dynamic_bank_step x y s i = after_match (PressSite.dynamic_gesture i) s) := by
  by_cases ha : s.dynamic_bank_active (dynamic_bank_index i) = true
  · cases h1 : s.dynamic_barrier1 i
    · by_cases hin : dynamic_anchor i x y
      · exact Or.inr (Or.inl ⟨ha, rfl, hin, dynamic_bank_step_latch1 x y s i ha h1 hin⟩)
      · exact Or.inl (dynamic_bank_step_idle x y s i (by simp [h1, hin]))
    · cases h2 : s.dynamic_barrier2 i
      · by_cases hw : in_window s x y
        · exact Or.inr (Or.inr (Or.inl ⟨ha, rfl, rfl, hw,
            dynamic_bank_step_latch2 x y s i ha h1 h2 hw⟩))
        · exact Or.inl (dynamic_bank_step_wait2 x y s i h1 h2 hw)
      · by_cases hw : in_window s x y ∧ s.exec_count = true
        · exact Or.inr (Or.inr (Or.inr ⟨ha, rfl, rfl, hw.1, hw.2,
            dynamic_bank_step_match x y s i ha h1 h2 hw.1 hw.2⟩))
        · exact Or.inl (dynamic_bank_step_wait3 x y s i h1 h2 hw)
  · exact Or.inl (dynamic_bank_step_idle x y s i (fun hc => ha hc.1))

/-- A property that every pass of the static loop body keeps holds after the
whole static loop. -/
theorem static_loop_induct (P : State → Prop) (x y : Int) (s : State) (h0 : P s)
    (hs : ∀ t i, P t → P (static_bank_step x y t i)) :
    P (static_bank_step x y (static_bank_step x y (static_bank_step x y
      (static_bank_step x y s 0) 1) 2) 3) :=
  hs _ 3 (hs _ 2 (hs _ 1 (hs _ 0 h0)))

/-- A property kept by every pass of both loop bodies, and indifferent to
`scr_on_touch`, holds after `detect_sweep2sleep`. -/
theorem detect_sweep2sleep_induct (P : State → Prop) (x y : Int) (s : State)
    (h0 : P s) (ht : P s → P { s with scr_on_touch := true })
    (hs : ∀ t i, P t → P (static_bank_step x y t i))
    (hd : ∀ t i, P t → P (dynamic_bank_step x y t i)) :
    P (detect_sweep2sleep x y s) := by
  rw [detect_sweep2sleep_eq]
  split_ifs with h
  · exact hd _ 0 (static_loop_induct P x y _ (ht h0) hs)
  · exact h0

/-! ## Double tap on the status bar -/

theorem doubleTapStatusBar_gated (x y : Int) (s : State)
    (h : y < STATUSBAR_Y_MIN ∨ y > STATUSBAR_Y_MAX ∨ s.scr_suspended = true) :
    doubleTapStatusBar x y s = s := by
  unfold doubleTapStatusBar
  rw [if_pos h]

theorem doubleTapStatusBar_open (x y : Int) (s : State)
    (hy : STATUSBAR_Y_MIN ≤ y ∧ y ≤ STATUSBAR_Y_MAX) (hscr : s.scr_suspended = false)
    (hw : s.statusBarWithinTime = 0) :
    doubleTapStatusBar x y s =
      { s with statusBarTimer_pending := true, statusBarWithinTime := 1 } := by
  have n1 : ¬ (y < STATUSBAR_Y_MIN ∨ y > STATUSBAR_Y_MAX ∨ s.scr_suspended = true) := by
    rw [hscr]; simp; omega
  have n2 : ¬ (s.statusBarWithinTime ≠ 0) := by simp [hw]
  unfold doubleTapStatusBar
  rw [if_neg n1, if_neg n2]
  rfl

theorem doubleTapStatusBar_fire (x y : Int) (s : State)
    (hy : STATUSBAR_Y_MIN ≤ y ∧ y ≤ STATUSBAR_Y_MAX) (hscr : s.scr_suspended = false)
    (hw : s.statusBarWithinTime ≠ 0) :
    doubleTapStatusBar x y s =
      { s with
        powerkey_log := s.powerkey_log ++ [PressSite.status_bar],
        statusBarWithinTime := 0 } := by
  have n1 : ¬ (y < STATUSBAR_Y_MIN ∨ y > STATUSBAR_Y_MAX ∨ s.scr_suspended = true) := by
    rw [hscr]; simp; omega
  unfold doubleTapStatusBar
  rw [if_neg n1, if_pos hw]
  rfl

/-- C9: the double-tap state machine. With the screen not suspended, a tap in
the status bar band while idle opens the window, schedules the timer and
presses nothing; a second such tap with no expiry in between presses the
power key exactly once and returns to idle; when the timer expires between
the two taps, the second tap presses nothing and opens a new window. -/
theorem C9_double_tap_state_machine (s : State) (x1 y1 x2 y2 : Int)
    (hscr : s.scr_suspended = false) (hidle : s.statusBarWithinTime = 0)
    (h1 : STATUSBAR_Y_MIN ≤ y1 ∧ y1 ≤ STATUSBAR_Y_MAX)
    (h2 : STATUSBAR_Y_MIN ≤ y2 ∧ y2 ≤ STATUSBAR_Y_MAX) :
    (doubleTapStatusBar x1 y1 s).statusBarWithinTime = 1 ∧
    (doubleTapStatusBar x1 y1 s).statusBarTimer_pending = true ∧
    (doubleTapStatusBar x1 y1 s).powerkey_log = s.powerkey_log ∧
    (doubleTapStatusBar x2 y2 (doubleTapStatusBar x1 y1 s)).powerkey_log =
      s.powerkey_log ++ [PressSite.status_bar] ∧
    (doubleTapStatusBar x2 y2 (doubleTapStatusBar x1 y1 s)).statusBarWithinTime = 0 ∧
    (step (doubleTapStatusBar x1 y1 s) Event.timer).statusBarWithinTime = 0 ∧
    (doubleTapStatusBar x2 y2
      (step (doubleTapStatusBar x1 y1 s) Event.timer)).powerkey_log = s.powerkey_log ∧
    (doubleTapStatusBar x2 y2
      (step (doubleTapStatusBar x1 y1 s) Event.timer)).statusBarWithinTime = 1 := by
  have e1 := doubleTapStatusBar_open x1 y1 s h1 hscr hidle
  have e2 := doubleTapStatusBar_fire x2 y2
    { s with statusBarTimer_pending := true, statusBarWithinTime := 1 } h2 hscr
    (show (1 : Int) ≠ 0 by decide)
  have e3 : step { s with statusBarTimer_pending := true, statusBarWithinTime := 1 }
      Event.timer =
      { s with statusBarTimer_pending := false, statusBarWithinTime := 0 } := by
    simp [step, statusBarTimer_work]
  have e4 := doubleTapStatusBar_open x2 y2
    { s with statusBarTimer_pending := false, statusBarWithinTime := 0 } h2 hscr rfl
  rw [e1, e3, e2, e4]
  exact ⟨rfl, rfl, rfl, rfl, rfl, rfl, rfl, rfl⟩

/-- Witness of C9: two taps at the top edge and at the bottom edge of the
status bar band, from the initial state. -/
theorem C9_double_tap_state_machine_witness :
    (doubleTapStatusBar 500 0 init).statusBarWithinTime = 1 ∧
    (doubleTapStatusBar 500 0 init).statusBarTimer_pending = true ∧
    (doubleTapStatusBar 500 0 init).powerkey_log = init.powerkey_log ∧
    (doubleTapStatusBar 510 80 (doubleTapStatusBar 500 0 init)).powerkey_log =
      init.powerkey_log ++ [PressSite.status_bar] ∧
    (doubleTapStatusBar 510 80 (doubleTapStatusBar 500 0 init)).statusBarWithinTime = 0 ∧
    (step (doubleTapStatusBar 500 0 init) Event.timer).statusBarWithinTime = 0 ∧
    (doubleTapStatusBar 510 80
      (step (doubleTapStatusBar 500 0 init) Event.timer)).powerkey_log =
        init.powerkey_log ∧
    (doubleTapStatusBar 510 80
      (step (doubleTapStatusBar 500 0 init) Event.timer)).statusBarWithinTime = 1 :=
  C9_double_tap_state_machine init 500 0 510 80 rfl rfl (by decide) (by decide)

theorem sweep2sleep_reset_statusBarWithinTime (s : State) :
    (sweep2sleep_reset s).statusBarWithinTime = s.statusBarWithinTime := by
  rw [sweep2sleep_reset_eq]

theorem sweep2sleep_reset_powerkey_log (s : State) :
    (sweep2sleep_reset s).powerkey_log = s.powerkey_log := by
  rw [sweep2sleep_reset_eq]

/-- The lift-off marker, spelled out: the double-tap detector when its feature
bit is set, then the reset unless the finger left on the soft keys. -/
theorem lift_off_eq (s : State) :
    lift_off s =
      if s.s2s = 0 then s
      else if (if Int.land s.s2s BIT_STATUSBAR_DTSLEEP ≠ 0 then
            doubleTapStatusBar s.touch_x s.touch_y s else s).touch_y < S2S_Y_BUTTONLIMIT then
        sweep2sleep_reset (if Int.land s.s2s BIT_STATUSBAR_DTSLEEP ≠ 0 then
            doubleTapStatusBar s.touch_x s.touch_y s else s)
      else (if Int.land s.s2s BIT_STATUSBAR_DTSLEEP ≠ 0 then
            doubleTapStatusBar s.touch_x s.touch_y s else s) := by
  have hc : ¬ (ABS_MT_TRACKING_ID = ABS_MT_SLOT) := by decide
  have ht : ABS_MT_TRACKING_ID = ABS_MT_TRACKING_ID ∧ (-1 : Int) = -1 := ⟨rfl, rfl⟩
  unfold lift_off s2s_input_event
  simp only [if_neg hc, if_pos ht, and_self, if_true]

/-- The double-tap fields after a lift-off are those the detector leaves, when
its feature bit is set, and the old ones otherwise. -/
theorem lift_off_double_tap_fields (s : State) :
    ((lift_off s).statusBarWithinTime =
      (if Int.land s.s2s BIT_STATUSBAR_DTSLEEP ≠ 0 then
        doubleTapStatusBar s.touch_x s.touch_y s else s).statusBarWithinTime) ∧
    ((lift_off s).powerkey_log =
      (if Int.land s.s2s BIT_STATUSBAR_DTSLEEP ≠ 0 then
        doubleTapStatusBar s.touch_x s.touch_y s else s).powerkey_log) := by
  rw [lift_off_eq]
  by_cases h0 : s.s2s = 0
  · have hb : ¬ (Int.land s.s2s BIT_STATUSBAR_DTSLEEP ≠ 0) := by
      rw [h0]; decide
    rw [if_pos h0, if_neg hb]
    exact ⟨rfl, rfl⟩
  · rw [if_neg h0]
    split_ifs <;>
      simp [sweep2sleep_reset_statusBarWithinTime, sweep2sleep_reset_powerkey_log]

/-- C10: gating of the double-tap detector. A lift-off moves the double-tap
state exactly when it is a qualifying tap (feature bit set, screen not
suspended, 0 <= y <= 80, bounds included): then an idle detector opens the
window without a press and an open window is closed with one press. In every
other case `statusBarWithinTime` and the press log are left as they were. -/
theorem C10_double_tap_gating (s : State) :
    (qualifying_tap s ↔
      (lift_off s).statusBarWithinTime ≠ s.statusBarWithinTime) ∧
    (qualifying_tap s → s.statusBarWithinTime = 0 →
      (lift_off s).statusBarWithinTime = 1 ∧
      (lift_off s).powerkey_log = s.powerkey_log) ∧
    (qualifying_tap s → s.statusBarWithinTime ≠ 0 →
      (lift_off s).statusBarWithinTime = 0 ∧
      (lift_off s).powerkey_log = s.powerkey_log ++ [PressSite.status_bar]) ∧
    (¬ qualifying_tap s →
      (lift_off s).statusBarWithinTime = s.statusBarWithinTime ∧
      (lift_off s).powerkey_log = s.powerkey_log) ∧
    (Int.land s.s2s BIT_STATUSBAR_DTSLEEP ≠ 0 → s.scr_suspended = false →
      (s.touch_y = 0 ∨ s.touch_y = 80) → qualifying_tap s) := by
  obtain ⟨ew, el⟩ := lift_off_double_tap_fields s
  have hq0 : qualifying_tap s → s.statusBarWithinTime = 0 →
      (lift_off s).statusBarWithinTime = 1 ∧
      (lift_off s).powerkey_log = s.powerkey_log := by
    intro hq hw
    rw [ew, el, if_pos hq.1, doubleTapStatusBar_open _ _ s ⟨hq.2.2.1, hq.2.2.2⟩ hq.2.1 hw]
    exact ⟨rfl, rfl⟩
  have hq1 : qualifying_tap s → s.statusBarWithinTime ≠ 0 →
      (lift_off s).statusBarWithinTime = 0 ∧
      (lift_off s).powerkey_log = s.powerkey_log ++ [PressSite.status_bar] := by
    intro hq hw
    rw [ew, el, if_pos hq.1, doubleTapStatusBar_fire _ _ s ⟨hq.2.2.1, hq.2.2.2⟩ hq.2.1 hw]
    exact ⟨rfl, rfl⟩
  have hn : ¬ qualifying_tap s →
      (lift_off s).statusBarWithinTime = s.statusBarWithinTime ∧
      (lift_off s).powerkey_log = s.powerkey_log := by
    intro hq
    rw [ew, el]
    by_cases hb : Int.land s.s2s BIT_STATUSBAR_DTSLEEP ≠ 0
    · rw [if_pos hb, doubleTapStatusBar_gated]
      · exact ⟨rfl, rfl⟩
      · by_contra hc
        apply hq
        refine ⟨hb, ?_, ?_, ?_⟩
        · cases hs : s.scr_suspended
          · rfl
          · exact absurd (Or.inr (Or.inr hs)) hc
        · by_contra hlt
          exact hc (Or.inl (not_le.mp hlt))
        · by_contra hgt
          exact hc (Or.inr (Or.inl (not_le.mp hgt)))
    · rw [if_neg hb]
      exact ⟨rfl, rfl⟩
  refine ⟨⟨?_, ?_⟩, hq0, hq1, hn, ?_⟩
  · intro hq
    by_cases hw : s.statusBarWithinTime = 0
    · rw [(hq0 hq hw).1, hw]; decide
    · rw [(hq1 hq hw).1]; exact fun hc => hw hc.symm
  · intro hne
    by_contra hq
    exact hne (hn hq).1
  · intro hb hs hy
    refine ⟨hb, hs, ?_, ?_⟩ <;> rcases hy with h | h <;> rw [h] <;> decide

/-- Witness of C10: with only the double-tap bit set and the finger last seen
at y = 80, a lift-off from idle opens the window. -/
theorem C10_double_tap_gating_witness :
    (lift_off { init with s2s := 256, touch_y := 80 }).statusBarWithinTime = 1 ∧
    (lift_off { init with s2s := 256, touch_y := 80 }).powerkey_log = [] :=
  (C10_double_tap_gating { init with s2s := 256, touch_y := 80 }).2.1
    (by decide) rfl

/-! ## One touch session, more than one press -/

/-- C1: the claim of one press at most per touch session, evaluated on the
code. After the write of 4 (static bank 3 alone) the sweep (1000,1800),
(500,1800), (100,1800) presses the power key and leaves `exec_count` true,
because `sweep2sleep_reset` runs right after `exec_count = false`; the same
sweep repeated with no lift-off and no slot change presses a second time. The
same holds when the six samples arrive as input events followed by the queued
work. -/
theorem C1_second_press_in_one_session :
    (run init [Event.store (some 4) 2]).scr_suspended = false ∧
    (detect_all (run init [Event.store (some 4) 2])
      [(1000, 1800), (500, 1800), (100, 1800)]).powerkey_log =
        [PressSite.static_gesture 2] ∧
    (detect_all (run init [Event.store (some 4) 2])
      [(1000, 1800), (500, 1800), (100, 1800)]).exec_count = true ∧
    (detect_all (run init [Event.store (some 4) 2])
      [(1000, 1800), (500, 1800), (100, 1800),
       (1000, 1800), (500, 1800), (100, 1800)]).powerkey_log =
        [PressSite.static_gesture 2, PressSite.static_gesture 2] ∧
    (run init ([Event.store (some 4) 2] ++
      sample_events 1000 1800 ++ sample_events 500 1800 ++ sample_events 100 1800 ++
      sample_events 1000 1800 ++ sample_events 500 1800 ++
      sample_events 100 1800)).powerkey_log =
        [PressSite.static_gesture 2, PressSite.static_gesture 2] := by
  decide

/-! ## A full match and the banks evaluated after it -/

/-- C8: the claim that every latch is false when a matching call returns,
refuted on the code. After the write of 12 (static banks 3 and 4) and the
samples (1000,1800), (500,1800), the call on (100,1800) presses the power key
for bank 3 and returns with stage 1 of bank 4 latched: the loop goes on after
the reset and (100,1800) lies in stage 1 of bank 4. -/
theorem C8_latch_set_after_match :
    pressed_between
      (detect_all (run init [Event.store (some 12) 3]) [(1000, 1800), (500, 1800)])
      (detect_sweep2sleep 100 1800
        (detect_all (run init [Event.store (some 12) 3]) [(1000, 1800), (500, 1800)])) ∧
    (detect_sweep2sleep 100 1800 (detect_all (run init [Event.store (some 12) 3])
      [(1000, 1800), (500, 1800)])).powerkey_log = [PressSite.static_gesture 2] ∧
    (detect_sweep2sleep 100 1800 (detect_all (run init [Event.store (some 12) 3])
      [(1000, 1800), (500, 1800)])).static_barrier1 3 = true ∧
    ¬ (∀ k, (detect_sweep2sleep 100 1800 (detect_all (run init [Event.store (some 12) 3])
      [(1000, 1800), (500, 1800)])).static_barrier1 k = false) := by
  refine ⟨show List.length _ < List.length _ by decide, by decide, by decide, ?_⟩
  intro h
  exact absurd (h 3) (by decide)

/-! ## Subsequences of samples -/

theorem occurs1_nil (R : Int × Int → Prop) : ¬ occurs1 R [] := by
  rintro ⟨c, pc, h, -⟩
  simp at h

theorem occurs2_nil (Q R : Int × Int → Prop) : ¬ occurs2 Q R [] := by
  rintro ⟨b, c, pb, pc, -, h, -⟩
  simp at h

theorem occurs3_nil (P Q R : Int × Int → Prop) : ¬ occurs3 P Q R [] := by
  rintro ⟨a, b, c, pa, pb, pc, -, -, h, -⟩
  simp at h

theorem occurs1_cons (R : Int × Int → Prop) (p : Int × Int) (l : List (Int × Int)) :
    occurs1 R (p :: l) ↔ R p ∨ occurs1 R l := by
  constructor
  · rintro ⟨c, pc, hc, hR⟩
    cases c with
    | zero =>
      simp at hc
      exact Or.inl (hc ▸ hR)
    | succ c =>
      rw [List.getElem?_cons_succ] at hc
      exact Or.inr ⟨c, pc, hc, hR⟩
  · rintro (hR | ⟨c, pc, hc, hR⟩)
    · exact ⟨0, p, by simp, hR⟩
    · exact ⟨c + 1, pc, by rw [List.getElem?_cons_succ]; exact hc, hR⟩

theorem occurs2_cons (Q R : Int × Int → Prop) (p : Int × Int) (l : List (Int × Int)) :
    occurs2 Q R (p :: l) ↔ (Q p ∧ occurs1 R l) ∨ occurs2 Q R l := by
  constructor
  · rintro ⟨b, c, pb, pc, hbc, hb, hc, hQ, hR⟩
    cases c with
    | zero => omega
    | succ c =>
      rw [List.getElem?_cons_succ] at hc
      cases b with
      | zero =>
        simp at hb
        exact Or.inl ⟨hb ▸ hQ, c, pc, hc, hR⟩
      | succ b =>
        rw [List.getElem?_cons_succ] at hb
        exact Or.inr ⟨b, c, pb, pc, by omega, hb, hc, hQ, hR⟩
  · rintro (⟨hQ, c, pc, hc, hR⟩ | ⟨b, c, pb, pc, hbc, hb, hc, hQ, hR⟩)
    · exact ⟨0, c + 1, p, pc, by omega, by simp,
        by rw [List.getElem?_cons_succ]; exact hc, hQ, hR⟩
    · exact ⟨b + 1, c + 1, pb, pc, by omega,
        by rw [List.getElem?_cons_succ]; exact hb,
        by rw [List.getElem?_cons_succ]; exact hc, hQ, hR⟩

theorem occurs3_cons (P Q R : Int × Int → Prop) (p : Int × Int) (l : List (Int × Int)) :
    occurs3 P Q R (p :: l) ↔ (P p ∧ occurs2 Q R l) ∨ occurs3 P Q R l := by
  constructor
  · rintro ⟨a, b, c, pa, pb, pc, hab, hbc, ha, hb, hc, hP, hQ, hR⟩
    cases c with
    | zero => omega
    | succ c =>
      rw [List.getElem?_cons_succ] at hc
      cases b with
      | zero => omega
      | succ b =>
        rw [List.getElem?_cons_succ] at hb
        cases a with
        | zero =>
          simp at ha
          exact Or.inl ⟨ha ▸ hP, b, c, pb, pc, by omega, hb, hc, hQ, hR⟩
        | succ a =>
          rw [List.getElem?_cons_succ] at ha
          exact Or.inr ⟨a, b, c, pa, pb, pc, by omega, by omega, ha, hb, hc, hP, hQ, hR⟩
  · rintro (⟨hP, b, c, pb, pc, hbc, hb, hc, hQ, hR⟩ |
      ⟨a, b, c, pa, pb, pc, hab, hbc, ha, hb, hc, hP, hQ, hR⟩)
    · exact ⟨0, b + 1, c + 1, p, pb, pc, by omega, by omega, by simp,
        by rw [List.getElem?_cons_succ]; exact hb,
        by rw [List.getElem?_cons_succ]; exact hc, hP, hQ, hR⟩
    · exact ⟨a + 1, b + 1, c + 1, pa, pb, pc, by omega, by omega,
        by rw [List.getElem?_cons_succ]; exact ha,
        by rw [List.getElem?_cons_succ]; exact hb,
        by rw [List.getElem?_cons_succ]; exact hc, hP, hQ, hR⟩

theorem occurs2_imp_occurs1 (Q R : Int × Int → Prop) (l : List (Int × Int))
    (h : occurs2 Q R l) : occurs1 R l := by
  obtain ⟨_, c, _, pc, _, _, hc, _, hR⟩ := h
  exact ⟨c, pc, hc, hR⟩

theorem occurs3_imp_occurs2 (P Q R : Int × Int → Prop) (l : List (Int × Int))
    (h : occurs3 P Q R l) : occurs2 Q R l := by
  obtain ⟨_, b, c, _, pb, pc, _, hbc, _, hb, hc, _, hQ, hR⟩ := h
  exact ⟨b, c, pb, pc, hbc, hb, hc, hQ, hR⟩

/-! ## What the loop bodies never touch -/

theorem static_bank_step_config (x y : Int) (s : State) (i : Fin STATIC_BANKS) :
    (static_bank_step x y s i).s2s = s.s2s ∧
    (static_bank_step x y s i).scr_suspended = s.scr_suspended ∧
    (static_bank_step x y s i).static_bank_active = s.static_bank_active ∧
    (static_bank_step x y s i).dynamic_bank_active = s.dynamic_bank_active := by
  rcases static_bank_step_cases x y s i with e | ⟨-, -, -, e⟩ | ⟨-, -, -, -, e⟩ |
    ⟨-, -, -, -, -, e⟩ <;> rw [e] <;> exact ⟨rfl, rfl, rfl, rfl⟩

theorem dynamic_bank_step_config (x y : Int) (s : State) (i : Fin DYNAMIC_BANKS) :
    (dynamic_bank_step x y s i).s2s = s.s2s ∧
    (dynamic_bank_step x y s i).scr_suspended = s.scr_suspended ∧
    (dynamic_bank_step x y s i).static_bank_active = s.static_bank_active ∧
    (dynamic_bank_step x y s i).dynamic_bank_active = s.dynamic_bank_active := by
  rcases dynamic_bank_step_cases x y s i with e | ⟨-, -, -, e⟩ | ⟨-, -, -, -, e⟩ |
    ⟨-, -, -, -, -, e⟩ <;> rw [e] <;> exact ⟨rfl, rfl, rfl, rfl⟩

theorem detect_sweep2sleep_config (x y : Int) (s : State) :
    (detect_sweep2sleep x y s).s2s = s.s2s ∧
    (detect_sweep2sleep x y s).scr_suspended = s.scr_suspended ∧
    (detect_sweep2sleep x y s).static_bank_active = s.static_bank_active ∧
    (detect_sweep2sleep x y s).dynamic_bank_active = s.dynamic_bank_active := by
  refine detect_sweep2sleep_induct
    (fun t => t.s2s = s.s2s ∧ t.scr_suspended = s.scr_suspended ∧
      t.static_bank_active = s.static_bank_active ∧
      t.dynamic_bank_active = s.dynamic_bank_active) x y s ⟨rfl, rfl, rfl, rfl⟩
    (fun h => h) ?_ ?_
  · intro t i ⟨h1, h2, h3, h4⟩
    obtain ⟨e1, e2, e3, e4⟩ := static_bank_step_config x y t i
    exact ⟨e1.trans h1, e2.trans h2, e3.trans h3, e4.trans h4⟩
  · intro t i ⟨h1, h2, h3, h4⟩
    obtain ⟨e1, e2, e3, e4⟩ := dynamic_bank_step_config x y t i
    exact ⟨e1.trans h1, e2.trans h2, e3.trans h3, e4.trans h4⟩

/-! ## The press log only grows -/

theorem static_bank_step_log (x y : Int) (s : State) (i : Fin STATIC_BANKS) :
    (static_bank_step x y s i).powerkey_log = s.powerkey_log ∨
    (static_bank_step x y s i).powerkey_log =
      s.powerkey_log ++ [PressSite.static_gesture i] := by
  rcases static_bank_step_cases x y s i with e | ⟨-, -, -, e⟩ | ⟨-, -, -, -, e⟩ |
    ⟨-, -, -, -, -, e⟩ <;> rw [e]
  · exact Or.inl rfl
  · exact Or.inl rfl
  · exact Or.inl rfl
  · exact Or.inr rfl

theorem dynamic_bank_step_log (x y : Int) (s : State) (i : Fin DYNAMIC_BANKS) :
    (dynamic_bank_step x y s i).powerkey_log = s.powerkey_log ∨
    (dynamic_bank_step x y s i).powerkey_log =
      s.powerkey_log ++ [PressSite.dynamic_gesture i] := by
  rcases dynamic_bank_step_cases x y s i with e | ⟨-, -, -, e⟩ | ⟨-, -, -, -, e⟩ |
    ⟨-, -, -, -, -, e⟩ <;> rw [e]
  · exact Or.inl rfl
  · exact Or.inl rfl
  · exact Or.inl rfl
  · exact Or.inr rfl

theorem detect_sweep2sleep_log_le (x y : Int) (s : State) :
    s.powerkey_log.length ≤ (detect_sweep2sleep x y s).powerkey_log.length := by
  refine detect_sweep2sleep_induct
    (fun t => s.powerkey_log.length ≤ t.powerkey_log.length) x y s (le_refl _)
    (fun h => h) ?_ ?_
  · intro t i h
    rcases static_bank_step_log x y t i with e | e <;> rw [e]
    · exact h
    · simp; omega
  · intro t i h
    rcases dynamic_bank_step_log x y t i with e | e <;> rw [e]
    · exact h
    · simp; omega

theorem detect_all_nil (s : State) : detect_all s [] = s := rfl

theorem detect_all_cons (s : State) (p : Int × Int) (l : List (Int × Int)) :
    detect_all s (p :: l) = detect_all (detect_sweep2sleep p.1 p.2 s) l := rfl

theorem detect_all_log_le (l : List (Int × Int)) :
    ∀ s : State, s.powerkey_log.length ≤ (detect_all s l).powerkey_log.length := by
  induction l with
  | nil => intro s; exact le_refl _
  | cons p l ih =>
    intro s
    rw [detect_all_cons]
    exact le_trans (detect_sweep2sleep_log_le p.1 p.2 s) (ih _)

/-! ## A single active static bank -/

theorem loops_only_static_bank (i : Fin STATIC_BANKS) (x y : Int) (t : State)
    (h4 : ∀ j, j ≠ i → t.static_bank_active j = false)
    (h5 : ∀ j, t.dynamic_bank_active j = false) :
    dynamic_bank_step x y
      (static_bank_step x y (static_bank_step x y (static_bank_step x y
        (static_bank_step x y t 0) 1) 2) 3) 0 = static_bank_step x y t i := by
  have idle : ∀ (u : State) (j : Fin STATIC_BANKS), j ≠ i →
      u.static_bank_active = t.static_bank_active → static_bank_step x y u j = u := by
    intro u j hj hu
    apply static_bank_step_idle
    rw [hu, h4 j hj]
    simp
  have didle : ∀ u : State, u.dynamic_bank_active = t.dynamic_bank_active →
      dynamic_bank_step x y u 0 = u := by
    intro u hu
    apply dynamic_bank_step_idle
    rw [hu, h5]
    simp
  have c := static_bank_step_config x y t i
  rcases static_bank_cases i with rfl | rfl | rfl | rfl
  · rw [idle _ 1 (by decide) c.2.2.1, idle _ 2 (by decide) c.2.2.1,
      idle _ 3 (by decide) c.2.2.1, didle _ c.2.2.2]
  · rw [idle t 0 (by decide) rfl, idle _ 2 (by decide) c.2.2.1,
      idle _ 3 (by decide) c.2.2.1, didle _ c.2.2.2]
  · rw [idle t 0 (by decide) rfl, idle t 1 (by decide) rfl,
      idle _ 3 (by decide) c.2.2.1, didle _ c.2.2.2]
  · rw [idle t 0 (by decide) rfl, idle t 1 (by decide) rfl,
      idle t 2 (by decide) rfl, didle _ c.2.2.2]

theorem detect_only_static_bank (i : Fin STATIC_BANKS) (x y : Int) (s : State)
    (hs : only_static_bank i s) :
    detect_sweep2sleep x y s = static_bank_step x y { s with scr_on_touch := true } i := by
  obtain ⟨h1, h2, -, h4, h5⟩ := hs
  rw [detect_sweep2sleep_eq, if_pos ⟨h1, h2⟩]
  exact loops_only_static_bank i x y { s with scr_on_touch := true } h4 h5

theorem only_static_bank_detect (i : Fin STATIC_BANKS) (x y : Int) (s : State)
    (hs : only_static_bank i s) : only_static_bank i (detect_sweep2sleep x y s) := by
  obtain ⟨c1, c2, c3, c4⟩ := detect_sweep2sleep_config x y s
  unfold only_static_bank at hs ⊢
  rw [c1, c2, c3, c4]
  exact hs

/-- One call with a single active static bank and the guard armed: what it
does to the two latches of the bank and to the press log. -/
theorem only_static_bank_step (i : Fin STATIC_BANKS) (x y : Int) (s : State)
    (hs : only_static_bank i s) (he : s.exec_count = true) :
    (detect_sweep2sleep x y s).exec_count = true ∧
    ((¬ (s.static_barrier1 i = true ∨ static_stage1 i x y) ∧
        (detect_sweep2sleep x y s).static_barrier1 i = s.static_barrier1 i ∧
        (detect_sweep2sleep x y s).static_barrier2 i = s.static_barrier2 i ∧
        (detect_sweep2sleep x y s).powerkey_log = s.powerkey_log) ∨
     ((s.static_barrier1 i = true ∨ static_stage1 i x y) ∧
        ¬ (s.static_barrier2 i = true ∨ static_stage2 i x y) ∧
        (detect_sweep2sleep x y s).static_barrier1 i = true ∧
        (detect_sweep2sleep x y s).static_barrier2 i = s.static_barrier2 i ∧
        (detect_sweep2sleep x y s).powerkey_log = s.powerkey_log) ∨
     ((s.static_barrier1 i = true ∨ static_stage1 i x y) ∧
        (s.static_barrier2 i = true ∨ static_stage2 i x y) ∧
        ¬ static_stage3 i x y ∧
        (detect_sweep2sleep x y s).static_barrier1 i = true ∧
        (detect_sweep2sleep x y s).static_barrier2 i = true ∧
        (detect_sweep2sleep x y s).powerkey_log = s.powerkey_log) ∨
     ((s.static_barrier1 i = true ∨ static_stage1 i x y) ∧
        (s.static_barrier2 i = true ∨ static_stage2 i x y) ∧
        static_stage3 i x y ∧
        (detect_sweep2sleep x y s).static_barrier1 i = false ∧
        (detect_sweep2sleep x y s).static_barrier2 i = false ∧
        (detect_sweep2sleep x y s).powerkey_log =
          s.powerkey_log ++ [PressSite.static_gesture i])) := by
  have ha : s.static_bank_active i = true := hs.2.2.1
  rw [detect_only_static_bank i x y s hs]
  by_cases h1 : s.static_barrier1 i = true ∨ static_stage1 i x y
  · by_cases h2 : s.static_barrier2 i = true ∨ static_stage2 i x y
    · by_cases h3 : static_stage3 i x y
      · rw [static_bank_step_match x y { s with scr_on_touch := true } i ha h1 h2 h3 he]
        exact ⟨rfl, Or.inr (Or.inr (Or.inr ⟨h1, h2, h3, rfl, rfl, rfl⟩))⟩
      · rw [static_bank_step_latch2 x y { s with scr_on_touch := true } i ha h1 h2
          (fun hc => h3 hc.1)]
        refine ⟨he, Or.inr (Or.inr (Or.inl ⟨h1, h2, h3, ?_, ?_, rfl⟩))⟩ <;> simp
    · rw [static_bank_step_latch1 x y { s with scr_on_touch := true } i ha h1 h2]
      refine ⟨he, Or.inr (Or.inl ⟨h1, h2, ?_, rfl, rfl⟩)⟩
      simp
  · rw [static_bank_step_idle x y { s with scr_on_touch := true } i (fun hc => h1 hc.2)]
    exact ⟨he, Or.inl ⟨h1, rfl, rfl, rfl⟩⟩

theorem static_stage1_not_stage2 (i : Fin STATIC_BANKS) (x y : Int)
    (h : static_stage1 i x y) : ¬ static_stage2 i x y :=
  fun h2 => static_stage12_disjoint i x ⟨⟨h.1, h.2.1⟩, ⟨h2.1, h2.2.1⟩⟩

theorem static_stage2_not_stage3 (i : Fin STATIC_BANKS) (x y : Int)
    (h : static_stage2 i x y) : ¬ static_stage3 i x y :=
  fun h3 => static_stage23_disjoint i x ⟨⟨h.1, h.2.1⟩, ⟨h3.1, h3.2.1⟩⟩

theorem static_stage1_not_stage3 (i : Fin STATIC_BANKS) (x y : Int)
    (h : static_stage1 i x y) : ¬ static_stage3 i x y :=
  fun h3 => static_stage13_disjoint i x ⟨⟨h.1, h.2.1⟩, ⟨h3.1, h3.2.1⟩⟩

theorem pressed_between_of_log_eq (s t u : State) (h : t.powerkey_log = s.powerkey_log) :
    pressed_between s u ↔ pressed_between t u := by
  unfold pressed_between
  rw [h]

theorem pressed_between_of_press (s t : State) (l : List (Int × Int)) (site : PressSite)
    (h : t.powerkey_log = s.powerkey_log ++ [site]) :
    pressed_between s (detect_all t l) := by
  have h1 := detect_all_log_le l t
  unfold pressed_between
  rw [h] at h1
  simp at h1
  omega

/-- Both latches set: the key is pressed as soon as a sample is in stage 3. -/
theorem only_static_bank_from_stage3 (i : Fin STATIC_BANKS) (l : List (Int × Int)) :
    ∀ s : State, only_static_bank i s → s.exec_count = true →
      s.static_barrier1 i = true → s.static_barrier2 i = true →
      (pressed_between s (detect_all s l) ↔
        occurs1 (fun p => static_stage3 i p.1 p.2) l) := by
  induction l with
  | nil =>
    intro s _ _ _ _
    simp [detect_all_nil, pressed_between, occurs1_nil]
  | cons p l ih =>
    intro s hs he hb1 hb2
    rw [detect_all_cons, occurs1_cons]
    have hs1 := only_static_bank_detect i p.1 p.2 s hs
    obtain ⟨he1, hc⟩ := only_static_bank_step i p.1 p.2 s hs he
    rcases hc with ⟨n1, -⟩ | ⟨-, n2, -⟩ | ⟨-, -, n3, e1, e2, el⟩ | ⟨-, -, h3, -, -, el⟩
    · exact absurd (Or.inl hb1) n1
    · exact absurd (Or.inl hb2) n2
    · rw [pressed_between_of_log_eq s _ _ el, ih _ hs1 he1 e1 e2]
      simp [n3]
    · simp [h3, pressed_between_of_press s _ l _ el]

/-- Stage 1 latched only: the key is pressed when a sample in stage 2 is
followed by a sample in stage 3. -/
theorem only_static_bank_from_stage2 (i : Fin STATIC_BANKS) (l : List (Int × Int)) :
    ∀ s : State, only_static_bank i s → s.exec_count = true →
      s.static_barrier1 i = true → s.static_barrier2 i = false →
      (pressed_between s (detect_all s l) ↔
        occurs2 (fun p => static_stage2 i p.1 p.2)
          (fun p => static_stage3 i p.1 p.2) l) := by
  induction l with
  | nil =>
    intro s _ _ _ _
    simp [detect_all_nil, pressed_between, occurs2_nil]
  | cons p l ih =>
    intro s hs he hb1 hb2
    rw [detect_all_cons, occurs2_cons]
    have hs1 := only_static_bank_detect i p.1 p.2 s hs
    obtain ⟨he1, hc⟩ := only_static_bank_step i p.1 p.2 s hs he
    rcases hc with ⟨n1, -⟩ | ⟨-, n2, e1, e2, el⟩ | ⟨-, h2, -, e1, e2, el⟩ |
      ⟨-, h2, h3, -, -, -⟩
    · exact absurd (Or.inl hb1) n1
    · have n2' : ¬ static_stage2 i p.1 p.2 := fun hc => n2 (Or.inr hc)
      rw [pressed_between_of_log_eq s _ _ el, ih _ hs1 he1 e1 (e2.trans hb2)]
      simp [n2']
    · have h2' : static_stage2 i p.1 p.2 := by
        rcases h2 with h | h
        · rw [hb2] at h; exact absurd h (by decide)
        · exact h
      rw [pressed_between_of_log_eq s _ _ el,
        only_static_bank_from_stage3 i l _ hs1 he1 e1 e2]
      constructor
      · intro h; exact Or.inl ⟨h2', h⟩
      · rintro (h | h)
        · exact h.2
        · exact occurs2_imp_occurs1 _ _ l h
    · have h2' : static_stage2 i p.1 p.2 := by
        rcases h2 with h | h
        · rw [hb2] at h; exact absurd h (by decide)
        · exact h
      exact absurd h3 (static_stage2_not_stage3 i p.1 p.2 h2')

/-- No latch set: the key is pressed when a sample in stage 1 is followed by
one in stage 2 and that one by one in stage 3. -/
theorem only_static_bank_from_stage1 (i : Fin STATIC_BANKS) (l : List (Int × Int)) :
    ∀ s : State, only_static_bank i s → s.exec_count = true →
      s.static_barrier1 i = false → s.static_barrier2 i = false →
      (pressed_between s (detect_all s l) ↔ ordered_match i l) := by
  unfold ordered_match
  induction l with
  | nil =>
    intro s _ _ _ _
    simp [detect_all_nil, pressed_between, occurs3_nil]
  | cons p l ih =>
    intro s hs he hb1 hb2
    rw [detect_all_cons, occurs3_cons]
    have hs1 := only_static_bank_detect i p.1 p.2 s hs
    obtain ⟨he1, hc⟩ := only_static_bank_step i p.1 p.2 s hs he
    have in1 : (s.static_barrier1 i = true ∨ static_stage1 i p.1 p.2) →
        static_stage1 i p.1 p.2 := by
      rintro (h | h)
      · rw [hb1] at h; exact absurd h (by decide)
      · exact h
    have in2 : (s.static_barrier2 i = true ∨ static_stage2 i p.1 p.2) →
        static_stage2 i p.1 p.2 := by
      rintro (h | h)
      · rw [hb2] at h; exact absurd h (by decide)
      · exact h
    rcases hc with ⟨n1, e1, e2, el⟩ | ⟨h1, -, e1, e2, el⟩ | ⟨h1, h2, -⟩ | ⟨h1, h2, -⟩
    · have n1' : ¬ static_stage1 i p.1 p.2 := fun hc => n1 (Or.inr hc)
      rw [pressed_between_of_log_eq s _ _ el,
        ih _ hs1 he1 (e1.trans hb1) (e2.trans hb2)]
      simp [n1']
    · rw [pressed_between_of_log_eq s _ _ el,
        only_static_bank_from_stage2 i l _ hs1 he1 e1 (e2.trans hb2)]
      constructor
      · intro h; exact Or.inl ⟨in1 h1, h⟩
      · rintro (h | h)
        · exact h.2
        · exact occurs3_imp_occurs2 _ _ _ l h
    · exact absurd (in2 h2) (static_stage1_not_stage2 i p.1 p.2 (in1 h1))
    · exact absurd (in2 h2) (static_stage1_not_stage2 i p.1 p.2 (in1 h1))

theorem detect_sweep2sleep_log_prefix (x y : Int) (s : State) :
    ∃ t, (detect_sweep2sleep x y s).powerkey_log = s.powerkey_log ++ t := by
  refine detect_sweep2sleep_induct
    (fun u => ∃ t, u.powerkey_log = s.powerkey_log ++ t) x y s ⟨[], by simp⟩
    (fun h => h) ?_ ?_
  · rintro u i ⟨t, h⟩
    rcases static_bank_step_log x y u i with e | e <;> rw [e, h]
    · exact ⟨t, rfl⟩
    · exact ⟨t ++ [PressSite.static_gesture i], by simp⟩
  · rintro u i ⟨t, h⟩
    rcases dynamic_bank_step_log x y u i with e | e <;> rw [e, h]
    · exact ⟨t, rfl⟩
    · exact ⟨t ++ [PressSite.dynamic_gesture i], by simp⟩

theorem detect_all_log_prefix (l : List (Int × Int)) :
    ∀ s : State, ∃ t, (detect_all s l).powerkey_log = s.powerkey_log ++ t := by
  induction l with
  | nil => intro s; exact ⟨[], by simp [detect_all_nil]⟩
  | cons p l ih =>
    intro s
    rw [detect_all_cons]
    obtain ⟨t1, h1⟩ := detect_sweep2sleep_log_prefix p.1 p.2 s
    obtain ⟨t2, h2⟩ := ih (detect_sweep2sleep p.1 p.2 s)
    exact ⟨t1 ++ t2, by rw [h2, h1, List.append_assoc]⟩

theorem log_eq_of_not_pressed_between (s : State) (l : List (Int × Int))
    (h : ¬ pressed_between s (detect_all s l)) :
    (detect_all s l).powerkey_log = s.powerkey_log := by
  obtain ⟨t, ht⟩ := detect_all_log_prefix l s
  unfold pressed_between at h
  rw [ht] at h ⊢
  cases t with
  | nil => simp
  | cons a t => simp at h

/-- A single active static bank swept in order from the fresh state: nothing
on the first two samples, one press on the third. -/
theorem only_static_bank_sweep (i : Fin STATIC_BANKS) (s : State)
    (x1 y1 x2 y2 x3 y3 : Int)
    (hs : only_static_bank i s) (hf : fresh_session s)
    (h1 : static_stage1 i x1 y1) (h2 : static_stage2 i x2 y2)
    (h3 : static_stage3 i x3 y3) :
    (detect_all s [(x1, y1)]).powerkey_log = s.powerkey_log ∧
    (detect_all s [(x1, y1), (x2, y2)]).powerkey_log = s.powerkey_log ∧
    (detect_all s [(x1, y1), (x2, y2), (x3, y3)]).powerkey_log =
      s.powerkey_log ++ [PressSite.static_gesture i] := by
  obtain ⟨f1, f2, -, -, he⟩ := hf
  have n12 := static_stage1_not_stage2 i x1 y1 h1
  have n23 := static_stage2_not_stage3 i x2 y2 h2
  simp only [detect_all, List.foldl]
  -- first sample
  have hsA := only_static_bank_detect i x1 y1 s hs
  obtain ⟨heA, hA⟩ := only_static_bank_step i x1 y1 s hs he
  have hA' : (detect_sweep2sleep x1 y1 s).static_barrier1 i = true ∧
      (detect_sweep2sleep x1 y1 s).static_barrier2 i = false ∧
      (detect_sweep2sleep x1 y1 s).powerkey_log = s.powerkey_log := by
    rcases hA with ⟨n, -⟩ | ⟨-, -, e1, e2, el⟩ | ⟨-, c, -⟩ | ⟨-, c, -⟩
    · exact absurd (Or.inr h1) n
    · exact ⟨e1, e2.trans (f2 i), el⟩
    · rcases c with c | c
      · rw [f2 i] at c; exact absurd c (by decide)
      · exact absurd c n12
    · rcases c with c | c
      · rw [f2 i] at c; exact absurd c (by decide)
      · exact absurd c n12
  obtain ⟨a1, a2, al⟩ := hA'
  -- second sample
  have hsB := only_static_bank_detect i x2 y2 _ hsA
  obtain ⟨heB, hB⟩ := only_static_bank_step i x2 y2 _ hsA heA
  have hB' : (detect_sweep2sleep x2 y2 (detect_sweep2sleep x1 y1 s)).static_barrier1 i
        = true ∧
      (detect_sweep2sleep x2 y2 (detect_sweep2sleep x1 y1 s)).static_barrier2 i = true ∧
      (detect_sweep2sleep x2 y2 (detect_sweep2sleep x1 y1 s)).powerkey_log =
        s.powerkey_log := by
    rcases hB with ⟨n, -⟩ | ⟨-, n, -⟩ | ⟨-, -, -, e1, e2, el⟩ | ⟨-, -, c, -⟩
    · exact absurd (Or.inl a1) n
    · exact absurd (Or.inr h2) n
    · exact ⟨e1, e2, el.trans al⟩
    · exact absurd c n23
  obtain ⟨b1, b2, bl⟩ := hB'
  -- third sample
  obtain ⟨-, hC⟩ := only_static_bank_step i x3 y3 _ hsB heB
  refine ⟨al, bl, ?_⟩
  rcases hC with ⟨n, -⟩ | ⟨-, n, -⟩ | ⟨-, -, n, -⟩ | ⟨-, -, -, -, -, el⟩
  · exact absurd (Or.inl b1) n
  · exact absurd (Or.inl b2) n
  · exact absurd h3 n
  · rw [el, bl]

/-! ## Static gestures -/

/-- C2: a static gesture is an ordered, latch-sticky subsequence match. From
the fresh state, with the screen on, `s2s` not zero and static bank `i` the
only active bank, the samples fed to `detect_sweep2sleep` press the power key
at least once if and only if there are indices a < b < c with sample a
strictly inside stage 1 of bank `i`, sample b strictly inside stage 2 and
sample c strictly inside stage 3. For bank 0 the sweep (1000,2000),
(500,2000), (100,2000) presses nothing on its first two samples and once on
the third. -/
theorem C2_static_ordered_match (i : Fin STATIC_BANKS) (s : State)
    (hs : only_static_bank i s) (hf : fresh_session s) :
    (∀ l : List (Int × Int),
      pressed_between s (detect_all s l) ↔ ordered_match i l) ∧
    (i = 0 →
      (detect_all s [(1000, 2000)]).powerkey_log = s.powerkey_log ∧
      (detect_all s [(1000, 2000), (500, 2000)]).powerkey_log = s.powerkey_log ∧
      (detect_all s [(1000, 2000), (500, 2000), (100, 2000)]).powerkey_log =
        s.powerkey_log ++ [PressSite.static_gesture 0]) := by
  refine ⟨fun l => only_static_bank_from_stage1 i l s hs hf.2.2.2.2 (hf.1 i) (hf.2.1 i), ?_⟩
  intro hi
  subst hi
  exact only_static_bank_sweep 0 s 1000 2000 500 2000 100 2000 hs hf
    (by decide) (by decide) (by decide)

theorem static_bank_alone_only (i : Fin STATIC_BANKS) :
    only_static_bank i (static_bank_alone i) := by
  refine ⟨rfl, ?_, ?_, ?_, fun _ => rfl⟩
  · rcases static_bank_cases i with rfl | rfl | rfl | rfl <;> decide
  · simp [static_bank_alone]
  · intro j hj
    simp [static_bank_alone, hj]

theorem static_bank_alone_fresh (i : Fin STATIC_BANKS) :
    fresh_session (static_bank_alone i) :=
  ⟨fun _ => rfl, fun _ => rfl, fun _ => rfl, fun _ => rfl, rfl⟩

/-- Witness of C2: bank 0 alone, from the initial latches, on the sweep of the
specification's example. -/
theorem C2_static_ordered_match_witness :
    (pressed_between (static_bank_alone 0)
        (detect_all (static_bank_alone 0) [(1000, 2000), (500, 2000), (100, 2000)]) ↔
      ordered_match 0 [(1000, 2000), (500, 2000), (100, 2000)]) ∧
    (detect_all (static_bank_alone 0) [(1000, 2000)]).powerkey_log =
      (static_bank_alone 0).powerkey_log ∧
    (detect_all (static_bank_alone 0) [(1000, 2000), (500, 2000)]).powerkey_log =
      (static_bank_alone 0).powerkey_log ∧
    (detect_all (static_bank_alone 0)
      [(1000, 2000), (500, 2000), (100, 2000)]).powerkey_log =
      (static_bank_alone 0).powerkey_log ++ [PressSite.static_gesture 0] :=
  ⟨(C2_static_ordered_match 0 (static_bank_alone 0) (static_bank_alone_only 0)
      (static_bank_alone_fresh 0)).1 _,
   (C2_static_ordered_match 0 (static_bank_alone 0) (static_bank_alone_only 0)
      (static_bank_alone_fresh 0)).2 rfl⟩

/-- A single active static bank swept in the wrong order from the fresh
state: the stage 3 and stage 2 samples latch nothing, the stage 1 sample
latches stage 1. -/
theorem only_static_bank_reverse_sweep (i : Fin STATIC_BANKS) (s : State)
    (x3 y3 x2 y2 x1 y1 : Int)
    (hs : only_static_bank i s) (hf : fresh_session s)
    (h3 : static_stage3 i x3 y3) (h2 : static_stage2 i x2 y2)
    (h1 : static_stage1 i x1 y1) :
    (detect_all s [(x3, y3), (x2, y2), (x1, y1)]).static_barrier1 i = true ∧
    (detect_all s [(x3, y3), (x2, y2), (x1, y1)]).static_barrier2 i = false := by
  obtain ⟨f1, f2, -, -, he⟩ := hf
  have n13 : ¬ static_stage1 i x3 y3 := fun hc => static_stage1_not_stage3 i x3 y3 hc h3
  have n12 : ¬ static_stage1 i x2 y2 := fun hc => static_stage1_not_stage2 i x2 y2 hc h2
  have n21 : ¬ static_stage2 i x1 y1 := static_stage1_not_stage2 i x1 y1 h1
  simp only [detect_all, List.foldl]
  -- the stage 3 sample
  have hsA := only_static_bank_detect i x3 y3 s hs
  obtain ⟨heA, hA⟩ := only_static_bank_step i x3 y3 s hs he
  have hA' : (detect_sweep2sleep x3 y3 s).static_barrier1 i = false ∧
      (detect_sweep2sleep x3 y3 s).static_barrier2 i = false := by
    rcases hA with ⟨-, e1, e2, -⟩ | ⟨c, -⟩ | ⟨c, -⟩ | ⟨c, -⟩
    · exact ⟨e1.trans (f1 i), e2.trans (f2 i)⟩
    all_goals
      rcases c with c | c
      · rw [f1 i] at c; exact absurd c (by decide)
      · exact absurd c n13
  obtain ⟨a1, a2⟩ := hA'
  -- the stage 2 sample
  have hsB := only_static_bank_detect i x2 y2 _ hsA
  obtain ⟨heB, hB⟩ := only_static_bank_step i x2 y2 _ hsA heA
  have hB' : (detect_sweep2sleep x2 y2 (detect_sweep2sleep x3 y3 s)).static_barrier1 i
        = false ∧
      (detect_sweep2sleep x2 y2 (detect_sweep2sleep x3 y3 s)).static_barrier2 i
        = false := by
    rcases hB with ⟨-, e1, e2, -⟩ | ⟨c, -⟩ | ⟨c, -⟩ | ⟨c, -⟩
    · exact ⟨e1.trans a1, e2.trans a2⟩
    all_goals
      rcases c with c | c
      · rw [a1] at c; exact absurd c (by decide)
      · exact absurd c n12
  obtain ⟨b1, b2⟩ := hB'
  -- the stage 1 sample
  obtain ⟨-, hC⟩ := only_static_bank_step i x1 y1 _ hsB heB
  rcases hC with ⟨n, -⟩ | ⟨-, -, e1, e2, -⟩ | ⟨-, c, -⟩ | ⟨-, c, -⟩
  · exact absurd (Or.inr h1) n
  · exact ⟨e1, e2.trans b2⟩
  all_goals
    rcases c with c | c
    · rw [b2] at c; exact absurd c (by decide)
    · exact absurd c n21

/-- C4: a static match is order-sensitive. From the fresh state, with static
bank `i` the only active bank, a sample inside stage 3, then one inside
stage 2, then one inside stage 1 press the power key on none of the three
calls; they leave stage 1 latched and stage 2 not. -/
theorem C4_static_wrong_order (i : Fin STATIC_BANKS) (s : State)
    (x3 y3 x2 y2 x1 y1 : Int)
    (hs : only_static_bank i s) (hf : fresh_session s)
    (h3 : static_stage3 i x3 y3) (h2 : static_stage2 i x2 y2)
    (h1 : static_stage1 i x1 y1) :
    (detect_all s [(x3, y3)]).powerkey_log = s.powerkey_log ∧
    (detect_all s [(x3, y3), (x2, y2)]).powerkey_log = s.powerkey_log ∧
    (detect_all s [(x3, y3), (x2, y2), (x1, y1)]).powerkey_log = s.powerkey_log ∧
    ¬ pressed_between s (detect_all s [(x3, y3), (x2, y2), (x1, y1)]) ∧
    (detect_all s [(x3, y3), (x2, y2), (x1, y1)]).static_barrier1 i = true ∧
    (detect_all s [(x3, y3), (x2, y2), (x1, y1)]).static_barrier2 i = false := by
  have key : ∀ l : List (Int × Int), ¬ ordered_match i l →
      ¬ pressed_between s (detect_all s l) := fun l hl hp =>
    hl ((only_static_bank_from_stage1 i l s hs hf.2.2.2.2 (hf.1 i) (hf.2.1 i)).1 hp)
  have n13 : ¬ static_stage1 i x3 y3 := fun hc => static_stage1_not_stage3 i x3 y3 hc h3
  have m1 : ¬ ordered_match i [(x3, y3)] := by
    simp [ordered_match, occurs3_cons, occurs2_nil, occurs3_nil]
  have m2 : ¬ ordered_match i [(x3, y3), (x2, y2)] := by
    simp [ordered_match, occurs3_cons, occurs2_cons, occurs1_nil, occurs2_nil, occurs3_nil]
  have m3 : ¬ ordered_match i [(x3, y3), (x2, y2), (x1, y1)] := by
    simp [ordered_match, occurs3_cons, occurs2_cons, occurs1_cons, occurs1_nil,
      occurs2_nil, occurs3_nil, n13]
  exact ⟨log_eq_of_not_pressed_between s _ (key _ m1),
    log_eq_of_not_pressed_between s _ (key _ m2),
    log_eq_of_not_pressed_between s _ (key _ m3), key _ m3,
    only_static_bank_reverse_sweep i s x3 y3 x2 y2 x1 y1 hs hf h3 h2 h1⟩

/-- Witness of C4: bank 0 alone on the reversed sweep (100,2000), (500,2000),
(1000,2000). -/
theorem C4_static_wrong_order_witness :
    (detect_all (static_bank_alone 0) [(100, 2000)]).powerkey_log =
      (static_bank_alone 0).powerkey_log ∧
    (detect_all (static_bank_alone 0) [(100, 2000), (500, 2000)]).powerkey_log =
      (static_bank_alone 0).powerkey_log ∧
    (detect_all (static_bank_alone 0)
      [(100, 2000), (500, 2000), (1000, 2000)]).powerkey_log =
      (static_bank_alone 0).powerkey_log ∧
    ¬ pressed_between (static_bank_alone 0)
      (detect_all (static_bank_alone 0) [(100, 2000), (500, 2000), (1000, 2000)]) ∧
    (detect_all (static_bank_alone 0)
      [(100, 2000), (500, 2000), (1000, 2000)]).static_barrier1 0 = true ∧
    (detect_all (static_bank_alone 0)
      [(100, 2000), (500, 2000), (1000, 2000)]).static_barrier2 0 = false :=
  C4_static_wrong_order 0 (static_bank_alone 0) 100 2000 500 2000 1000 2000
    (static_bank_alone_only 0) (static_bank_alone_fresh 0)
    (by decide) (by decide) (by decide)

/-! ## A static loop that cannot match -/

/-- When no static bank has stage 2 latched, the static loop presses nothing:
it leaves everything but the static latches alone, latches stage 1 only for a
sample inside stage 1, and stage 2 only for a sample inside stage 2 of a bank
whose stage 1 was latched before the call. -/
theorem static_loop_quiet (x y : Int) (u : State)
    (hb2 : ∀ j, u.static_barrier2 j = false) :
    same_dynamic u (static_bank_step x y (static_bank_step x y (static_bank_step x y
      (static_bank_step x y u 0) 1) 2) 3) ∧
    (∀ j, (static_bank_step x y (static_bank_step x y (static_bank_step x y
      (static_bank_step x y u 0) 1) 2) 3).static_barrier1 j = true →
        u.static_barrier1 j = true ∨ static_stage1 j x y) ∧
    (∀ j, (static_bank_step x y (static_bank_step x y (static_bank_step x y
      (static_bank_step x y u 0) 1) 2) 3).static_barrier2 j = true →
        static_stage2 j x y ∧ u.static_barrier1 j = true) := by
  refine static_loop_induct
    (fun t => same_dynamic u t ∧
      (∀ j, t.static_barrier1 j = true → u.static_barrier1 j = true ∨ static_stage1 j x y) ∧
      (∀ j, t.static_barrier2 j = true → static_stage2 j x y ∧ u.static_barrier1 j = true))
    x y u ⟨⟨rfl, rfl, rfl, rfl, rfl, rfl, rfl, rfl, rfl⟩, fun j h => Or.inl h,
      fun j h => absurd h (by rw [hb2 j]; decide)⟩ ?_
  rintro t i ⟨hd, hi1, hi2⟩
  have hA : (t.static_barrier1 i = true ∨ static_stage1 i x y) →
      u.static_barrier1 i = true ∨ static_stage1 i x y := by
    rintro (h | h)
    · exact hi1 i h
    · exact Or.inr h
  have hB : (t.static_barrier1 i = true ∨ static_stage1 i x y) →
      (t.static_barrier2 i = true ∨ static_stage2 i x y) →
      static_stage2 i x y ∧ u.static_barrier1 i = true := by
    rintro h1 (h | h)
    · exact hi2 i h
    · rcases hA h1 with h1 | h1
      · exact ⟨h, h1⟩
      · exact absurd h (static_stage1_not_stage2 i x y h1)
  rcases static_bank_step_cases x y t i with e | ⟨-, h1, -, e⟩ | ⟨-, h1, h2, -, e⟩ |
    ⟨-, h1, h2, h3, -, -⟩
  · rw [e]; exact ⟨hd, hi1, hi2⟩
  · rw [e]
    refine ⟨hd, ?_, hi2⟩
    intro j hj
    by_cases hji : j = i
    · subst hji; exact hA h1
    · simp [Function.update_apply, hji] at hj
      exact hi1 j hj
  · rw [e]
    refine ⟨hd, ?_, ?_⟩
    · intro j hj
      by_cases hji : j = i
      · subst hji; exact hA h1
      · simp [Function.update_apply, hji] at hj
        exact hi1 j hj
    · intro j hj
      by_cases hji : j = i
      · subst hji; exact hB h1 h2
      · simp [Function.update_apply, hji] at hj
        exact hi2 j hj
  · exact absurd h3 (static_stage2_not_stage3 i x y (hB h1 h2).1)

/-! ## The dynamic gesture next to static banks that cannot match -/

/-- A call on an enabled engine with no stage 2 latched in any static bank is
the dynamic loop body run on a state that differs from the entry state in
static latches and `scr_on_touch` only. -/
theorem detect_sweep2sleep_quiet (x y : Int) (u : State)
    (hgo : u.scr_suspended = false ∧ u.s2s ≠ 0)
    (hb2 : ∀ j, u.static_barrier2 j = false) :
    ∃ t : State, detect_sweep2sleep x y u = dynamic_bank_step x y t 0 ∧
      same_dynamic u t ∧
      (∀ j, t.static_barrier1 j = true →
        u.static_barrier1 j = true ∨ static_stage1 j x y) ∧
      (∀ j, t.static_barrier2 j = true →
        static_stage2 j x y ∧ u.static_barrier1 j = true) := by
  refine ⟨_, ?_, static_loop_quiet x y { u with scr_on_touch := true } hb2⟩
  rw [detect_sweep2sleep_eq, if_pos hgo]

/-- A call in which no static bank has stage 2 latched and the sample enters
the anchor of the dynamic bank: stage 1 is latched, the window is computed
from the sample, nothing is pressed. -/
theorem detect_quiet_latch1 (x y : Int) (u : State)
    (hgo : u.scr_suspended = false ∧ u.s2s ≠ 0)
    (hb2 : ∀ j, u.static_barrier2 j = false)
    (ha : u.dynamic_bank_active (dynamic_bank_index 0) = true)
    (h1 : u.dynamic_barrier1 0 = false) (hin : dynamic_anchor 0 x y) :
    (detect_sweep2sleep x y u).dynamic_barrier1 0 = true ∧
    (detect_sweep2sleep x y u).dynamic_barrier2 0 = u.dynamic_barrier2 0 ∧
    (detect_sweep2sleep x y u).dynamic_next_x_min = to_int (x + -300) ∧
    (detect_sweep2sleep x y u).dynamic_next_x_max = to_int (to_int (x + -300) + 200) ∧
    (detect_sweep2sleep x y u).dynamic_next_y_min = to_int (y + 100) ∧
    (detect_sweep2sleep x y u).dynamic_next_y_max = to_int (to_int (y + 100) + 200) ∧
    (detect_sweep2sleep x y u).exec_count = u.exec_count ∧
    (detect_sweep2sleep x y u).powerkey_log = u.powerkey_log ∧
    (∀ j, (detect_sweep2sleep x y u).static_barrier1 j = true →
      u.static_barrier1 j = true ∨ static_stage1 j x y) ∧
    (∀ j, (detect_sweep2sleep x y u).static_barrier2 j = true →
      static_stage2 j x y ∧ u.static_barrier1 j = true) := by
  obtain ⟨t, e, ⟨d1, d2, d3, d4, -, -, -, -, d9⟩, q1, q2⟩ :=
    detect_sweep2sleep_quiet x y u hgo hb2
  rw [e, dynamic_bank_step_latch1 x y t 0 (by rw [d2]; exact ha)
    (by rw [d3]; exact h1) hin]
  refine ⟨by simp, ?_, rfl, rfl, rfl, rfl, d1, d9, q1, q2⟩
  show t.dynamic_barrier2 0 = u.dynamic_barrier2 0
  rw [d4]

/-- A call in which no static bank has stage 2 latched and the sample enters
the stored window with stage 1 of the dynamic bank latched: stage 2 is
latched, the window is computed from the sample, nothing is pressed. -/
theorem detect_quiet_latch2 (x y : Int) (u : State)
    (hgo : u.scr_suspended = false ∧ u.s2s ≠ 0)
    (hb2 : ∀ j, u.static_barrier2 j = false)
    (ha : u.dynamic_bank_active (dynamic_bank_index 0) = true)
    (h1 : u.dynamic_barrier1 0 = true) (h2 : u.dynamic_barrier2 0 = false)
    (hw : in_window u x y) :
    (detect_sweep2sleep x y u).dynamic_barrier1 0 = true ∧
    (detect_sweep2sleep x y u).dynamic_barrier2 0 = true ∧
    (detect_sweep2sleep x y u).dynamic_next_x_min = to_int (x + -300) ∧
    (detect_sweep2sleep x y u).dynamic_next_x_max = to_int (to_int (x + -300) + 200) ∧
    (detect_sweep2sleep x y u).dynamic_next_y_min = to_int (y + 100) ∧
    (detect_sweep2sleep x y u).dynamic_next_y_max = to_int (to_int (y + 100) + 200) ∧
    (detect_sweep2sleep x y u).exec_count = u.exec_count ∧
    (detect_sweep2sleep x y u).powerkey_log = u.powerkey_log ∧
    (∀ j, (detect_sweep2sleep x y u).static_barrier1 j = true →
      u.static_barrier1 j = true ∨ static_stage1 j x y) ∧
    (∀ j, (detect_sweep2sleep x y u).static_barrier2 j = true →
      static_stage2 j x y ∧ u.static_barrier1 j = true) := by
  obtain ⟨t, e, ⟨d1, d2, d3, d4, d5, d6, d7, d8, d9⟩, q1, q2⟩ :=
    detect_sweep2sleep_quiet x y u hgo hb2
  have hw' : in_window t x y := by
    unfold in_window at hw ⊢
    rw [d5, d6, d7, d8]
    exact hw
  rw [e, dynamic_bank_step_latch2 x y t 0 (by rw [d2]; exact ha)
    (by rw [d3]; exact h1) (by rw [d4]; exact h2) hw']
  refine ⟨?_, by simp, rfl, rfl, rfl, rfl, d1, d9, q1, q2⟩
  show t.dynamic_barrier1 0 = true
  rw [d3, h1]

/-- A call in which no static bank has stage 2 latched and the sample enters
the stored window with both stages of the dynamic bank latched and the guard
armed: the power key is pressed once, for the dynamic bank. -/
theorem detect_quiet_match (x y : Int) (u : State)
    (hgo : u.scr_suspended = false ∧ u.s2s ≠ 0)
    (hb2 : ∀ j, u.static_barrier2 j = false)
    (ha : u.dynamic_bank_active (dynamic_bank_index 0) = true)
    (h1 : u.dynamic_barrier1 0 = true) (h2 : u.dynamic_barrier2 0 = true)
    (hw : in_window u x y) (he : u.exec_count = true) :
    (detect_sweep2sleep x y u).powerkey_log =
      u.powerkey_log ++ [PressSite.dynamic_gesture 0] := by
  obtain ⟨t, e, ⟨d1, d2, d3, d4, d5, d6, d7, d8, d9⟩, -, -⟩ :=
    detect_sweep2sleep_quiet x y u hgo hb2
  have hw' : in_window t x y := by
    unfold in_window at hw ⊢
    rw [d5, d6, d7, d8]
    exact hw
  rw [e, dynamic_bank_step_match x y t 0 (by rw [d2]; exact ha)
    (by rw [d3]; exact h1) (by rw [d4]; exact h2) hw' (by rw [d1]; exact he)]
  show t.powerkey_log ++ _ = _
  rw [d9]

/-- C3: the dynamic gesture, matched in full. From the fresh state, with the
screen on, `s2s` not zero and dynamic bank 0 active (static banks active or
not), three consecutive samples of which the first is strictly inside the
anchor, the second strictly inside the window computed from the first and the
third strictly inside the window computed from the second press nothing on
the first two calls and press the power key once, for the dynamic bank, on the
third. -/
theorem C3_dynamic_full_match (s : State) (x0 y0 x1 y1 x2 y2 : Int)
    (hscr : s.scr_suspended = false) (hs2s : s.s2s ≠ 0)
    (hact : s.dynamic_bank_active (dynamic_bank_index 0) = true)
    (hf : fresh_session s)
    (h0 : 800 < x0 ∧ x0 < 1280 ∧ 800 < y0 ∧ y0 < 1600)
    (h1 : x0 - 300 < x1 ∧ x1 < x0 - 100 ∧ y0 + 100 < y1 ∧ y1 < y0 + 300)
    (h2 : x1 - 300 < x2 ∧ x2 < x1 - 100 ∧ y1 + 100 < y2 ∧ y2 < y1 + 300) :
    (detect_all s [(x0, y0)]).powerkey_log = s.powerkey_log ∧
    (detect_all s [(x0, y0), (x1, y1)]).powerkey_log = s.powerkey_log ∧
    (detect_all s [(x0, y0), (x1, y1), (x2, y2)]).powerkey_log =
      s.powerkey_log ++ [PressSite.dynamic_gesture 0] := by
  obtain ⟨f1, f2, f3, f4, he⟩ := hf
  simp only [detect_all, List.foldl]
  have hin : dynamic_anchor 0 x0 y0 := by
    obtain ⟨e1, e2, e3, e4, -⟩ := dynamic_tables 0
    unfold dynamic_anchor
    rw [e1, e2, e3, e4]
    omega
  have n1 : ∀ j, ¬ static_stage1 j x0 y0 := by
    intro j hj
    unfold static_stage1 at hj
    rcases static_bank_cases j with rfl | rfl | rfl | rfl <;>
      simp [STATIC_Y_MIN1] at hj <;> omega
  -- first sample
  obtain ⟨a1, a2, a3, a4, a5, a6, a7, a8, a9, a10⟩ :=
    detect_quiet_latch1 x0 y0 s ⟨hscr, hs2s⟩ f2 hact (f3 0) hin
  obtain ⟨c1, c2, -, c4⟩ := detect_sweep2sleep_config x0 y0 s
  have ab1 : ∀ j, (detect_sweep2sleep x0 y0 s).static_barrier1 j = false := by
    intro j
    cases h : (detect_sweep2sleep x0 y0 s).static_barrier1 j
    · rfl
    · rcases a9 j h with h' | h'
      · rw [f1 j] at h'; exact absurd h' (by decide)
      · exact absurd h' (n1 j)
  have ab2 : ∀ j, (detect_sweep2sleep x0 y0 s).static_barrier2 j = false := by
    intro j
    cases h : (detect_sweep2sleep x0 y0 s).static_barrier2 j
    · rfl
    · have h' := (a10 j h).2
      rw [f1 j] at h'; exact absurd h' (by decide)
  have hwA : in_window (detect_sweep2sleep x0 y0 s) x1 y1 := by
    unfold in_window
    rw [a3, a4, a5, a6]
    unfold to_int
    omega
  -- second sample
  obtain ⟨b1, b2, b3, b4, b5, b6, b7, b8, -, b10⟩ :=
    detect_quiet_latch2 x1 y1 (detect_sweep2sleep x0 y0 s)
      ⟨c2.trans hscr, by rw [c1]; exact hs2s⟩ ab2 (by rw [c4]; exact hact) a1
      (a2.trans (f4 0)) hwA
  obtain ⟨k1, k2, -, k4⟩ := detect_sweep2sleep_config x1 y1 (detect_sweep2sleep x0 y0 s)
  have bb2 : ∀ j, (detect_sweep2sleep x1 y1
      (detect_sweep2sleep x0 y0 s)).static_barrier2 j = false := by
    intro j
    cases h : (detect_sweep2sleep x1 y1 (detect_sweep2sleep x0 y0 s)).static_barrier2 j
    · rfl
    · have h' := (b10 j h).2
      rw [ab1 j] at h'; exact absurd h' (by decide)
  have hwB : in_window (detect_sweep2sleep x1 y1 (detect_sweep2sleep x0 y0 s)) x2 y2 := by
    unfold in_window
    rw [b3, b4, b5, b6]
    unfold to_int
    omega
  -- third sample
  have hC := detect_quiet_match x2 y2 (detect_sweep2sleep x1 y1 (detect_sweep2sleep x0 y0 s))
    ⟨k2.trans (c2.trans hscr), by rw [k1, c1]; exact hs2s⟩ bb2
    (by rw [k4, c4]; exact hact) b1 b2 hwB (b7.trans (a7.trans he))
  exact ⟨a8, b8.trans a8, by rw [hC, b8, a8]⟩

/-- Witness of C3: the dynamic bank alone, on the diagonal (1000,1000),
(800,1200), (600,1400). -/
theorem C3_dynamic_full_match_witness :
    (detect_all (run init [Event.store (some 16) 3]) [(1000, 1000)]).powerkey_log =
      (run init [Event.store (some 16) 3]).powerkey_log ∧
    (detect_all (run init [Event.store (some 16) 3])
      [(1000, 1000), (800, 1200)]).powerkey_log =
      (run init [Event.store (some 16) 3]).powerkey_log ∧
    (detect_all (run init [Event.store (some 16) 3])
      [(1000, 1000), (800, 1200), (600, 1400)]).powerkey_log =
      (run init [Event.store (some 16) 3]).powerkey_log ++
        [PressSite.dynamic_gesture 0] :=
  C3_dynamic_full_match (run init [Event.store (some 16) 3]) 1000 1000 800 1200 600 1400
    (by decide) (by decide) (by decide)
    ⟨by decide, by decide, by decide, by decide, by decide⟩
    (by decide) (by decide) (by decide)

/-! ## Disabled banks -/

/-- One call, seen from a static bank that is not active: the bank stays
inactive, none of its latches is set, no press is logged for it. -/
theorem detect_inactive_static (x y : Int) (s : State) (i : Fin STATIC_BANKS)
    (h : s.static_bank_active i = false) :
    (detect_sweep2sleep x y s).static_bank_active i = false ∧
    ((detect_sweep2sleep x y s).static_barrier1 i = true → s.static_barrier1 i = true) ∧
    ((detect_sweep2sleep x y s).static_barrier2 i = true → s.static_barrier2 i = true) ∧
    ∃ l, (detect_sweep2sleep x y s).powerkey_log = s.powerkey_log ++ l ∧
      PressSite.static_gesture i ∉ l := by
  refine detect_sweep2sleep_induct
    (fun t => t.static_bank_active i = false ∧
      (t.static_barrier1 i = true → s.static_barrier1 i = true) ∧
      (t.static_barrier2 i = true → s.static_barrier2 i = true) ∧
      ∃ l, t.powerkey_log = s.powerkey_log ++ l ∧ PressSite.static_gesture i ∉ l)
    x y s ⟨h, id, id, [], by simp, by simp⟩ (fun hp => hp) ?_ ?_
  · rintro t j ⟨ha, p1, p2, l, hl, hn⟩
    have hji : ∀ (_ : t.static_bank_active j = true), i ≠ j := by
      intro hj hij
      rw [← hij, ha] at hj
      exact absurd hj (by decide)
    rcases static_bank_step_cases x y t j with e | ⟨aj, -, -, e⟩ | ⟨aj, -, -, -, e⟩ |
      ⟨aj, -, -, -, -, e⟩ <;> rw [e]
    · exact ⟨ha, p1, p2, l, hl, hn⟩
    · refine ⟨ha, ?_, p2, l, hl, hn⟩
      intro hb
      simp [Function.update_apply, hji aj] at hb
      exact p1 hb
    · refine ⟨ha, ?_, ?_, l, hl, hn⟩
      · intro hb
        simp [Function.update_apply, hji aj] at hb
        exact p1 hb
      · intro hb
        simp [Function.update_apply, hji aj] at hb
        exact p2 hb
    · refine ⟨ha, fun hb => absurd hb (by simp [after_match]),
        fun hb => absurd hb (by simp [after_match]),
        l ++ [PressSite.static_gesture j], by simp [after_match, hl], ?_⟩
      simp [hn, hji aj]
  · rintro t j ⟨ha, p1, p2, l, hl, hn⟩
    rcases dynamic_bank_step_cases x y t j with e | ⟨-, -, -, e⟩ | ⟨-, -, -, -, e⟩ |
      ⟨-, -, -, -, -, e⟩ <;> rw [e]
    · exact ⟨ha, p1, p2, l, hl, hn⟩
    · exact ⟨ha, p1, p2, l, hl, hn⟩
    · exact ⟨ha, p1, p2, l, hl, hn⟩
    · refine ⟨ha, fun hb => absurd hb (by simp [after_match]),
        fun hb => absurd hb (by simp [after_match]),
        l ++ [PressSite.dynamic_gesture j], by simp [after_match, hl], ?_⟩
      simp [hn]

/-- One call, seen from a dynamic bank that is not active: the bank stays
inactive, none of its latches is set, no press is logged for it. -/
theorem detect_inactive_dynamic (x y : Int) (s : State) (i : Fin DYNAMIC_BANKS)
    (h : s.dynamic_bank_active (dynamic_bank_index i) = false) :
    (detect_sweep2sleep x y s).dynamic_bank_active (dynamic_bank_index i) = false ∧
    ((detect_sweep2sleep x y s).dynamic_barrier1 i = true →
      s.dynamic_barrier1 i = true) ∧
    ((detect_sweep2sleep x y s).dynamic_barrier2 i = true →
      s.dynamic_barrier2 i = true) ∧
    ∃ l, (detect_sweep2sleep x y s).powerkey_log = s.powerkey_log ++ l ∧
      PressSite.dynamic_gesture i ∉ l := by
  refine detect_sweep2sleep_induct
    (fun t => t.dynamic_bank_active (dynamic_bank_index i) = false ∧
      (t.dynamic_barrier1 i = true → s.dynamic_barrier1 i = true) ∧
      (t.dynamic_barrier2 i = true → s.dynamic_barrier2 i = true) ∧
      ∃ l, t.powerkey_log = s.powerkey_log ++ l ∧ PressSite.dynamic_gesture i ∉ l)
    x y s ⟨h, id, id, [], by simp, by simp⟩ (fun hp => hp) ?_ ?_
  · rintro t j ⟨ha, p1, p2, l, hl, hn⟩
    rcases static_bank_step_cases x y t j with e | ⟨-, -, -, e⟩ | ⟨-, -, -, -, e⟩ |
      ⟨-, -, -, -, -, e⟩ <;> rw [e]
    · exact ⟨ha, p1, p2, l, hl, hn⟩
    · exact ⟨ha, p1, p2, l, hl, hn⟩
    · exact ⟨ha, p1, p2, l, hl, hn⟩
    · refine ⟨ha, fun hb => absurd hb (by simp [after_match]),
        fun hb => absurd hb (by simp [after_match]),
        l ++ [PressSite.static_gesture j], by simp [after_match, hl], ?_⟩
      simp [hn]
  · rintro t j ⟨ha, p1, p2, l, hl, hn⟩
    have hj : ¬ (t.dynamic_bank_active (dynamic_bank_index j) = true) := by
      rw [dynamic_bank_eq_zero j, ← dynamic_bank_eq_zero i, ha]
      decide
    rcases dynamic_bank_step_cases x y t j with e | ⟨aj, -⟩ | ⟨aj, -⟩ | ⟨aj, -⟩
    · rw [e]; exact ⟨ha, p1, p2, l, hl, hn⟩
    · exact absurd aj hj
    · exact absurd aj hj
    · exact absurd aj hj

/-- One call with every bank inactive logs no press. -/
theorem detect_all_inactive (x y : Int) (s : State)
    (hst : ∀ i, s.static_bank_active i = false)
    (hdy : ∀ i : Fin DYNAMIC_BANKS, s.dynamic_bank_active (dynamic_bank_index i) = false) :
    (detect_sweep2sleep x y s).powerkey_log = s.powerkey_log := by
  have key := detect_sweep2sleep_induct
    (fun t => t.static_bank_active = s.static_bank_active ∧
      t.dynamic_bank_active = s.dynamic_bank_active ∧
      t.powerkey_log = s.powerkey_log)
    x y s ⟨rfl, rfl, rfl⟩ (fun hp => hp) ?_ ?_
  · exact key.2.2
  · rintro t j ⟨a1, a2, hl⟩
    rw [static_bank_step_idle x y t j (by rw [a1, hst j]; simp)]
    exact ⟨a1, a2, hl⟩
  · rintro t j ⟨a1, a2, hl⟩
    rw [dynamic_bank_step_idle x y t j (by rw [a2, hdy j]; simp)]
    exact ⟨a1, a2, hl⟩

theorem detect_seq_inactive_static (l : List (Int × Int)) :
    ∀ (s : State) (i : Fin STATIC_BANKS), s.static_bank_active i = false →
      (detect_all s l).static_bank_active i = false ∧
      ((detect_all s l).static_barrier1 i = true → s.static_barrier1 i = true) ∧
      ((detect_all s l).static_barrier2 i = true → s.static_barrier2 i = true) ∧
      ∃ t, (detect_all s l).powerkey_log = s.powerkey_log ++ t ∧
        PressSite.static_gesture i ∉ t := by
  induction l with
  | nil => intro s i h; exact ⟨h, id, id, [], by simp [detect_all_nil], by simp⟩
  | cons p l ih =>
    intro s i h
    rw [detect_all_cons]
    obtain ⟨a, p1, p2, t1, e1, n1⟩ := detect_inactive_static p.1 p.2 s i h
    obtain ⟨a', q1, q2, t2, e2, n2⟩ := ih (detect_sweep2sleep p.1 p.2 s) i a
    refine ⟨a', fun hb => p1 (q1 hb), fun hb => p2 (q2 hb), t1 ++ t2, ?_, ?_⟩
    · rw [e2, e1, List.append_assoc]
    · simp [n1, n2]

theorem detect_seq_inactive_dynamic (l : List (Int × Int)) :
    ∀ (s : State) (i : Fin DYNAMIC_BANKS),
      s.dynamic_bank_active (dynamic_bank_index i) = false →
      (detect_all s l).dynamic_bank_active (dynamic_bank_index i) = false ∧
      ((detect_all s l).dynamic_barrier1 i = true → s.dynamic_barrier1 i = true) ∧
      ((detect_all s l).dynamic_barrier2 i = true → s.dynamic_barrier2 i = true) ∧
      ∃ t, (detect_all s l).powerkey_log = s.powerkey_log ++ t ∧
        PressSite.dynamic_gesture i ∉ t := by
  induction l with
  | nil => intro s i h; exact ⟨h, id, id, [], by simp [detect_all_nil], by simp⟩
  | cons p l ih =>
    intro s i h
    rw [detect_all_cons]
    obtain ⟨a, p1, p2, t1, e1, n1⟩ := detect_inactive_dynamic p.1 p.2 s i h
    obtain ⟨a', q1, q2, t2, e2, n2⟩ := ih (detect_sweep2sleep p.1 p.2 s) i a
    refine ⟨a', fun hb => p1 (q1 hb), fun hb => p2 (q2 hb), t1 ++ t2, ?_, ?_⟩
    · rw [e2, e1, List.append_assoc]
    · simp [n1, n2]

theorem detect_seq_all_inactive (l : List (Int × Int)) :
    ∀ s : State, (∀ i, s.static_bank_active i = false) →
      (∀ i : Fin DYNAMIC_BANKS, s.dynamic_bank_active (dynamic_bank_index i) = false) →
      (detect_all s l).powerkey_log = s.powerkey_log := by
  induction l with
  | nil => intro s _ _; rfl
  | cons p l ih =>
    intro s hst hdy
    rw [detect_all_cons]
    obtain ⟨-, -, c3, c4⟩ := detect_sweep2sleep_config p.1 p.2 s
    rw [ih (detect_sweep2sleep p.1 p.2 s) (by rw [c3]; exact hst) (by rw [c4]; exact hdy)]
    exact detect_all_inactive p.1 p.2 s hst hdy

/-- C5: disabled banks never trigger. For a bank whose active flag is false,
static or dynamic, a sequence of samples handed to `detect_sweep2sleep`
leaves the flag false, sets none of the bank's latches (a latch that is true
afterwards was true on entry) and logs no press for the bank, whatever the
latches were on entry; when every bank is inactive no press is logged at
all. -/
theorem C5_disabled_banks_never_trigger (s : State) (l : List (Int × Int)) :
    (∀ i : Fin STATIC_BANKS, s.static_bank_active i = false →
      (detect_all s l).static_bank_active i = false ∧
      ((detect_all s l).static_barrier1 i = true → s.static_barrier1 i = true) ∧
      ((detect_all s l).static_barrier2 i = true → s.static_barrier2 i = true) ∧
      ∃ t, (detect_all s l).powerkey_log = s.powerkey_log ++ t ∧
        PressSite.static_gesture i ∉ t) ∧
    (∀ i : Fin DYNAMIC_BANKS, s.dynamic_bank_active (dynamic_bank_index i) = false →
      (detect_all s l).dynamic_bank_active (dynamic_bank_index i) = false ∧
      ((detect_all s l).dynamic_barrier1 i = true → s.dynamic_barrier1 i = true) ∧
      ((detect_all s l).dynamic_barrier2 i = true → s.dynamic_barrier2 i = true) ∧
      ∃ t, (detect_all s l).powerkey_log = s.powerkey_log ++ t ∧
        PressSite.dynamic_gesture i ∉ t) ∧
    ((∀ i, s.static_bank_active i = false) →
      (∀ i : Fin DYNAMIC_BANKS, s.dynamic_bank_active (dynamic_bank_index i) = false) →
      (detect_all s l).powerkey_log = s.powerkey_log) :=
  ⟨detect_seq_inactive_static l s, detect_seq_inactive_dynamic l s,
    detect_seq_all_inactive l s⟩

/-- Witness of C5: every latch stale-true, every bank inactive, `s2s` not
zero, and a sweep that would match bank 3: nothing is pressed. -/
theorem C5_disabled_banks_never_trigger_witness :
    (detect_all
      { init with
        s2s := 4, static_barrier1 := fun _ => true, static_barrier2 := fun _ => true,
        dynamic_barrier1 := fun _ => true, dynamic_barrier2 := fun _ => true }
      [(1000, 1800), (500, 1800), (100, 1800)]).powerkey_log = [] :=
  (C5_disabled_banks_never_trigger
    { init with
      s2s := 4, static_barrier1 := fun _ => true, static_barrier2 := fun _ => true,
      dynamic_barrier1 := fun _ => true, dynamic_barrier2 := fun _ => true }
    [(1000, 1800), (500, 1800), (100, 1800)]).2.2 (fun _ => rfl) (fun _ => rfl)

/-! ## Samples that are not strictly inside a rectangle -/

theorem static_edge1_not_inside (i : Fin STATIC_BANKS) (x y : Int)
    (h : static_edge1 i x y) : ¬ static_stage1 i x y := by
  unfold static_edge1 at h
  unfold static_stage1
  omega

theorem static_edge2_not_inside (i : Fin STATIC_BANKS) (x y : Int)
    (h : static_edge2 i x y) : ¬ static_stage2 i x y := by
  unfold static_edge2 at h
  unfold static_stage2
  omega

theorem static_edge3_not_inside (i : Fin STATIC_BANKS) (x y : Int)
    (h : static_edge3 i x y) : ¬ static_stage3 i x y := by
  unfold static_edge3 at h
  unfold static_stage3
  omega

theorem dynamic_anchor_edge_not_inside (i : Fin DYNAMIC_BANKS) (x y : Int)
    (h : dynamic_anchor_edge i x y) : ¬ dynamic_anchor i x y := by
  unfold dynamic_anchor_edge at h
  unfold dynamic_anchor
  omega

theorem window_edge_not_inside (s : State) (x y : Int)
    (h : window_edge s x y) : ¬ in_window s x y := by
  unfold window_edge at h
  unfold in_window
  omega

theorem no_press_for_refl (site : PressSite) (s : State) : no_press_for site s s :=
  ⟨[], by simp, by simp⟩

theorem no_press_for_append (site other : PressSite) (s t : State) (log : List PressSite)
    (h : no_press_for site s t) (hne : site ≠ other)
    (hlog : log = t.powerkey_log ++ [other]) :
    ∃ l, log = s.powerkey_log ++ l ∧ site ∉ l := by
  obtain ⟨l, hl, hn⟩ := h
  exact ⟨l ++ [other], by rw [hlog, hl, List.append_assoc], by simp [hn, hne]⟩

/-- Stage 1 of a static bank is not latched by a sample outside stage 1, and
the bank does not match on it. -/
theorem detect_static_stage1_outside (x y : Int) (s : State) (i : Fin STATIC_BANKS)
    (hb : s.static_barrier1 i = false) (hout : ¬ static_stage1 i x y) :
    (detect_sweep2sleep x y s).static_barrier1 i = false ∧
    no_press_for (PressSite.static_gesture i) s (detect_sweep2sleep x y s) := by
  refine detect_sweep2sleep_induct
    (fun t => t.static_barrier1 i = false ∧ no_press_for (PressSite.static_gesture i) s t)
    x y s ⟨hb, no_press_for_refl _ s⟩ (fun hp => hp) ?_ ?_
  · rintro t j ⟨p1, pl⟩
    rcases static_bank_step_cases x y t j with e | ⟨-, a, -, e⟩ | ⟨-, a, -, -, e⟩ |
      ⟨-, a, -, -, -, e⟩
    · rw [e]; exact ⟨p1, pl⟩
    · have hji : i ≠ j := by
        rintro rfl
        rcases a with a | a
        · rw [p1] at a; exact absurd a (by decide)
        · exact hout a
      rw [e]
      exact ⟨by simp [Function.update_apply, hji, p1], pl⟩
    · have hji : i ≠ j := by
        rintro rfl
        rcases a with a | a
        · rw [p1] at a; exact absurd a (by decide)
        · exact hout a
      rw [e]
      exact ⟨by simp [Function.update_apply, hji, p1], pl⟩
    · have hji : i ≠ j := by
        rintro rfl
        rcases a with a | a
        · rw [p1] at a; exact absurd a (by decide)
        · exact hout a
      rw [e]
      exact ⟨rfl, no_press_for_append _ _ s t _ pl (by simp [hji]) rfl⟩
  · rintro t j ⟨p1, pl⟩
    rcases dynamic_bank_step_cases x y t j with e | ⟨-, -, -, e⟩ | ⟨-, -, -, -, e⟩ |
      ⟨-, -, -, -, -, e⟩ <;> rw [e]
    · exact ⟨p1, pl⟩
    · exact ⟨p1, pl⟩
    · exact ⟨p1, pl⟩
    · exact ⟨rfl, no_press_for_append _ _ s t _ pl (by simp) rfl⟩

/-- Stage 2 of a static bank is not latched by a sample outside stage 2, and
the bank does not match on it. -/
theorem detect_static_stage2_outside (x y : Int) (s : State) (i : Fin STATIC_BANKS)
    (hb : s.static_barrier2 i = false) (hout : ¬ static_stage2 i x y) :
    (detect_sweep2sleep x y s).static_barrier2 i = false ∧
    no_press_for (PressSite.static_gesture i) s (detect_sweep2sleep x y s) := by
  refine detect_sweep2sleep_induct
    (fun t => t.static_barrier2 i = false ∧ no_press_for (PressSite.static_gesture i) s t)
    x y s ⟨hb, no_press_for_refl _ s⟩ (fun hp => hp) ?_ ?_
  · rintro t j ⟨p1, pl⟩
    rcases static_bank_step_cases x y t j with e | ⟨-, -, -, e⟩ | ⟨-, -, a, -, e⟩ |
      ⟨-, -, a, -, -, e⟩
    · rw [e]; exact ⟨p1, pl⟩
    · rw [e]; exact ⟨p1, pl⟩
    · have hji : i ≠ j := by
        rintro rfl
        rcases a with a | a
        · rw [p1] at a; exact absurd a (by decide)
        · exact hout a
      rw [e]
      exact ⟨by simp [Function.update_apply, hji, p1], pl⟩
    · have hji : i ≠ j := by
        rintro rfl
        rcases a with a | a
        · rw [p1] at a; exact absurd a (by decide)
        · exact hout a
      rw [e]
      exact ⟨rfl, no_press_for_append _ _ s t _ pl (by simp [hji]) rfl⟩
  · rintro t j ⟨p1, pl⟩
    rcases dynamic_bank_step_cases x y t j with e | ⟨-, -, -, e⟩ | ⟨-, -, -, -, e⟩ |
      ⟨-, -, -, -, -, e⟩ <;> rw [e]
    · exact ⟨p1, pl⟩
    · exact ⟨p1, pl⟩
    · exact ⟨p1, pl⟩
    · exact ⟨rfl, no_press_for_append _ _ s t _ pl (by simp) rfl⟩

/-- A static bank does not match on a sample outside its stage 3. -/
theorem detect_static_stage3_outside (x y : Int) (s : State) (i : Fin STATIC_BANKS)
    (hout : ¬ static_stage3 i x y) :
    no_press_for (PressSite.static_gesture i) s (detect_sweep2sleep x y s) := by
  refine detect_sweep2sleep_induct
    (fun t => no_press_for (PressSite.static_gesture i) s t)
    x y s (no_press_for_refl _ s) (fun hp => hp) ?_ ?_
  · rintro t j pl
    rcases static_bank_step_cases x y t j with e | ⟨-, -, -, e⟩ | ⟨-, -, -, -, e⟩ |
      ⟨-, -, -, a, -, e⟩
    · rw [e]; exact pl
    · rw [e]; exact pl
    · rw [e]; exact pl
    · have hji : i ≠ j := by
        rintro rfl
        exact hout a
      rw [e]
      exact no_press_for_append _ _ s t _ pl (by simp [hji]) rfl
  · rintro t j pl
    rcases dynamic_bank_step_cases x y t j with e | ⟨-, -, -, e⟩ | ⟨-, -, -, -, e⟩ |
      ⟨-, -, -, -, -, e⟩ <;> rw [e]
    · exact pl
    · exact pl
    · exact pl
    · exact no_press_for_append _ _ s t _ pl (by simp) rfl

/-- A property `P` kept by the static loop body and turned into `Q` by the
dynamic loop body holds, as `Q`, after `detect_sweep2sleep`. -/
theorem detect_sweep2sleep_induct2 (P Q : State → Prop) (x y : Int) (s : State)
    (h0 : P s) (ht : P s → P { s with scr_on_touch := true })
    (hs : ∀ t i, P t → P (static_bank_step x y t i))
    (hd : ∀ t i, P t → Q (dynamic_bank_step x y t i))
    (hq : P s → Q s) :
    Q (detect_sweep2sleep x y s) := by
  rw [detect_sweep2sleep_eq]
  split_ifs with h
  · exact hd _ 0 (static_loop_induct P x y _ (ht h0) hs)
  · exact hq h0

/-- Stage 1 of the dynamic bank is not latched by a sample outside the
anchor, and the bank does not match on it. -/
theorem detect_dynamic_anchor_outside (x y : Int) (s : State) (i : Fin DYNAMIC_BANKS)
    (hb : s.dynamic_barrier1 i = false) (hout : ¬ dynamic_anchor i x y) :
    (detect_sweep2sleep x y s).dynamic_barrier1 i = false ∧
    no_press_for (PressSite.dynamic_gesture i) s (detect_sweep2sleep x y s) := by
  refine detect_sweep2sleep_induct
    (fun t => t.dynamic_barrier1 i = false ∧
      no_press_for (PressSite.dynamic_gesture i) s t)
    x y s ⟨hb, no_press_for_refl _ s⟩ (fun hp => hp) ?_ ?_
  · rintro t j ⟨p1, pl⟩
    rcases static_bank_step_cases x y t j with e | ⟨-, -, -, e⟩ | ⟨-, -, -, -, e⟩ |
      ⟨-, -, -, -, -, e⟩ <;> rw [e]
    · exact ⟨p1, pl⟩
    · exact ⟨p1, pl⟩
    · exact ⟨p1, pl⟩
    · exact ⟨rfl, no_press_for_append _ _ s t _ pl (by simp) rfl⟩
  · rintro t j ⟨p1, pl⟩
    have hj : j = i := (dynamic_bank_eq_zero j).trans (dynamic_bank_eq_zero i).symm
    subst hj
    rcases dynamic_bank_step_cases x y t j with e | ⟨-, -, a, -⟩ | ⟨-, a, -⟩ | ⟨-, a, -⟩
    · rw [e]; exact ⟨p1, pl⟩
    · exact absurd a hout
    · rw [p1] at a; exact absurd a (by decide)
    · rw [p1] at a; exact absurd a (by decide)

/-- Stage 2 of the dynamic bank is not latched by a sample outside the stored
window, and the bank does not match on it. -/
theorem detect_dynamic_window_outside2 (x y : Int) (s : State) (i : Fin DYNAMIC_BANKS)
    (hb : s.dynamic_barrier2 i = false) (hout : ¬ in_window s x y) :
    (detect_sweep2sleep x y s).dynamic_barrier2 i = false ∧
    no_press_for (PressSite.dynamic_gesture i) s (detect_sweep2sleep x y s) := by
  refine detect_sweep2sleep_induct2
    (fun t => t.dynamic_barrier2 i = false ∧ ¬ in_window t x y ∧
      no_press_for (PressSite.dynamic_gesture i) s t)
    (fun t => t.dynamic_barrier2 i = false ∧
      no_press_for (PressSite.dynamic_gesture i) s t)
    x y s ⟨hb, hout, no_press_for_refl _ s⟩ (fun hp => hp) ?_ ?_ (fun hp => ⟨hp.1, hp.2.2⟩)
  · rintro t j ⟨p1, pw, pl⟩
    rcases static_bank_step_cases x y t j with e | ⟨-, -, -, e⟩ | ⟨-, -, -, -, e⟩ |
      ⟨-, -, -, -, -, e⟩ <;> rw [e]
    · exact ⟨p1, pw, pl⟩
    · exact ⟨p1, pw, pl⟩
    · exact ⟨p1, pw, pl⟩
    · exact ⟨rfl, pw, no_press_for_append _ _ s t _ pl (by simp) rfl⟩
  · rintro t j ⟨p1, pw, pl⟩
    have hj : j = i := (dynamic_bank_eq_zero j).trans (dynamic_bank_eq_zero i).symm
    subst hj
    rcases dynamic_bank_step_cases x y t j with e | ⟨-, -, -, e⟩ | ⟨-, -, -, a, -⟩ |
      ⟨-, -, -, a, -⟩
    · rw [e]; exact ⟨p1, pl⟩
    · rw [e]; exact ⟨p1, pl⟩
    · exact absurd a pw
    · exact absurd a pw

/-- The dynamic bank does not match on a sample outside the stored window. -/
theorem detect_dynamic_window_outside3 (x y : Int) (s : State) (i : Fin DYNAMIC_BANKS)
    (hout : ¬ in_window s x y) :
    no_press_for (PressSite.dynamic_gesture i) s (detect_sweep2sleep x y s) := by
  refine detect_sweep2sleep_induct2
    (fun t => ¬ in_window t x y ∧ no_press_for (PressSite.dynamic_gesture i) s t)
    (fun t => no_press_for (PressSite.dynamic_gesture i) s t)
    x y s ⟨hout, no_press_for_refl _ s⟩ (fun hp => hp) ?_ ?_ (fun hp => hp.2)
  · rintro t j ⟨pw, pl⟩
    rcases static_bank_step_cases x y t j with e | ⟨-, -, -, e⟩ | ⟨-, -, -, -, e⟩ |
      ⟨-, -, -, -, -, e⟩ <;> rw [e]
    · exact ⟨pw, pl⟩
    · exact ⟨pw, pl⟩
    · exact ⟨pw, pl⟩
    · exact ⟨pw, no_press_for_append _ _ s t _ pl (by simp) rfl⟩
  · rintro t j ⟨pw, pl⟩
    rcases dynamic_bank_step_cases x y t j with e | ⟨-, -, -, e⟩ | ⟨-, -, -, -, e⟩ |
      ⟨-, -, -, a, -⟩
    · rw [e]; exact pl
    · rw [e]; exact pl
    · rw [e]; exact pl
    · exact absurd a pw

/-! ## Open rectangles -/

/-- C6: gesture rectangles are open. A sample with a coordinate equal to a
bound of a rectangle is not inside it, for the three stages of every static
bank, for the dynamic anchor and for the stored dynamic window; and in a
state where that stage is the next unsatisfied one, `detect_sweep2sleep` on
such a sample neither sets the latch of the stage nor logs a press for the
bank. -/
theorem C6_rectangles_are_open (s : State) (x y : Int) :
    (∀ i : Fin STATIC_BANKS, static_edge1 i x y → s.static_barrier1 i = false →
      ¬ static_stage1 i x y ∧
      (detect_sweep2sleep x y s).static_barrier1 i = false ∧
      no_press_for (PressSite.static_gesture i) s (detect_sweep2sleep x y s)) ∧
    (∀ i : Fin STATIC_BANKS, static_edge2 i x y →
      s.static_barrier1 i = true → s.static_barrier2 i = false →
      ¬ static_stage2 i x y ∧
      (detect_sweep2sleep x y s).static_barrier2 i = false ∧
      no_press_for (PressSite.static_gesture i) s (detect_sweep2sleep x y s)) ∧
    (∀ i : Fin STATIC_BANKS, static_edge3 i x y →
      s.static_barrier1 i = true → s.static_barrier2 i = true →
      ¬ static_stage3 i x y ∧
      no_press_for (PressSite.static_gesture i) s (detect_sweep2sleep x y s)) ∧
    (∀ i : Fin DYNAMIC_BANKS, dynamic_anchor_edge i x y → s.dynamic_barrier1 i = false →
      ¬ dynamic_anchor i x y ∧
      (detect_sweep2sleep x y s).dynamic_barrier1 i = false ∧
      no_press_for (PressSite.dynamic_gesture i) s (detect_sweep2sleep x y s)) ∧
    (∀ i : Fin DYNAMIC_BANKS, window_edge s x y →
      s.dynamic_barrier1 i = true → s.dynamic_barrier2 i = false →
      ¬ in_window s x y ∧
      (detect_sweep2sleep x y s).dynamic_barrier2 i = false ∧
      no_press_for (PressSite.dynamic_gesture i) s (detect_sweep2sleep x y s)) ∧
    (∀ i : Fin DYNAMIC_BANKS, window_edge s x y →
      s.dynamic_barrier1 i = true → s.dynamic_barrier2 i = true →
      ¬ in_window s x y ∧
      no_press_for (PressSite.dynamic_gesture i) s (detect_sweep2sleep x y s)) := by
  refine ⟨?_, ?_, ?_, ?_, ?_, ?_⟩
  · intro i he hb
    have hn := static_edge1_not_inside i x y he
    exact ⟨hn, detect_static_stage1_outside x y s i hb hn⟩
  · intro i he _ hb
    have hn := static_edge2_not_inside i x y he
    exact ⟨hn, detect_static_stage2_outside x y s i hb hn⟩
  · intro i he _ _
    have hn := static_edge3_not_inside i x y he
    exact ⟨hn, detect_static_stage3_outside x y s i hn⟩
  · intro i he hb
    have hn := dynamic_anchor_edge_not_inside i x y he
    exact ⟨hn, detect_dynamic_anchor_outside x y s i hb hn⟩
  · intro i he _ hb
    have hn := window_edge_not_inside s x y he
    exact ⟨hn, detect_dynamic_window_outside2 x y s i hb hn⟩
  · intro i he _ _
    have hn := window_edge_not_inside s x y he
    exact ⟨hn, detect_dynamic_window_outside3 x y s i hn⟩

/-- Witness of C6: bank 3 alone with stage 1 latched by (1000,1800); the
sample (650,1800) has x equal to the upper x bound of stage 2 and does not
latch stage 2. -/
theorem C6_rectangles_are_open_witness :
    ¬ static_stage2 2 650 1800 ∧
    (detect_sweep2sleep 650 1800
      (run init ([Event.store (some 4) 2] ++ sample_events 1000 1800))).static_barrier2 2 =
        false ∧
    no_press_for (PressSite.static_gesture 2)
      (run init ([Event.store (some 4) 2] ++ sample_events 1000 1800))
      (detect_sweep2sleep 650 1800
        (run init ([Event.store (some 4) 2] ++ sample_events 1000 1800))) :=
  (C6_rectangles_are_open
    (run init ([Event.store (some 4) 2] ++ sample_events 1000 1800)) 650 1800).2.1 2
    (Or.inr (Or.inl (by decide))) (by decide) (by decide)

/-! ## Reachable states keep the stored window within the panel -/

theorem dynamic_anchor_bounds (x y : Int) (h : dynamic_anchor 0 x y) :
    800 < x ∧ x < 1280 ∧ 800 < y ∧ y < 1600 := by
  obtain ⟨e1, e2, e3, e4, -⟩ := dynamic_tables 0
  unfold dynamic_anchor at h
  rw [e1, e2, e3, e4] at h
  omega

theorem window_from_anchor_detect (x y : Int) (s : State) (h : window_from_anchor s) :
    window_from_anchor (detect_sweep2sleep x y s) := by
  refine detect_sweep2sleep_induct window_from_anchor x y s h (fun hp => hp) ?_ ?_
  · intro t j ht
    rcases static_bank_step_cases x y t j with e | ⟨-, -, -, e⟩ | ⟨-, -, -, -, e⟩ |
      ⟨-, -, -, -, -, e⟩ <;> rw [e]
    · exact ht
    · exact ht
    · exact ht
    · intro hc; exact absurd hc (by simp [after_match])
  · intro t j ht
    rw [dynamic_bank_eq_zero j]
    rcases dynamic_bank_step_cases x y t 0 with e | ⟨-, -, a, e⟩ | ⟨-, -, -, -, e⟩ |
      ⟨-, -, -, -, -, e⟩ <;> rw [e]
    · exact ht
    · intro _ _
      have hb := dynamic_anchor_bounds x y a
      refine ⟨x, y, a, ?_, ?_, ?_, ?_⟩ <;> simp only [to_int] <;> omega
    · intro _ hc; exact absurd hc (by simp)
    · intro hc; exact absurd hc (by simp [after_match])

theorem window_from_anchor_reset (s : State) : window_from_anchor (sweep2sleep_reset s) := by
  rw [sweep2sleep_reset_eq]
  intro hc
  exact absurd hc (by simp)

/-- The property depends on the latches of the dynamic bank and on the stored
window only. -/
theorem window_from_anchor_congr (s t : State)
    (h1 : t.dynamic_barrier1 = s.dynamic_barrier1)
    (h2 : t.dynamic_barrier2 = s.dynamic_barrier2)
    (h3 : t.dynamic_next_x_min = s.dynamic_next_x_min)
    (h4 : t.dynamic_next_x_max = s.dynamic_next_x_max)
    (h5 : t.dynamic_next_y_min = s.dynamic_next_y_min)
    (h6 : t.dynamic_next_y_max = s.dynamic_next_y_max)
    (h : window_from_anchor s) : window_from_anchor t := by
  unfold window_from_anchor at h ⊢
  rw [h1, h2, h3, h4, h5, h6]
  exact h

theorem window_from_anchor_doubleTap (x y : Int) (s : State) (h : window_from_anchor s) :
    window_from_anchor (doubleTapStatusBar x y s) := by
  unfold doubleTapStatusBar
  split_ifs
  · exact h
  · exact h
  · exact h

theorem window_from_anchor_input_event (code : Nat) (value : Int) (s : State)
    (h : window_from_anchor s) : window_from_anchor (s2s_input_event code value s) := by
  unfold s2s_input_event
  by_cases h0 : s.s2s = 0
  · rw [if_pos h0]; exact h
  rw [if_neg h0]
  by_cases h1 : code = ABS_MT_SLOT
  · rw [if_pos h1]; exact window_from_anchor_reset s
  rw [if_neg h1]
  by_cases h2 : code = ABS_MT_TRACKING_ID ∧ value = -1
  · rw [if_pos h2]
    simp only []
    split_ifs <;>
      first
        | exact window_from_anchor_reset _
        | exact window_from_anchor_doubleTap _ _ s h
        | exact h
  rw [if_neg h2]
  simp only []
  split_ifs <;> exact window_from_anchor_congr s _ rfl rfl rfl rfl rfl rfl h

theorem window_from_anchor_store (buf : Option Int) (count : Nat) (s : State)
    (h : window_from_anchor s) : window_from_anchor (sweep2sleep_store buf count s).2 := by
  unfold sweep2sleep_store
  cases buf with
  | none => exact h
  | some v =>
    simp only [finRange_STATIC_BANKS, finRange_DYNAMIC_BANKS, List.foldl]
    split_ifs
    · exact h
    · exact h

theorem window_from_anchor_step (s : State) (ev : Event) (h : window_from_anchor s) :
    window_from_anchor (step s ev) := by
  cases ev with
  | store buf count => exact window_from_anchor_store buf count s h
  | lcd event =>
    simp only [step, lcd_notifier_callback]
    split_ifs <;> exact h
  | input code value => exact window_from_anchor_input_event code value s h
  | work =>
    simp only [step, s2s_input_callback]
    split_ifs
    · exact window_from_anchor_detect _ _ _ h
    · exact h
    · exact h
  | timer =>
    simp only [step, statusBarTimer_work]
    split_ifs <;> exact h

theorem window_from_anchor_run (evs : List Event) :
    ∀ s : State, window_from_anchor s → window_from_anchor (run s evs) := by
  induction evs with
  | nil => intro s h; exact h
  | cons ev evs ih => intro s h; exact ih _ (window_from_anchor_step s ev h)

theorem window_from_anchor_reachable (s : State) (h : Reachable s) :
    window_from_anchor s := by
  obtain ⟨evs, rfl⟩ := h
  exact window_from_anchor_run evs init (fun hc => absurd hc (by decide))

/-! ## What one call does to the dynamic bank -/

/-- The outcome of one call for the dynamic bank is one of the four of
`dynamic_call_outcome`. -/
theorem detect_dynamic_cases (x y : Int) (s : State) :
    dynamic_call_outcome x y s (detect_sweep2sleep x y s) := by
  refine detect_sweep2sleep_induct2
    (fun t =>
      (t.dynamic_barrier1 0 = s.dynamic_barrier1 0 ∧
        t.dynamic_barrier2 0 = s.dynamic_barrier2 0 ∧
        stored_window t = stored_window s ∧ t.powerkey_log = s.powerkey_log) ∨
      (t.dynamic_barrier1 0 = false ∧ t.dynamic_barrier2 0 = false ∧
        stored_window t = stored_window s ∧
        s.powerkey_log.length < t.powerkey_log.length))
    (dynamic_call_outcome x y s) x y s (Or.inl ⟨rfl, rfl, rfl, rfl⟩) (fun hp => hp) ?_ ?_ ?_
  · intro t j ht
    rcases static_bank_step_cases x y t j with e | ⟨-, -, -, e⟩ | ⟨-, -, -, -, e⟩ |
      ⟨-, -, -, -, -, e⟩ <;> rw [e]
    · exact ht
    · exact ht
    · exact ht
    · refine Or.inr ⟨rfl, rfl, ?_, ?_⟩
      · rcases ht with ⟨-, -, hw, -⟩ | ⟨-, -, hw, -⟩ <;> exact hw
      · rcases ht with ⟨-, -, -, hl⟩ | ⟨-, -, -, hl⟩
        · simp [after_match, hl]
        · simp [after_match]; omega
  · intro t j ht
    rw [dynamic_bank_eq_zero j]
    rcases dynamic_bank_step_cases x y t 0 with e | ⟨-, a1, a, e⟩ | ⟨-, a1, a2, aw, e⟩ |
      ⟨-, -, -, -, -, e⟩ <;> rw [e]
    · rcases ht with h | h
      · exact Or.inl h
      · exact Or.inr (Or.inl h)
    · refine Or.inr (Or.inr (Or.inl ⟨a, ?_, by simp, ?_, rfl⟩))
      · rcases ht with ⟨h1, -, -, -⟩ | ⟨-, -, -, hl⟩
        · exact Or.inl (h1.symm.trans a1)
        · exact Or.inr hl
      · intro hb
        rcases ht with ⟨-, h2, -, -⟩ | ⟨-, h2, -, -⟩
        · exact h2.symm.trans hb
        · exact absurd (h2.symm.trans hb) (by decide)
    · rcases ht with ⟨h1, h2, hw, hl⟩ | ⟨h1, -, -, -⟩
      · refine Or.inr (Or.inr (Or.inr ⟨h1.symm.trans a1, h2.symm.trans a2, ?_, a1,
          by simp, rfl, hl⟩))
        unfold in_window at aw ⊢
        unfold stored_window at hw
        simp only [Prod.mk.injEq] at hw
        obtain ⟨w1, w2, w3, w4⟩ := hw
        rw [← w1, ← w2, ← w3, ← w4]
        exact aw
      · exact absurd (h1.symm.trans a1) (by decide)
    · refine Or.inr (Or.inl ⟨rfl, rfl, ?_, ?_⟩)
      · rcases ht with ⟨-, -, hw, -⟩ | ⟨-, -, hw, -⟩ <;> exact hw
      · rcases ht with ⟨-, -, -, hl⟩ | ⟨-, -, -, hl⟩
        · simp [after_match, hl]
        · simp [after_match]; omega
  · intro _
    exact Or.inl ⟨rfl, rfl, rfl, rfl⟩

theorem computed_window_of_anchor (x y : Int) (h : dynamic_anchor 0 x y) :
    computed_window x y = (x - 300, x - 100, y + 100, y + 300) := by
  have hb := dynamic_anchor_bounds x y h
  unfold computed_window to_int
  simp only [Prod.mk.injEq]
  omega

/-- A call that leaves stage 1 of the dynamic bank latched, after finding it
unlatched or after a match in the same call, stored the window computed from
its sample. -/
theorem detect_latch1_window (x y : Int) (s : State)
    (hnew : s.dynamic_barrier1 0 = false ∨
      s.powerkey_log.length < (detect_sweep2sleep x y s).powerkey_log.length)
    (hl : (detect_sweep2sleep x y s).dynamic_barrier1 0 = true) :
    stored_window (detect_sweep2sleep x y s) = (x - 300, x - 100, y + 100, y + 300) := by
  rcases detect_dynamic_cases x y s with ⟨e1, -, -, el⟩ | ⟨e1, -⟩ | ⟨a, -, -, -, ew⟩ |
    ⟨b1, -, -, -, -, -, el⟩
  · rcases hnew with h | h
    · rw [e1, h] at hl; exact absurd hl (by decide)
    · rw [el] at h; exact absurd h (lt_irrefl _)
  · rw [e1] at hl; exact absurd hl (by decide)
  · rw [ew, computed_window_of_anchor x y a]
  · rcases hnew with h | h
    · rw [b1] at h; exact absurd h (by decide)
    · rw [el] at h; exact absurd h (lt_irrefl _)

/-- A call that latches stage 2 of the dynamic bank stored the window computed
from its sample, in 32-bit arithmetic; from a state in which the stored window
came from a point of the anchor nothing wraps. -/
theorem detect_latch2_window (x y : Int) (s : State)
    (h2 : s.dynamic_barrier2 0 = false)
    (hl : (detect_sweep2sleep x y s).dynamic_barrier2 0 = true) :
    stored_window (detect_sweep2sleep x y s) = computed_window x y ∧
    (window_from_anchor s →
      stored_window (detect_sweep2sleep x y s) =
        (x - 300, x - 100, y + 100, y + 300)) := by
  rcases detect_dynamic_cases x y s with ⟨-, e2, -⟩ | ⟨-, e2, -⟩ | ⟨-, -, -, e2, -⟩ |
    ⟨b1, b2, bw, -, -, ew, -⟩
  · rw [e2, h2] at hl; exact absurd hl (by decide)
  · rw [e2] at hl; exact absurd hl (by decide)
  · rw [h2] at e2; exact absurd (e2 hl) (by decide)
  · refine ⟨ew, fun hinv => ?_⟩
    obtain ⟨x0, y0, ha, w1, w2, w3, w4⟩ := hinv b1 b2
    have hb := dynamic_anchor_bounds x0 y0 ha
    unfold in_window at bw
    rw [w1, w2, w3, w4] at bw
    rw [ew]
    unfold computed_window to_int
    simp only [Prod.mk.injEq]
    omega

/-! ## Dynamic windows follow the sample -/

/-- C7: dynamic target windows are anchored to the sample that satisfied the
previous stage. When a call newly latches dynamic stage 1 at the sample
(x, y), the stored window becomes x-300, x-100, y+100, y+300; when a call
from a reachable state newly latches stage 2 at (x, y), the window becomes
x-300, x-100, y+100, y+300 again, computed from that sample; so two runs that
enter the anchor at points differing by (dx, dy) get stage 2 windows that
differ by exactly (dx, dy), each 200 by 200. -/
theorem C7_dynamic_window_follows_sample :
    (∀ (s : State) (x y : Int),
      (s.dynamic_barrier1 0 = false ∨
        s.powerkey_log.length < (detect_sweep2sleep x y s).powerkey_log.length) →
      (detect_sweep2sleep x y s).dynamic_barrier1 0 = true →
      stored_window (detect_sweep2sleep x y s) =
        (x - 300, x - 100, y + 100, y + 300)) ∧
    (∀ (s : State) (x y : Int), Reachable s →
      s.dynamic_barrier2 0 = false →
      (detect_sweep2sleep x y s).dynamic_barrier2 0 = true →
      stored_window (detect_sweep2sleep x y s) =
        (x - 300, x - 100, y + 100, y + 300)) ∧
    (∀ (s1 s2 : State) (x y dx dy : Int),
      s1.dynamic_barrier1 0 = false → s2.dynamic_barrier1 0 = false →
      (detect_sweep2sleep x y s1).dynamic_barrier1 0 = true →
      (detect_sweep2sleep (x + dx) (y + dy) s2).dynamic_barrier1 0 = true →
      (detect_sweep2sleep (x + dx) (y + dy) s2).dynamic_next_x_min =
        (detect_sweep2sleep x y s1).dynamic_next_x_min + dx ∧
      (detect_sweep2sleep (x + dx) (y + dy) s2).dynamic_next_x_max =
        (detect_sweep2sleep x y s1).dynamic_next_x_max + dx ∧
      (detect_sweep2sleep (x + dx) (y + dy) s2).dynamic_next_y_min =
        (detect_sweep2sleep x y s1).dynamic_next_y_min + dy ∧
      (detect_sweep2sleep (x + dx) (y + dy) s2).dynamic_next_y_max =
        (detect_sweep2sleep x y s1).dynamic_next_y_max + dy ∧
      (detect_sweep2sleep x y s1).dynamic_next_x_max -
        (detect_sweep2sleep x y s1).dynamic_next_x_min = 200 ∧
      (detect_sweep2sleep x y s1).dynamic_next_y_max -
        (detect_sweep2sleep x y s1).dynamic_next_y_min = 200 ∧
      (detect_sweep2sleep (x + dx) (y + dy) s2).dynamic_next_x_max -
        (detect_sweep2sleep (x + dx) (y + dy) s2).dynamic_next_x_min = 200 ∧
      (detect_sweep2sleep (x + dx) (y + dy) s2).dynamic_next_y_max -
        (detect_sweep2sleep (x + dx) (y + dy) s2).dynamic_next_y_min = 200) := by
  refine ⟨fun s x y hnew hl => detect_latch1_window x y s hnew hl, ?_, ?_⟩
  · intro s x y hr h2 hl
    exact (detect_latch2_window x y s h2 hl).2 (window_from_anchor_reachable s hr)
  · intro s1 s2 x y dx dy h1 h2 l1 l2
    have w1 := detect_latch1_window x y s1 (Or.inl h1) l1
    have w2 := detect_latch1_window (x + dx) (y + dy) s2 (Or.inl h2) l2
    unfold stored_window at w1 w2
    simp only [Prod.mk.injEq] at w1 w2
    obtain ⟨a1, a2, a3, a4⟩ := w1
    obtain ⟨b1, b2, b3, b4⟩ := w2
    rw [a1, a2, a3, a4, b1, b2, b3, b4]
    omega

/-- Witness of C7: the dynamic bank alone; the first sample (1000,1000) latches
stage 1, the second sample (800,1200) latches stage 2 and the window becomes
500, 700, 1300, 1500. -/
theorem C7_dynamic_window_follows_sample_witness :
    stored_window (detect_sweep2sleep 800 1200
      (run init ([Event.store (some 16) 3] ++ sample_events 1000 1000))) =
      (800 - 300, 800 - 100, 1200 + 100, 1200 + 300) :=
  C7_dynamic_window_follows_sample.2.1
    (run init ([Event.store (some 16) 3] ++ sample_events 1000 1000)) 800 1200
    ⟨[Event.store (some 16) 3] ++ sample_events 1000 1000, rfl⟩
    (by decide) (by decide)

/-! ## The latches after a call that matched -/

/-- A sample inside stage 3 of a static bank lies below the anchor of the
dynamic bank. -/
theorem static_stage3_not_anchor (j : Fin STATIC_BANKS) (x y : Int)
    (h : static_stage3 j x y) : ¬ dynamic_anchor 0 x y := by
  intro ha
  have hb := dynamic_anchor_bounds x y ha
  unfold static_stage3 at h
  rcases static_bank_cases j with rfl | rfl | rfl | rfl <;>
    simp [STATIC_Y_MIN3] at h <;> omega

/-- C8, as the code has it: a full match resets every bank at the match. When
a call presses the power key, then on return every stage 2 latch, static and
dynamic, is false, every stage 1 latch of a dynamic bank is false, and a
stage 1 latch of a static bank is true only for a bank whose stage 1 rectangle
strictly contains the sample: the static loop goes on after the reset, so that
bank latched stage 1 anew from the same sample. The dynamic bank cannot do
so: a static match needs `y > 1700` and the anchor `y < 1600`, and no bank is
evaluated after the dynamic one. No bank keeps progress made before the
match. -/
theorem C8_match_clears_earlier_progress (s : State) (x y : Int)
    (hp : pressed_between s (detect_sweep2sleep x y s)) :
    (∀ k, (detect_sweep2sleep x y s).static_barrier2 k = false) ∧
    (∀ k, (detect_sweep2sleep x y s).static_barrier1 k = true → static_stage1 k x y) ∧
    (∀ k, (detect_sweep2sleep x y s).dynamic_barrier2 k = false) ∧
    (∀ k, (detect_sweep2sleep x y s).dynamic_barrier1 k = false) := by
  have key := detect_sweep2sleep_induct2
    (fun t => t.powerkey_log = s.powerkey_log ∨
      ((∀ k, t.static_barrier2 k = false) ∧
        (∀ k, t.static_barrier1 k = true → static_stage1 k x y) ∧
        (∀ k, t.dynamic_barrier2 k = false) ∧ (∀ k, t.dynamic_barrier1 k = false) ∧
        ¬ dynamic_anchor 0 x y))
    (fun t => t.powerkey_log = s.powerkey_log ∨
      ((∀ k, t.static_barrier2 k = false) ∧
        (∀ k, t.static_barrier1 k = true → static_stage1 k x y) ∧
        (∀ k, t.dynamic_barrier2 k = false) ∧
        (∀ k, t.dynamic_barrier1 k = false)))
    x y s (Or.inl rfl) (fun hq => hq) ?_ ?_ (fun _ => Or.inl rfl)
  · rcases key with h | h
    · unfold pressed_between at hp
      rw [h] at hp
      exact absurd hp (lt_irrefl _)
    · exact h
  · intro t j ht
    rcases static_bank_step_cases x y t j with e | ⟨-, a1, -, e⟩ | ⟨-, a1, a2, -, e⟩ |
      ⟨-, -, -, a3, -, e⟩ <;> rw [e]
    · exact ht
    · rcases ht with h | ⟨h1, h2, h3, h4, h5⟩
      · exact Or.inl h
      · refine Or.inr ⟨h1, ?_, h3, h4, h5⟩
        intro k hk
        by_cases hkj : k = j
        · subst hkj
          rcases a1 with a | a
          · exact h2 k a
          · exact a
        · simp [Function.update_apply, hkj] at hk
          exact h2 k hk
    · rcases ht with h | ⟨h1, h2, -, -, -⟩
      · exact Or.inl h
      · have in1 : static_stage1 j x y := by
          rcases a1 with a | a
          · exact h2 j a
          · exact a
        have in2 : static_stage2 j x y := by
          rcases a2 with a | a
          · rw [h1 j] at a; exact absurd a (by decide)
          · exact a
        exact absurd in2 (static_stage1_not_stage2 j x y in1)
    · exact Or.inr ⟨fun _ => rfl, fun k hk => absurd hk (by simp [after_match]),
        fun _ => rfl, fun _ => rfl, static_stage3_not_anchor j x y a3⟩
  · intro t j ht
    rcases dynamic_bank_step_cases x y t j with e | ⟨-, -, a, e⟩ | ⟨-, a1, -, -, e⟩ |
      ⟨-, -, -, -, -, e⟩
    · rw [e]
      rcases ht with h | ⟨h1, h2, h3, h4, -⟩
      · exact Or.inl h
      · exact Or.inr ⟨h1, h2, h3, h4⟩
    · rcases ht with h | ⟨-, -, -, -, h5⟩
      · rw [e]; exact Or.inl h
      · rw [dynamic_bank_eq_zero j] at a
        exact absurd a h5
    · rcases ht with h | ⟨-, -, -, h4, -⟩
      · rw [e]; exact Or.inl h
      · rw [h4 j] at a1; exact absurd a1 (by decide)
    · rw [e]
      exact Or.inr ⟨fun _ => rfl, fun k hk => absurd hk (by simp [after_match]),
        fun _ => rfl, fun _ => rfl⟩

/-- Witness of C8 as amended: banks 3 and 4 active, stages 1 and 2 of bank 3
latched, and the sample (100,1800) that completes bank 3. -/
theorem C8_match_clears_earlier_progress_witness :
    (∀ k, (detect_sweep2sleep 100 1800
      (run init ([Event.store (some 12) 3] ++ sample_events 1000 1800 ++
        sample_events 500 1800))).static_barrier2 k = false) ∧
    (∀ k, (detect_sweep2sleep 100 1800
      (run init ([Event.store (some 12) 3] ++ sample_events 1000 1800 ++
        sample_events 500 1800))).static_barrier1 k = true → static_stage1 k 100 1800) ∧
    (∀ k, (detect_sweep2sleep 100 1800
      (run init ([Event.store (some 12) 3] ++ sample_events 1000 1800 ++
        sample_events 500 1800))).dynamic_barrier2 k = false) ∧
    (∀ k, (detect_sweep2sleep 100 1800
      (run init ([Event.store (some 12) 3] ++ sample_events 1000 1800 ++
        sample_events 500 1800))).dynamic_barrier1 k = false) :=
  C8_match_clears_earlier_progress
    (run init ([Event.store (some 12) 3] ++ sample_events 1000 1800 ++
      sample_events 500 1800)) 100 1800
    (show List.length _ < List.length _ by decide)

/-! ## Lift-off and slot change -/

theorem doubleTapStatusBar_frame (x y : Int) (s : State) :
    same_latches s (doubleTapStatusBar x y s) ∧
    (doubleTapStatusBar x y s).touch_y = s.touch_y := by
  unfold doubleTapStatusBar
  split_ifs <;> exact ⟨⟨rfl, rfl, rfl, rfl, rfl⟩, rfl⟩

theorem fresh_session_reset (s : State) : fresh_session (sweep2sleep_reset s) := by
  rw [sweep2sleep_reset_eq]
  exact ⟨fun _ => rfl, fun _ => rfl, fun _ => rfl, fun _ => rfl, rfl⟩

/-- The slot-change marker, spelled out. -/
theorem slot_change_eq (value : Int) (s : State) :
    slot_change value s = if s.s2s = 0 then s else sweep2sleep_reset s := by
  unfold slot_change s2s_input_event
  by_cases h : s.s2s = 0
  · rw [if_pos h, if_pos h]
  · rw [if_neg h, if_neg h, if_pos rfl]

/-- C11: the lift-off reset band. With the engine enabled, a lift-off whose
last known Y is in the button band (`touch_y >= 1900`) leaves the latches of
every bank and `exec_count` as they were; a lift-off with `touch_y < 1900`
performs the full reset: `exec_count` true and every latch false. -/
theorem C11_lift_off_reset_band (s : State) (h : s.s2s ≠ 0) :
    (S2S_Y_BUTTONLIMIT ≤ s.touch_y → same_latches s (lift_off s)) ∧
    (s.touch_y < S2S_Y_BUTTONLIMIT → fresh_session (lift_off s)) ∧
    S2S_Y_BUTTONLIMIT = 1900 := by
  have hd : ∀ t : State, t = (if Int.land s.s2s BIT_STATUSBAR_DTSLEEP ≠ 0 then
      doubleTapStatusBar s.touch_x s.touch_y s else s) →
      same_latches s t ∧ t.touch_y = s.touch_y := by
    intro t ht
    rw [ht]
    split_ifs
    · exact doubleTapStatusBar_frame _ _ s
    · exact ⟨⟨rfl, rfl, rfl, rfl, rfl⟩, rfl⟩
  obtain ⟨hl, hy⟩ := hd _ rfl
  rw [lift_off_eq, if_neg h, hy]
  refine ⟨fun hge => ?_, fun hlt => ?_, rfl⟩
  · rw [if_neg (not_lt.mpr hge)]
    exact hl
  · rw [if_pos hlt]
    exact fresh_session_reset _

/-- Witness of C11: bank 3 enabled and stage 1 latched by (1000,1800), a sample
above the button band; the lift-off resets. -/
theorem C11_lift_off_reset_band_witness :
    fresh_session (lift_off
      (run init ([Event.store (some 4) 2] ++ sample_events 1000 1800))) :=
  (C11_lift_off_reset_band
    (run init ([Event.store (some 4) 2] ++ sample_events 1000 1800))
    (by decide)).2.1 (by decide)

/-- C12: the claim that a slot change resets from every state, refuted on the
code. After the write of 4, the sample (1000,1800) and the write of 0, stage 1
of bank 3 is latched and `s2s` is 0; the dispatcher returns at once on the
slot-change event and the latch stays set. -/
theorem C12_slot_change_ignored_when_disabled :
    (run init ([Event.store (some 4) 2] ++ sample_events 1000 1800 ++
      [Event.store (some 0) 2])).s2s = 0 ∧
    (run init ([Event.store (some 4) 2] ++ sample_events 1000 1800 ++
      [Event.store (some 0) 2])).static_barrier1 2 = true ∧
    (slot_change 0 (run init ([Event.store (some 4) 2] ++ sample_events 1000 1800 ++
      [Event.store (some 0) 2]))).static_barrier1 2 = true ∧
    ¬ fresh_session (slot_change 0 (run init ([Event.store (some 4) 2] ++
      sample_events 1000 1800 ++ [Event.store (some 0) 2]))) := by
  refine ⟨by decide, by decide, by decide, ?_⟩
  intro h
  exact absurd (h.1 2) (by decide)

/-- C12, as the code has it: with the engine enabled, a slot change resets
whatever the last known coordinates and the value of the event are:
`exec_count` is true and every latch is false afterwards. With `s2s` zero the
event is ignored and the state is left as it was. -/
theorem C12_slot_change_resets_when_enabled (s : State) (value : Int) :
    (s.s2s ≠ 0 → fresh_session (slot_change value s)) ∧
    (s.s2s = 0 → slot_change value s = s) := by
  rw [slot_change_eq]
  refine ⟨fun h => ?_, fun h => ?_⟩
  · rw [if_neg h]
    exact fresh_session_reset s
  · rw [if_pos h]

/-- Witness of C12 as amended: bank 3 enabled, stage 1 latched, finger last
seen on the soft keys at y = 2000. -/
theorem C12_slot_change_resets_when_enabled_witness :
    fresh_session (slot_change 1
      (run init ([Event.store (some 4) 2] ++ sample_events 1000 1800 ++
        [Event.input ABS_MT_POSITION_Y 2000]))) :=
  (C12_slot_change_resets_when_enabled
    (run init ([Event.store (some 4) 2] ++ sample_events 1000 1800 ++
      [Event.input ABS_MT_POSITION_Y 2000])) 1).1 (by decide)

/-! ## The configuration attribute -/

/-- C16: malformed mask input is rejected atomically. When no integer is read
from the buffer, `sweep2sleep_store` returns `-EINVAL` (-22) and the state,
with `s2s`, `static_bank_active` and `dynamic_bank_active` in it, is left
exactly as it was. -/
theorem C16_malformed_input_rejected (count : Nat) (s : State) :
    (sweep2sleep_store none count s).1 = -EINVAL ∧ -EINVAL = (-22 : Int) ∧
    (sweep2sleep_store none count s).2 = s ∧
    (sweep2sleep_store none count s).2.s2s = s.s2s ∧
    (sweep2sleep_store none count s).2.static_bank_active = s.static_bank_active ∧
    (sweep2sleep_store none count s).2.dynamic_bank_active = s.dynamic_bank_active :=
  ⟨rfl, rfl, rfl, rfl, rfl, rfl⟩

/-! ## Calls outside the preconditions -/

theorem detect_sweep2sleep_gate_closed (x y : Int) (s : State)
    (h : s.scr_suspended = true ∨ s.s2s = 0) : detect_sweep2sleep x y s = s := by
  unfold detect_sweep2sleep
  rw [if_neg]
  rintro ⟨h1, h2⟩
  rcases h with h | h
  · rw [h1] at h; exact absurd h (by decide)
  · exact h2 h

/-- Outside the runs of the driver only the press is under the guard: in a
state with `exec_count` false, bank 3 active and the screen on, the sample
(1000,1800) latches stage 1 of bank 3; with the dynamic bank active, the
sample (1000,1000) latches its stage 1 and stores the window 700, 900, 1100,
1300. No run of the driver hands a call such a state (`exec_count_reachable`
below). -/
theorem latches_advance_without_guard :
    ({ static_bank_alone 2 with exec_count := false } : State).static_barrier1 2 = false ∧
    (detect_sweep2sleep 1000 1800
      { static_bank_alone 2 with exec_count := false }).static_barrier1 2 = true ∧
    stored_window
      { init with s2s := 16, dynamic_bank_active := fun _ => true, exec_count := false } =
      (0, 0, 0, 0) ∧
    stored_window (detect_sweep2sleep 1000 1000
      { init with s2s := 16, dynamic_bank_active := fun _ => true, exec_count := false }) =
      (700, 900, 1100, 1300) ∧
    (detect_sweep2sleep 1000 1000
      { init with s2s := 16, dynamic_bank_active := fun _ => true,
                  exec_count := false }).dynamic_barrier1 0 = true := by
  decide

/-! ## The mask of implemented functions -/

theorem IMPLEMENTED_FUNCTIONS_eq : IMPLEMENTED_FUNCTIONS = 0x1C := by decide

theorem nat_mod4_of_testBit (n : Nat) (h0 : n.testBit 0 = false) (h1 : n.testBit 1 = false) :
    n % 4 = 0 := by
  rw [Nat.testBit_to_div_mod] at h0 h1
  simp at h0 h1
  omega

theorem nat_testBit_28_high (i : Nat) (hi : i ≥ 5) : Nat.testBit 28 i = false := by
  apply Nat.testBit_lt_two_pow
  calc 28 < 2 ^ 5 := by decide
    _ ≤ 2 ^ i := Nat.pow_le_pow_right (by decide) hi

/-- Whatever the integer, its bitwise and with the implemented mask is one of
0, 4, 8, ..., 28. -/
theorem land_implemented (v : Int) :
    ∃ n : Nat, Int.land v IMPLEMENTED_FUNCTIONS = (n : Int) ∧ n < 32 ∧ n % 4 = 0 := by
  have t0 : Nat.testBit 28 0 = false := by decide
  have t1 : Nat.testBit 28 1 = false := by decide
  rw [IMPLEMENTED_FUNCTIONS_eq]
  cases v with
  | ofNat m =>
    refine ⟨m &&& 28, rfl, ?_, ?_⟩
    · exact lt_of_le_of_lt Nat.and_le_right (by decide)
    · apply nat_mod4_of_testBit <;> simp [t0, t1]
  | negSucc m =>
    refine ⟨Nat.ldiff 28 m, rfl, ?_, ?_⟩
    · apply Nat.lt_pow_two_of_testBit _ (n := 5)
      intro i hi
      rw [Nat.testBit_ldiff, nat_testBit_28_high i hi]
      rfl
    · apply nat_mod4_of_testBit <;> rw [Nat.testBit_ldiff] <;> simp [t0, t1]

/-- On a value that is not negative the driver's bit test is the usual one. -/
theorem bit_of_natCast (n k : Nat) : bit_of (n : Int) k = Nat.testBit n k := by
  have e1 : ((n : Int) >>> k) = ((n >>> k : Nat) : Int) := rfl
  have e2 : Int.land ((n >>> k : Nat) : Int) 0x01 = ((n >>> k &&& 1 : Nat) : Int) := rfl
  unfold bit_of
  rw [e1, e2, Nat.and_one_is_mod, Nat.shiftRight_eq_div_pow, Nat.testBit_to_div_mod]
  by_cases h : n / 2 ^ k % 2 = 1
  · simp [h]
  · have h0 : n / 2 ^ k % 2 = 0 := by omega
    simp [h0]

/-- What a write of an integer does: the count is returned, `s2s` becomes the
masked value, the four static flags and the flag of the dynamic bank are read
off its bits. Nothing else changes. -/
theorem sweep2sleep_store_some (v : Int) (count : Nat) (s : State) :
    sweep2sleep_store (some v) count s =
      ((count : Int),
       { s with
         s2s := Int.land v IMPLEMENTED_FUNCTIONS,
         static_bank_active := fun i => bit_of (Int.land v IMPLEMENTED_FUNCTIONS) i.val,
         dynamic_bank_active := Function.update s.dynamic_bank_active
           (dynamic_bank_index 0) (bit_of (Int.land v IMPLEMENTED_FUNCTIONS) 4) }) := by
  obtain ⟨n, hn, hlt, -⟩ := land_implemented v
  have hr : Int.land v IMPLEMENTED_FUNCTIONS ≥ 0x00 ∧
      Int.land v IMPLEMENTED_FUNCTIONS ≤ 0xFFFF := by
    rw [hn]; omega
  have h4 : ∀ (f : Fin BANKS_MAX → Bool) (b : Nat → Bool),
      Function.update (Function.update (Function.update (Function.update f 0 (b 0))
        1 (b 1)) 2 (b 2)) 3 (b 3) = fun i => b i.val := by
    intro f b; funext j
    rcases static_bank_cases j with rfl | rfl | rfl | rfl <;>
      (simp [Function.update]; try rfl)
  unfold sweep2sleep_store
  simp only []
  rw [if_pos hr]
  simp only [finRange_STATIC_BANKS, finRange_DYNAMIC_BANKS, List.foldl]
  have h4' := h4 s.static_bank_active (fun k => bit_of (Int.land v IMPLEMENTED_FUNCTIONS) k)
  simp only [bit_of] at h4' ⊢
  congr 2

theorem int_testBit_implemented (k : Nat) (h2 : k ≠ 2) (h3 : k ≠ 3) (h4 : k ≠ 4) :
    Int.testBit 0x1C k = false := by
  show Nat.testBit 28 k = false
  by_cases hk : k ≥ 5
  · exact nat_testBit_28_high k hk
  · have hk' : k = 0 ∨ k = 1 := by omega
    rcases hk' with rfl | rfl <;> decide

/-- C15: the configuration mask is masked, not rejected. For every integer
read from the buffer, negative ones and ones with reserved bits included,
`sweep2sleep_store` returns `count`, sets `s2s` to the value and-ed with
`IMPLEMENTED_FUNCTIONS` (0x1C), sets `static_bank_active[i]` to bit `i` of the
new `s2s` for the four static banks and `dynamic_bank_active[0]` to bit 4.
Bit by bit the new `s2s` is the and of the value and 0x1C, so every bit other
than 2, 3 and 4 is clear and the new `s2s` lies between 0 and 0x1C. -/
theorem C15_mask_is_masked (v : Int) (count : Nat) (s : State) :
    (sweep2sleep_store (some v) count s).1 = count ∧
    (sweep2sleep_store (some v) count s).2.s2s = Int.land v IMPLEMENTED_FUNCTIONS ∧
    IMPLEMENTED_FUNCTIONS = 0x1C ∧
    (∀ i : Fin STATIC_BANKS,
      (sweep2sleep_store (some v) count s).2.static_bank_active i =
        bit_of (sweep2sleep_store (some v) count s).2.s2s i.val) ∧
    (sweep2sleep_store (some v) count s).2.dynamic_bank_active (dynamic_bank_index 0) =
      bit_of (sweep2sleep_store (some v) count s).2.s2s 4 ∧
    (∀ k, bit_of (sweep2sleep_store (some v) count s).2.s2s k =
      Int.testBit (sweep2sleep_store (some v) count s).2.s2s k) ∧
    (∀ k, Int.testBit (sweep2sleep_store (some v) count s).2.s2s k =
      (Int.testBit v k && Int.testBit 0x1C k)) ∧
    (∀ k, k ≠ 2 → k ≠ 3 → k ≠ 4 →
      Int.testBit (sweep2sleep_store (some v) count s).2.s2s k = false) ∧
    0 ≤ (sweep2sleep_store (some v) count s).2.s2s ∧
    (sweep2sleep_store (some v) count s).2.s2s ≤ 0x1C := by
  obtain ⟨n, hn, hlt, hmod⟩ := land_implemented v
  have hbit : ∀ k, Int.testBit (Int.land v IMPLEMENTED_FUNCTIONS) k =
      (Int.testBit v k && Int.testBit 0x1C k) := by
    intro k
    rw [IMPLEMENTED_FUNCTIONS_eq, Int.testBit_land]
  rw [sweep2sleep_store_some]
  refine ⟨rfl, rfl, IMPLEMENTED_FUNCTIONS_eq, fun _ => rfl, by simp, ?_, hbit, ?_, ?_, ?_⟩
  · intro k
    show bit_of (Int.land v IMPLEMENTED_FUNCTIONS) k =
      Int.testBit (Int.land v IMPLEMENTED_FUNCTIONS) k
    rw [hn, bit_of_natCast]
    rfl
  · intro k h2 h3 h4
    show Int.testBit (Int.land v IMPLEMENTED_FUNCTIONS) k = false
    rw [hbit, int_testBit_implemented k h2 h3 h4, Bool.and_false]
  · show 0 ≤ Int.land v IMPLEMENTED_FUNCTIONS
    rw [hn]; omega
  · show Int.land v IMPLEMENTED_FUNCTIONS ≤ 0x1C
    rw [hn]; omega

/-- A write of -1 enables exactly the three implemented functions. -/
theorem sweep2sleep_store_minus_one :
    (sweep2sleep_store (some (-1)) 3 init).1 = 3 ∧
    (sweep2sleep_store (some (-1)) 3 init).2.s2s = 28 ∧
    (sweep2sleep_store (some (-1)) 3 init).2.static_bank_active 0 = false ∧
    (sweep2sleep_store (some (-1)) 3 init).2.static_bank_active 1 = false ∧
    (sweep2sleep_store (some (-1)) 3 init).2.static_bank_active 2 = true ∧
    (sweep2sleep_store (some (-1)) 3 init).2.static_bank_active 3 = true ∧
    (sweep2sleep_store (some (-1)) 3 init).2.dynamic_bank_active 0 = true := by
  have hl : Nat.ldiff 28 0 = 28 :=
    Nat.eq_of_testBit_eq (fun i => by rw [Nat.testBit_ldiff]; simp)
  have hv : Int.land (-1) IMPLEMENTED_FUNCTIONS = 28 := by
    rw [IMPLEMENTED_FUNCTIONS_eq]
    show ((Nat.ldiff 28 0 : Nat) : Int) = 28
    rw [hl]; rfl
  rw [sweep2sleep_store_some, hv]
  exact ⟨rfl, rfl, by decide, by decide, by decide, by decide, by decide⟩

/-! ## What the events leave alone -/

theorem sweep2sleep_reset_config (s : State) :
    (sweep2sleep_reset s).s2s = s.s2s ∧
    (sweep2sleep_reset s).scr_suspended = s.scr_suspended ∧
    (sweep2sleep_reset s).static_bank_active = s.static_bank_active ∧
    (sweep2sleep_reset s).dynamic_bank_active = s.dynamic_bank_active ∧
    (sweep2sleep_reset s).touch_y = s.touch_y := by
  rw [sweep2sleep_reset_eq]
  exact ⟨rfl, rfl, rfl, rfl, rfl⟩

theorem doubleTapStatusBar_config (x y : Int) (s : State) :
    (doubleTapStatusBar x y s).s2s = s.s2s ∧
    (doubleTapStatusBar x y s).scr_suspended = s.scr_suspended ∧
    (doubleTapStatusBar x y s).static_bank_active = s.static_bank_active ∧
    (doubleTapStatusBar x y s).dynamic_bank_active = s.dynamic_bank_active ∧
    (doubleTapStatusBar x y s).touch_y = s.touch_y := by
  unfold doubleTapStatusBar
  split_ifs <;> exact ⟨rfl, rfl, rfl, rfl, rfl⟩

/-- An input event that is neither a slot change nor a lift-off, on an enabled
engine: the coordinate is stored and the work queued once both coordinates
have arrived. -/
theorem s2s_input_event_position (code : Nat) (value : Int) (s : State)
    (h0 : s.s2s ≠ 0) (h1 : code ≠ ABS_MT_SLOT)
    (h2 : ¬ (code = ABS_MT_TRACKING_ID ∧ value = -1)) :
    ∃ (tx ty : Int) (cx cy p : Bool),
      s2s_input_event code value s =
        { s with touch_x := tx, touch_y := ty, touch_x_called := cx,
                 touch_y_called := cy, s2s_input_work_pending := p } := by
  unfold s2s_input_event
  rw [if_neg h0, if_neg h1, if_neg h2]
  simp only []
  split_ifs
  all_goals first
    | exact ⟨_, _, _, _, _, rfl⟩

/-- The input event dispatcher, by cases: ignored, slot change, lift-off, or a
coordinate update. -/
theorem s2s_input_event_cases (code : Nat) (value : Int) (s : State) :
    s2s_input_event code value s = s ∨
    s2s_input_event code value s = slot_change value s ∨
    s2s_input_event code value s = lift_off s ∨
    (s.s2s ≠ 0 ∧ ∃ (tx ty : Int) (cx cy p : Bool),
      s2s_input_event code value s =
        { s with touch_x := tx, touch_y := ty, touch_x_called := cx,
                 touch_y_called := cy, s2s_input_work_pending := p }) := by
  by_cases h0 : s.s2s = 0
  · left
    unfold s2s_input_event
    rw [if_pos h0]
  by_cases h1 : code = ABS_MT_SLOT
  · right; left
    rw [h1]; rfl
  by_cases h2 : code = ABS_MT_TRACKING_ID ∧ value = -1
  · right; right; left
    rw [h2.1, h2.2]; rfl
  · right; right; right
    exact ⟨h0, s2s_input_event_position code value s h0 h1 h2⟩

theorem lift_off_config (s : State) :
    (lift_off s).s2s = s.s2s ∧
    (lift_off s).scr_suspended = s.scr_suspended ∧
    (lift_off s).static_bank_active = s.static_bank_active ∧
    (lift_off s).dynamic_bank_active = s.dynamic_bank_active := by
  have hd : ∀ t : State, t = (if Int.land s.s2s BIT_STATUSBAR_DTSLEEP ≠ 0 then
      doubleTapStatusBar s.touch_x s.touch_y s else s) →
      t.s2s = s.s2s ∧ t.scr_suspended = s.scr_suspended ∧
      t.static_bank_active = s.static_bank_active ∧
      t.dynamic_bank_active = s.dynamic_bank_active := by
    intro t ht
    rw [ht]
    split_ifs
    · obtain ⟨a, b, c, d, -⟩ := doubleTapStatusBar_config s.touch_x s.touch_y s
      exact ⟨a, b, c, d⟩
    · exact ⟨rfl, rfl, rfl, rfl⟩
  obtain ⟨a, b, c, d⟩ := hd _ rfl
  rw [lift_off_eq]
  generalize (if Int.land s.s2s BIT_STATUSBAR_DTSLEEP ≠ 0 then
      doubleTapStatusBar s.touch_x s.touch_y s else s) = t at a b c d ⊢
  split_ifs
  · exact ⟨rfl, rfl, rfl, rfl⟩
  · obtain ⟨a', b', c', d', -⟩ := sweep2sleep_reset_config t
    exact ⟨a'.trans a, b'.trans b, c'.trans c, d'.trans d⟩
  · exact ⟨a, b, c, d⟩

theorem slot_change_config (value : Int) (s : State) :
    (slot_change value s).s2s = s.s2s ∧
    (slot_change value s).scr_suspended = s.scr_suspended ∧
    (slot_change value s).static_bank_active = s.static_bank_active ∧
    (slot_change value s).dynamic_bank_active = s.dynamic_bank_active := by
  rw [slot_change_eq]
  split_ifs
  · exact ⟨rfl, rfl, rfl, rfl⟩
  · obtain ⟨a, b, c, d, -⟩ := sweep2sleep_reset_config s
    exact ⟨a, b, c, d⟩

theorem s2s_input_event_config (code : Nat) (value : Int) (s : State) :
    (s2s_input_event code value s).s2s = s.s2s ∧
    (s2s_input_event code value s).scr_suspended = s.scr_suspended ∧
    (s2s_input_event code value s).static_bank_active = s.static_bank_active ∧
    (s2s_input_event code value s).dynamic_bank_active = s.dynamic_bank_active := by
  rcases s2s_input_event_cases code value s with e | e | e | ⟨-, _, _, _, _, _, e⟩ <;> rw [e]
  · exact ⟨rfl, rfl, rfl, rfl⟩
  · exact slot_change_config value s
  · exact lift_off_config s
  · exact ⟨rfl, rfl, rfl, rfl⟩

theorem s2s_input_callback_config (s : State) :
    (s2s_input_callback s).s2s = s.s2s ∧
    (s2s_input_callback s).scr_suspended = s.scr_suspended ∧
    (s2s_input_callback s).static_bank_active = s.static_bank_active ∧
    (s2s_input_callback s).dynamic_bank_active = s.dynamic_bank_active := by
  unfold s2s_input_callback
  split_ifs
  · exact detect_sweep2sleep_config _ _ s
  · exact ⟨rfl, rfl, rfl, rfl⟩

/-! ## The double-tap bit cannot be written -/

/-- After a write of an integer the double-tap bit is clear and static banks 0
and 1 are inactive, whatever the state was. -/
theorem mask_invariant_store_some (v : Int) (count : Nat) (s : State) :
    mask_invariant (sweep2sleep_store (some v) count s).2 := by
  obtain ⟨n, hn, hlt, hmod⟩ := land_implemented v
  rw [sweep2sleep_store_some]
  unfold mask_invariant
  show Int.land (Int.land v IMPLEMENTED_FUNCTIONS) BIT_STATUSBAR_DTSLEEP = 0 ∧
    bit_of (Int.land v IMPLEMENTED_FUNCTIONS) 0 = false ∧
    bit_of (Int.land v IMPLEMENTED_FUNCTIONS) 1 = false
  rw [hn, bit_of_natCast, bit_of_natCast]
  refine ⟨?_, ?_, ?_⟩
  · show ((n &&& 256 : Nat) : Int) = 0
    have : n &&& 256 = 0 := by
      apply Nat.eq_of_testBit_eq
      intro i
      rw [Nat.testBit_and, Nat.zero_testBit]
      by_cases hi : i = 8
      · subst hi
        rw [Nat.testBit_lt_two_pow (lt_trans hlt (by decide))]
        rfl
      · have h256 : Nat.testBit 256 i = false := by
          have e : (256 : Nat) = 2 ^ 8 := by decide
          rw [e, Nat.testBit_two_pow]
          simp
          omega
        rw [h256, Bool.and_false]
    rw [this]; rfl
  · rw [Nat.testBit_to_div_mod]
    simp
    omega
  · rw [Nat.testBit_to_div_mod]
    simp
    omega

theorem mask_invariant_store (buf : Option Int) (count : Nat) (s : State)
    (h : mask_invariant s) : mask_invariant (sweep2sleep_store buf count s).2 := by
  cases buf with
  | none => exact h
  | some v => exact mask_invariant_store_some v count s

theorem mask_invariant_congr (s t : State) (h1 : t.s2s = s.s2s)
    (h2 : t.static_bank_active = s.static_bank_active) (h : mask_invariant s) :
    mask_invariant t := by
  unfold mask_invariant at h ⊢
  rw [h1, h2]
  exact h

theorem mask_invariant_step (s : State) (ev : Event) (h : mask_invariant s) :
    mask_invariant (step s ev) := by
  cases ev with
  | store buf count => exact mask_invariant_store buf count s h
  | lcd event =>
    simp only [step, lcd_notifier_callback]
    split_ifs <;> exact h
  | input code value =>
    obtain ⟨a, -, c, -⟩ := s2s_input_event_config code value s
    exact mask_invariant_congr s _ a c h
  | work =>
    simp only [step]
    split_ifs
    · obtain ⟨a, -, c, -⟩ := s2s_input_callback_config
        { s with s2s_input_work_pending := false }
      exact mask_invariant_congr s _ a c h
    · exact h
  | timer =>
    simp only [step, statusBarTimer_work]
    split_ifs <;> exact h

theorem mask_invariant_run (evs : List Event) :
    ∀ s : State, mask_invariant s → mask_invariant (run s evs) := by
  induction evs with
  | nil => intro s h; exact h
  | cons ev evs ih => intro s h; exact ih _ (mask_invariant_step s ev h)

theorem mask_invariant_reachable (s : State) (h : Reachable s) : mask_invariant s := by
  obtain ⟨evs, rfl⟩ := h
  exact mask_invariant_run evs init ⟨by decide, rfl, rfl⟩

/-- With the double-tap bit clear, a lift-off does not reach
`doubleTapStatusBar`: it is the reset, or nothing. -/
theorem lift_off_without_double_tap (s : State)
    (h : Int.land s.s2s BIT_STATUSBAR_DTSLEEP = 0) :
    lift_off s =
      if s.s2s = 0 then s
      else if s.touch_y < S2S_Y_BUTTONLIMIT then sweep2sleep_reset s else s := by
  have hn : ¬ (Int.land s.s2s BIT_STATUSBAR_DTSLEEP ≠ 0) := fun hc => hc h
  rw [lift_off_eq, if_neg hn]

theorem lift_off_double_tap_untouched (s : State)
    (h : Int.land s.s2s BIT_STATUSBAR_DTSLEEP = 0) :
    (lift_off s).powerkey_log = s.powerkey_log ∧
    (lift_off s).statusBarWithinTime = s.statusBarWithinTime ∧
    (lift_off s).statusBarTimer_pending = s.statusBarTimer_pending := by
  rw [lift_off_without_double_tap s h]
  split_ifs
  · exact ⟨rfl, rfl, rfl⟩
  · rw [sweep2sleep_reset_eq]
    exact ⟨rfl, rfl, rfl⟩
  · exact ⟨rfl, rfl, rfl⟩

/-- C18: the double-tap feature bit cannot be enabled through the
configuration attribute. After a write of any integer, `s2s` has
`BIT_STATUSBAR_DTSLEEP` (0x0100) clear and static banks 0 and 1 are inactive.
So in every state reachable from the initial state the bit is clear and the
two banks are inactive, also after one more write of any buffer; a lift-off
there is not a qualifying tap, does not reach `doubleTapStatusBar` (it is the
reset or nothing), presses nothing and leaves the double-tap state alone. -/
theorem C18_double_tap_never_enabled :
    (∀ (v : Int) (count : Nat) (s : State),
      mask_invariant (sweep2sleep_store (some v) count s).2) ∧
    (∀ s : State, Reachable s →
      Int.land s.s2s BIT_STATUSBAR_DTSLEEP = 0 ∧
      s.static_bank_active 0 = false ∧ s.static_bank_active 1 = false ∧
      (∀ (buf : Option Int) (count : Nat),
        mask_invariant (sweep2sleep_store buf count s).2) ∧
      ¬ qualifying_tap s ∧
      lift_off s =
        (if s.s2s = 0 then s
         else if s.touch_y < S2S_Y_BUTTONLIMIT then sweep2sleep_reset s else s) ∧
      (lift_off s).powerkey_log = s.powerkey_log ∧
      (lift_off s).statusBarWithinTime = s.statusBarWithinTime ∧
      (lift_off s).statusBarTimer_pending = s.statusBarTimer_pending) ∧
    BIT_STATUSBAR_DTSLEEP = 0x0100 := by
  refine ⟨?_, ?_, rfl⟩
  · exact mask_invariant_store_some
  · intro s hr
    obtain ⟨h1, h2, h3⟩ := mask_invariant_reachable s hr
    obtain ⟨l1, l2, l3⟩ := lift_off_double_tap_untouched s h1
    exact ⟨h1, h2, h3, fun buf count => mask_invariant_store buf count s ⟨h1, h2, h3⟩,
      fun hq => hq.1 h1, lift_off_without_double_tap s h1, l1, l2, l3⟩

/-- Witness of C18: a write of 0x11C, which asks for the double-tap bit and for
the three implemented functions, leaves `s2s` at 0x1C. -/
theorem C18_double_tap_never_enabled_witness :
    Int.land (run init [Event.store (some 0x11C) 4]).s2s BIT_STATUSBAR_DTSLEEP = 0 ∧
    (run init [Event.store (some 0x11C) 4]).s2s = 0x1C :=
  ⟨(C18_double_tap_never_enabled.2.1 (run init [Event.store (some 0x11C) 4])
      ⟨[Event.store (some 0x11C) 4], rfl⟩).1, by decide⟩

/-! ## The screen gate -/

theorem sweep2sleep_store_screen (buf : Option Int) (count : Nat) (s : State) :
    (sweep2sleep_store buf count s).2.scr_suspended = s.scr_suspended ∧
    (sweep2sleep_store buf count s).2.powerkey_log = s.powerkey_log := by
  cases buf with
  | none => exact ⟨rfl, rfl⟩
  | some v =>
    rw [sweep2sleep_store_some]
    exact ⟨rfl, rfl⟩

theorem s2s_input_event_suspended_log (code : Nat) (value : Int) (s : State)
    (hs : s.scr_suspended = true) :
    (s2s_input_event code value s).powerkey_log = s.powerkey_log := by
  rcases s2s_input_event_cases code value s with e | e | e | ⟨-, _, _, _, _, _, e⟩ <;> rw [e]
  · rw [slot_change_eq]
    split_ifs
    · rfl
    · exact sweep2sleep_reset_powerkey_log s
  · rw [(lift_off_double_tap_fields s).2,
      doubleTapStatusBar_gated _ _ s (Or.inr (Or.inr hs))]
    split_ifs <;> rfl

theorem lcd_off_eq (s : State) :
    step s (Event.lcd LCD_EVENT_OFF_END) = { s with scr_suspended := true } := by
  have hne : ¬ (LCD_EVENT_OFF_END = LCD_EVENT_ON_END) := by decide
  show lcd_notifier_callback LCD_EVENT_OFF_END s = _
  unfold lcd_notifier_callback
  rw [if_neg hne, if_pos rfl]

theorem lcd_on_eq (s : State) :
    step s (Event.lcd LCD_EVENT_ON_END) = { s with scr_suspended := false } := by
  show lcd_notifier_callback LCD_EVENT_ON_END s = _
  unfold lcd_notifier_callback
  rw [if_pos rfl]

/-- With the screen suspended, an event other than the screen-on notification
leaves the screen suspended and presses nothing. -/
theorem suspended_step (s : State) (ev : Event) (hs : s.scr_suspended = true)
    (hev : ev ≠ Event.lcd LCD_EVENT_ON_END) :
    (step s ev).scr_suspended = true ∧ (step s ev).powerkey_log = s.powerkey_log := by
  cases ev with
  | store buf count =>
    obtain ⟨a, b⟩ := sweep2sleep_store_screen buf count s
    exact ⟨a.trans hs, b⟩
  | lcd event =>
    have hne : event ≠ LCD_EVENT_ON_END := fun hc => hev (by rw [hc])
    simp only [step, lcd_notifier_callback]
    rw [if_neg hne]
    split_ifs
    · exact ⟨rfl, rfl⟩
    · exact ⟨hs, rfl⟩
  | input code value =>
    exact ⟨(s2s_input_event_config code value s).2.1.trans hs,
      s2s_input_event_suspended_log code value s hs⟩
  | work =>
    simp only [step, s2s_input_callback]
    split_ifs
    · rw [detect_sweep2sleep_gate_closed _ _ { s with s2s_input_work_pending := false }
        (Or.inl hs)]
      exact ⟨hs, rfl⟩
    · exact ⟨hs, rfl⟩
    · exact ⟨hs, rfl⟩
  | timer =>
    simp only [step, statusBarTimer_work]
    split_ifs
    · exact ⟨hs, rfl⟩
    · exact ⟨hs, rfl⟩

theorem suspended_run (evs : List Event) :
    ∀ s : State, s.scr_suspended = true →
      (∀ ev ∈ evs, ev ≠ Event.lcd LCD_EVENT_ON_END) →
      (run s evs).scr_suspended = true ∧ (run s evs).powerkey_log = s.powerkey_log := by
  induction evs with
  | nil => intro s hs _; exact ⟨hs, rfl⟩
  | cons ev evs ih =>
    intro s hs hev
    obtain ⟨a, b⟩ := suspended_step s ev hs (hev ev (List.mem_cons_self ev evs))
    obtain ⟨c, d⟩ := ih (step s ev) a (fun e he => hev e (List.mem_cons_of_mem ev he))
    exact ⟨c, d.trans b⟩

/-- C14: the claim that detection is inert after the screen-on notification,
refuted on the code. After the write of 4, a screen-off and a screen-on
notification, the screen is not suspended: the sample (1000,1800) latches
stage 1 of bank 3, the sweep (1000,1800), (500,1800), (100,1800) presses the
power key, and two taps on the status bar press it through
`doubleTapStatusBar`. -/
theorem C14_detection_runs_after_screen_on :
    (run init [Event.store (some 4) 2, Event.lcd LCD_EVENT_OFF_END,
      Event.lcd LCD_EVENT_ON_END]).scr_suspended = false ∧
    (run init [Event.store (some 4) 2, Event.lcd LCD_EVENT_OFF_END,
      Event.lcd LCD_EVENT_ON_END]).static_barrier1 2 = false ∧
    (detect_sweep2sleep 1000 1800 (run init [Event.store (some 4) 2,
      Event.lcd LCD_EVENT_OFF_END, Event.lcd LCD_EVENT_ON_END])).static_barrier1 2 = true ∧
    (detect_all (run init [Event.store (some 4) 2, Event.lcd LCD_EVENT_OFF_END,
      Event.lcd LCD_EVENT_ON_END])
      [(1000, 1800), (500, 1800), (100, 1800)]).powerkey_log =
        [PressSite.static_gesture 2] ∧
    (run init ([Event.store (some 4) 2, Event.lcd LCD_EVENT_OFF_END,
      Event.lcd LCD_EVENT_ON_END] ++ sample_events 1000 1800 ++ sample_events 500 1800 ++
      sample_events 100 1800)).powerkey_log = [PressSite.static_gesture 2] ∧
    (doubleTapStatusBar 500 40 (run init [Event.store (some 4) 2,
      Event.lcd LCD_EVENT_OFF_END, Event.lcd LCD_EVENT_ON_END])).statusBarWithinTime = 1 ∧
    (doubleTapStatusBar 500 40 (doubleTapStatusBar 500 40 (run init
      [Event.store (some 4) 2, Event.lcd LCD_EVENT_OFF_END,
        Event.lcd LCD_EVENT_ON_END]))).powerkey_log = [PressSite.status_bar] := by
  decide

/-- C14, as the code has it: the screen gate closes on screen-off. After the
power notifier delivers `LCD_EVENT_OFF_END`, and for as long as no
`LCD_EVENT_ON_END` is delivered, whatever else happens, the screen flag stays
suspended, nothing is pressed, and every `detect_sweep2sleep` call and every
`doubleTapStatusBar` call returns the state as it was; the next
`LCD_EVENT_ON_END` clears the flag and detection runs again. -/
theorem C14_screen_off_gates_detection (s : State) (evs : List Event)
    (h : ∀ ev ∈ evs, ev ≠ Event.lcd LCD_EVENT_ON_END) :
    (run s (Event.lcd LCD_EVENT_OFF_END :: evs)).scr_suspended = true ∧
    (run s (Event.lcd LCD_EVENT_OFF_END :: evs)).powerkey_log = s.powerkey_log ∧
    (∀ x y, detect_sweep2sleep x y (run s (Event.lcd LCD_EVENT_OFF_END :: evs)) =
      run s (Event.lcd LCD_EVENT_OFF_END :: evs)) ∧
    (∀ x y, doubleTapStatusBar x y (run s (Event.lcd LCD_EVENT_OFF_END :: evs)) =
      run s (Event.lcd LCD_EVENT_OFF_END :: evs)) ∧
    (run s (Event.lcd LCD_EVENT_OFF_END :: evs ++
      [Event.lcd LCD_EVENT_ON_END])).scr_suspended = false := by
  have e0 : run s (Event.lcd LCD_EVENT_OFF_END :: evs) =
      run (step s (Event.lcd LCD_EVENT_OFF_END)) evs := rfl
  have h0 : (step s (Event.lcd LCD_EVENT_OFF_END)).scr_suspended = true ∧
      (step s (Event.lcd LCD_EVENT_OFF_END)).powerkey_log = s.powerkey_log := by
    rw [lcd_off_eq]
    exact ⟨rfl, rfl⟩
  obtain ⟨a, b⟩ := suspended_run evs _ h0.1 h
  have e1 : run s (Event.lcd LCD_EVENT_OFF_END :: evs ++ [Event.lcd LCD_EVENT_ON_END]) =
      step (run s (Event.lcd LCD_EVENT_OFF_END :: evs)) (Event.lcd LCD_EVENT_ON_END) := by
    unfold run
    rw [List.foldl_append]
    rfl
  rw [e1, e0]
  refine ⟨a, b.trans h0.2, fun x y => detect_sweep2sleep_gate_closed x y _ (Or.inl a),
    fun x y => doubleTapStatusBar_gated x y _ (Or.inr (Or.inr a)), ?_⟩
  rw [lcd_on_eq]

/-- Witness of C14 as amended: bank 3 enabled, the screen goes off, and a full
sweep arrives as input events: nothing is pressed. -/
theorem C14_screen_off_gates_detection_witness :
    (run (run init [Event.store (some 4) 2])
      (Event.lcd LCD_EVENT_OFF_END ::
        (sample_events 1000 1800 ++ sample_events 500 1800 ++
          sample_events 100 1800))).powerkey_log =
      (run init [Event.store (some 4) 2]).powerkey_log :=
  (C14_screen_off_gates_detection (run init [Event.store (some 4) 2])
    (sample_events 1000 1800 ++ sample_events 500 1800 ++ sample_events 100 1800)
    (by
      intro ev hev
      simp [sample_events] at hev
      rcases hev with rfl | rfl | rfl | rfl | rfl | rfl | rfl | rfl | rfl <;> simp)).2.1

/-! ## One call, one press at most -/

/-- C17: at most one trigger per call. For every state and every sample, the
press log after a `detect_sweep2sleep` call is the log before it, or the log
before it with one entry appended: after a match the reset clears every latch,
and the banks still to be evaluated on the same sample cannot complete, the
stages of a static bank being disjoint and the dynamic bank needing a latched
stage 1. -/
theorem C17_at_most_one_press_per_call (s : State) (x y : Int) :
    ((detect_sweep2sleep x y s).powerkey_log = s.powerkey_log ∨
      ∃ site, (detect_sweep2sleep x y s).powerkey_log = s.powerkey_log ++ [site]) ∧
    (detect_sweep2sleep x y s).powerkey_log.length ≤ s.powerkey_log.length + 1 := by
  have key := detect_sweep2sleep_induct2
    (fun t => t.powerkey_log = s.powerkey_log ∨
      ((∃ site, t.powerkey_log = s.powerkey_log ++ [site]) ∧
        (∀ k, t.static_barrier2 k = false) ∧
        (∀ k, t.static_barrier1 k = true → static_stage1 k x y) ∧
        (∀ k, t.dynamic_barrier1 k = false)))
    (fun t => t.powerkey_log = s.powerkey_log ∨
      ∃ site, t.powerkey_log = s.powerkey_log ++ [site])
    x y s (Or.inl rfl) (fun hq => hq) ?_ ?_ (fun _ => Or.inl rfl)
  · refine ⟨key, ?_⟩
    rcases key with h | ⟨site, h⟩ <;> rw [h] <;> simp
  · intro t j ht
    rcases static_bank_step_cases x y t j with e | ⟨-, a1, -, e⟩ | ⟨-, a1, a2, -, e⟩ |
      ⟨-, a1, a2, a3, -, e⟩
    · rw [e]; exact ht
    · rw [e]
      rcases ht with h | ⟨hl, h1, h2, h3⟩
      · exact Or.inl h
      · refine Or.inr ⟨hl, h1, ?_, h3⟩
        intro k hk
        by_cases hkj : k = j
        · subst hkj
          rcases a1 with a | a
          · exact h2 k a
          · exact a
        · simp [Function.update_apply, hkj] at hk
          exact h2 k hk
    · rcases ht with h | ⟨-, h1, h2, -⟩
      · rw [e]; exact Or.inl h
      · have in1 : static_stage1 j x y := by
          rcases a1 with a | a
          · exact h2 j a
          · exact a
        have in2 : static_stage2 j x y := by
          rcases a2 with a | a
          · rw [h1 j] at a; exact absurd a (by decide)
          · exact a
        exact absurd in2 (static_stage1_not_stage2 j x y in1)
    · rcases ht with h | ⟨-, h1, -, -⟩
      · rw [e]
        exact Or.inr ⟨⟨PressSite.static_gesture j, by simp [after_match, h]⟩,
          fun _ => rfl, fun k hk => absurd hk (by simp [after_match]), fun _ => rfl⟩
      · have in2 : static_stage2 j x y := by
          rcases a2 with a | a
          · rw [h1 j] at a; exact absurd a (by decide)
          · exact a
        exact absurd a3 (static_stage2_not_stage3 j x y in2)
  · intro t j ht
    rcases dynamic_bank_step_cases x y t j with e | ⟨-, -, -, e⟩ | ⟨-, a1, -, -, e⟩ |
      ⟨-, a1, -, -, -, e⟩
    · rw [e]
      rcases ht with h | ⟨hl, -⟩
      · exact Or.inl h
      · exact Or.inr hl
    · rw [e]
      rcases ht with h | ⟨hl, -⟩
      · exact Or.inl h
      · exact Or.inr hl
    · rcases ht with h | ⟨-, -, -, h3⟩
      · rw [e]; exact Or.inl h
      · rw [h3 j] at a1; exact absurd a1 (by decide)
    · rcases ht with h | ⟨-, -, -, h3⟩
      · rw [e]
        exact Or.inr ⟨PressSite.dynamic_gesture j, by simp [after_match, h]⟩
      · rw [h3 j] at a1; exact absurd a1 (by decide)

/-! ## Latches only go up between resets -/

theorem update_true_kept {n : Nat} (f g : Fin n → Bool) (j : Fin n)
    (h : ∀ k, f k = true → g k = true) :
    ∀ k, f k = true → Function.update g j true k = true := by
  intro k hk
  by_cases hkj : k = j
  · subst hkj; simp
  · simp [Function.update_apply, hkj, h k hk]

/-- One call either logs a press or keeps every latch that was set. -/
theorem detect_pressed_or_kept (x y : Int) (s : State) :
    s.powerkey_log.length < (detect_sweep2sleep x y s).powerkey_log.length ∨
    ((detect_sweep2sleep x y s).powerkey_log = s.powerkey_log ∧
      latches_kept s (detect_sweep2sleep x y s)) := by
  refine detect_sweep2sleep_induct
    (fun t => s.powerkey_log.length < t.powerkey_log.length ∨
      (t.powerkey_log = s.powerkey_log ∧ latches_kept s t))
    x y s (Or.inr ⟨rfl, fun _ h => h, fun _ h => h, fun _ h => h, fun _ h => h⟩)
    (fun hp => hp) ?_ ?_
  · intro t j ht
    rcases static_bank_step_log x y t j with el | el
    · rcases ht with h | ⟨hl, k1, k2, k3, k4⟩
      · left; rw [el]; exact h
      · right
        refine ⟨el.trans hl, ?_⟩
        rcases static_bank_step_cases x y t j with e | ⟨-, -, -, e⟩ | ⟨-, -, -, -, e⟩ |
          ⟨-, -, -, -, -, e⟩
        · rw [e]; exact ⟨k1, k2, k3, k4⟩
        · rw [e]; exact ⟨update_true_kept _ _ j k1, k2, k3, k4⟩
        · rw [e]; exact ⟨update_true_kept _ _ j k1, update_true_kept _ _ j k2, k3, k4⟩
        · rw [e] at el
          simp [after_match] at el
    · left
      rw [el]
      rcases ht with h | ⟨hl, -⟩
      · simp; omega
      · rw [hl]; simp
  · intro t j ht
    rcases dynamic_bank_step_log x y t j with el | el
    · rcases ht with h | ⟨hl, k1, k2, k3, k4⟩
      · left; rw [el]; exact h
      · right
        refine ⟨el.trans hl, ?_⟩
        rcases dynamic_bank_step_cases x y t j with e | ⟨-, -, -, e⟩ | ⟨-, -, -, -, e⟩ |
          ⟨-, -, -, -, -, e⟩
        · rw [e]; exact ⟨k1, k2, k3, k4⟩
        · rw [e]; exact ⟨k1, k2, update_true_kept _ _ j k3, k4⟩
        · rw [e]; exact ⟨k1, k2, k3, update_true_kept _ _ j k4⟩
        · rw [e] at el
          simp [after_match] at el
    · left
      rw [el]
      rcases ht with h | ⟨hl, -⟩
      · simp; omega
      · rw [hl]; simp

theorem s2s_input_event_latches (code : Nat) (value : Int) (s : State) :
    same_latches s (s2s_input_event code value s) ∨
    fresh_session (s2s_input_event code value s) := by
  rcases s2s_input_event_cases code value s with e | e | e | ⟨-, _, _, _, _, _, e⟩ <;> rw [e]
  · exact Or.inl ⟨rfl, rfl, rfl, rfl, rfl⟩
  · rw [slot_change_eq]
    split_ifs
    · exact Or.inl ⟨rfl, rfl, rfl, rfl, rfl⟩
    · exact Or.inr (fresh_session_reset s)
  · have hd : ∀ t : State, t = (if Int.land s.s2s BIT_STATUSBAR_DTSLEEP ≠ 0 then
        doubleTapStatusBar s.touch_x s.touch_y s else s) → same_latches s t := by
      intro t ht
      rw [ht]
      split_ifs
      · exact (doubleTapStatusBar_frame _ _ s).1
      · exact ⟨rfl, rfl, rfl, rfl, rfl⟩
    have hl := hd _ rfl
    rw [lift_off_eq]
    generalize (if Int.land s.s2s BIT_STATUSBAR_DTSLEEP ≠ 0 then
        doubleTapStatusBar s.touch_x s.touch_y s else s) = t at hl ⊢
    split_ifs
    · exact Or.inl ⟨rfl, rfl, rfl, rfl, rfl⟩
    · exact Or.inr (fresh_session_reset t)
    · exact Or.inl hl
  · exact Or.inl ⟨rfl, rfl, rfl, rfl, rfl⟩

/-- C19: latches are monotone within a session. If a `detect_sweep2sleep` call
does not press the power key, every static and dynamic latch that was true
before the call is true after it; a call after which a latch has gone from
true to false logged a press, that is, went through the match path and its
`sweep2sleep_reset`. The other handlers leave the latches as they are, except
the input event dispatcher on a slot change or a lift-off, where
`sweep2sleep_reset` clears them all. -/
theorem C19_latches_monotone (s : State) (x y : Int) :
    ((detect_sweep2sleep x y s).powerkey_log = s.powerkey_log →
      latches_kept s (detect_sweep2sleep x y s)) ∧
    (¬ latches_kept s (detect_sweep2sleep x y s) →
      pressed_between s (detect_sweep2sleep x y s)) ∧
    (∀ (code : Nat) (value : Int),
      same_latches s (s2s_input_event code value s) ∨
      fresh_session (s2s_input_event code value s)) ∧
    (∀ (buf : Option Int) (count : Nat),
      same_latches s (sweep2sleep_store buf count s).2) ∧
    (∀ event, same_latches s (lcd_notifier_callback event s)) ∧
    same_latches s (statusBarTimer_work s) ∧
    (∀ x1 y1, same_latches s (doubleTapStatusBar x1 y1 s)) := by
  refine ⟨?_, ?_, fun code value => s2s_input_event_latches code value s, ?_, ?_, ⟨rfl, rfl, rfl, rfl, rfl⟩,
    fun x1 y1 => (doubleTapStatusBar_frame x1 y1 s).1⟩
  · intro h
    rcases detect_pressed_or_kept x y s with hp | ⟨-, hk⟩
    · rw [h] at hp; exact absurd hp (lt_irrefl _)
    · exact hk
  · intro hn
    rcases detect_pressed_or_kept x y s with hp | ⟨-, hk⟩
    · exact hp
    · exact absurd hk hn
  · intro buf count
    cases buf with
    | none => exact ⟨rfl, rfl, rfl, rfl, rfl⟩
    | some v =>
      rw [sweep2sleep_store_some]
      exact ⟨rfl, rfl, rfl, rfl, rfl⟩
  · intro event
    unfold lcd_notifier_callback
    split_ifs <;> exact ⟨rfl, rfl, rfl, rfl, rfl⟩

/-- Witness of C19: bank 3 with stage 1 latched; the sample (900,1000), which
is in no stage of bank 3, presses nothing and the latch stays set. -/
theorem C19_latches_monotone_witness :
    latches_kept (run init ([Event.store (some 4) 2] ++ sample_events 1000 1800))
      (detect_sweep2sleep 900 1000
        (run init ([Event.store (some 4) 2] ++ sample_events 1000 1800))) :=
  (C19_latches_monotone
    (run init ([Event.store (some 4) 2] ++ sample_events 1000 1800)) 900 1000).1
    (by decide)

/-! ## The stored window changes on a latch only -/

/-- A call leaves the stored window as it was, or found stage 1 of the dynamic
bank unlatched and latched it on a sample of the anchor, or found stage 1
latched and stage 2 not and latched stage 2 on a sample of the stored window;
in the last two cases the window is the one computed from the sample. -/
theorem detect_window_cases (x y : Int) (s : State) :
    stored_window (detect_sweep2sleep x y s) = stored_window s ∨
    (s.dynamic_barrier1 0 = false ∧ (detect_sweep2sleep x y s).dynamic_barrier1 0 = true ∧
      dynamic_anchor 0 x y ∧
      stored_window (detect_sweep2sleep x y s) = computed_window x y) ∨
    (s.dynamic_barrier1 0 = true ∧ s.dynamic_barrier2 0 = false ∧ in_window s x y ∧
      (detect_sweep2sleep x y s).dynamic_barrier2 0 = true ∧
      stored_window (detect_sweep2sleep x y s) = computed_window x y) := by
  refine detect_sweep2sleep_induct2
    (fun t =>
      (t.dynamic_barrier1 0 = s.dynamic_barrier1 0 ∧
        t.dynamic_barrier2 0 = s.dynamic_barrier2 0 ∧
        stored_window t = stored_window s) ∨
      (stored_window t = stored_window s ∧ t.dynamic_barrier1 0 = false ∧
        t.dynamic_barrier2 0 = false ∧ ¬ dynamic_anchor 0 x y))
    (fun r =>
      stored_window r = stored_window s ∨
      (s.dynamic_barrier1 0 = false ∧ r.dynamic_barrier1 0 = true ∧
        dynamic_anchor 0 x y ∧ stored_window r = computed_window x y) ∨
      (s.dynamic_barrier1 0 = true ∧ s.dynamic_barrier2 0 = false ∧ in_window s x y ∧
        r.dynamic_barrier2 0 = true ∧ stored_window r = computed_window x y))
    x y s (Or.inl ⟨rfl, rfl, rfl⟩) (fun hp => hp) ?_ ?_ (fun _ => Or.inl rfl)
  · intro t j ht
    rcases static_bank_step_cases x y t j with e | ⟨-, -, -, e⟩ | ⟨-, -, -, -, e⟩ |
      ⟨-, -, -, a3, -, e⟩ <;> rw [e]
    · exact ht
    · exact ht
    · exact ht
    · refine Or.inr ⟨?_, rfl, rfl, static_stage3_not_anchor j x y a3⟩
      rcases ht with ⟨-, -, hw⟩ | ⟨hw, -⟩ <;> exact hw
  · intro t j ht
    rw [dynamic_bank_eq_zero j]
    rcases dynamic_bank_step_cases x y t 0 with e | ⟨-, a1, a, e⟩ | ⟨-, a1, a2, aw, e⟩ |
      ⟨-, -, -, -, -, e⟩
    · rw [e]
      rcases ht with ⟨-, -, hw⟩ | ⟨hw, -⟩ <;> exact Or.inl hw
    · rcases ht with ⟨h1, -, -⟩ | ⟨-, -, -, hn⟩
      · rw [e]
        exact Or.inr (Or.inl ⟨h1.symm.trans a1, by simp, a, rfl⟩)
      · exact absurd a hn
    · rcases ht with ⟨h1, h2, hw⟩ | ⟨-, h1, -, -⟩
      · rw [e]
        refine Or.inr (Or.inr ⟨h1.symm.trans a1, h2.symm.trans a2, ?_, by simp, rfl⟩)
        unfold in_window at aw ⊢
        unfold stored_window at hw
        simp only [Prod.mk.injEq] at hw
        obtain ⟨w1, w2, w3, w4⟩ := hw
        rw [← w1, ← w2, ← w3, ← w4]
        exact aw
      · rw [h1] at a1; exact absurd a1 (by decide)
    · rw [e]
      rcases ht with ⟨-, -, hw⟩ | ⟨hw, -⟩ <;> exact Or.inl hw

/-- C20: the dynamic window is computed once on a latch. A `detect_sweep2sleep`
call changes the stored target window only when it newly latches dynamic
stage 1 or newly latches dynamic stage 2. With stage 1 latched and the sample
not strictly inside the stored window, the window is unchanged, also when the
sample lies inside the anchor again; with both stages latched no sample
changes it. -/
theorem C20_window_computed_once (s : State) (x y : Int) :
    (stored_window (detect_sweep2sleep x y s) ≠ stored_window s →
      (s.dynamic_barrier1 0 = false ∧
        (detect_sweep2sleep x y s).dynamic_barrier1 0 = true) ∨
      (s.dynamic_barrier2 0 = false ∧
        (detect_sweep2sleep x y s).dynamic_barrier2 0 = true)) ∧
    (s.dynamic_barrier1 0 = true → ¬ in_window s x y →
      stored_window (detect_sweep2sleep x y s) = stored_window s) ∧
    (s.dynamic_barrier1 0 = true → s.dynamic_barrier2 0 = true →
      stored_window (detect_sweep2sleep x y s) = stored_window s) := by
  refine ⟨?_, ?_, ?_⟩
  · intro hne
    rcases detect_window_cases x y s with h | ⟨a1, b1, -, -⟩ | ⟨-, a2, -, b2, -⟩
    · exact absurd h hne
    · exact Or.inl ⟨a1, b1⟩
    · exact Or.inr ⟨a2, b2⟩
  · intro h1 hw
    rcases detect_window_cases x y s with h | ⟨a1, -⟩ | ⟨-, -, aw, -⟩
    · exact h
    · rw [h1] at a1; exact absurd a1 (by decide)
    · exact absurd aw hw
  · intro h1 h2
    rcases detect_window_cases x y s with h | ⟨a1, -⟩ | ⟨-, a2, -⟩
    · exact h
    · rw [h1] at a1; exact absurd a1 (by decide)
    · rw [h2] at a2; exact absurd a2 (by decide)

/-- Witness of C20: the dynamic bank with stage 1 latched by (1000,1000) and
the window 700, 900, 1100, 1300 stored; the same sample again is inside the
anchor and outside the window, and the window stays. -/
theorem C20_window_computed_once_witness :
    stored_window (detect_sweep2sleep 1000 1000
      (run init ([Event.store (some 16) 3] ++ sample_events 1000 1000))) =
      stored_window (run init ([Event.store (some 16) 3] ++ sample_events 1000 1000)) ∧
    dynamic_anchor 0 1000 1000 ∧
    stored_window (run init ([Event.store (some 16) 3] ++ sample_events 1000 1000)) =
      (700, 900, 1100, 1300) :=
  ⟨(C20_window_computed_once
      (run init ([Event.store (some 16) 3] ++ sample_events 1000 1000)) 1000 1000).2.1
      (by decide) (by decide),
    by decide, by decide⟩

/-! ## The session guard between calls -/

end Sweep2Sleep
